import Mathlib

/-!
# GZSelaco Archipelago client: session layer over the WebSocket transport

A shallow embedding of `src/archipelago/{websocket_client,ap_definitions,archipelago_client}`.

Conventions of the embedding:

* `std::string` is `Str`, a list of characters; `std::vector<T>` is `List T`;
  `std::unordered_set<int64_t>` is `Finset Int`.
* `int64_t` and `int32_t` values that are only stored and compared are `Int`;
  the `int32_t` item counter, on which the code does arithmetic, is wrapped by
  `toInt32` at every assignment.
* Every method is a function from the object state to the new state (and the
  returned value); a method that can throw, or end the process through
  `std::terminate`, returns an `Except`.  Methods run one at a time: the
  interleaving of the application thread and the transport threads is not
  modelled.
* A vector passed by reference that the callee changes while it reads it is
  named, not copied: `LocationIds` says whether `CheckLocations` was given a
  vector of the caller or one of the client's own members.
* An application callback is an observer: the state records whether one is
  registered (`on_..._`), and invoking it appends an `APEvent` to `events`.
  A callback does not call back into the client.
* The rapidjson writer is an external library: it is the parameter `J`, and the
  rapidjson reader the parameter `R`.  A failed `RAPIDJSON_ASSERT` is the error
  result `AssertionFailure`.
* Socket traffic is a list of bytes (`List Nat`, each below 256).  The results of
  the system calls are parameters of the thread procedures: `send` gives the
  value returned for a buffer, and the reads list what each `recv` stored.
-/

namespace GZSelaco

/-- The type `std::string`. -/
abbrev Str := List Char

/-! ## ap_definitions.h -/

/-- Connection states of the session (`enum class APConnectionState`). -/
inductive APConnectionState
  | Disconnected
  | Connecting
  | Connected
  | Authenticated
  | Failed
  deriving DecidableEq

/-- Client status values (`enum class APClientStatus : int32_t`). -/
inductive APClientStatus
  | CLIENT_UNKNOWN
  | CLIENT_CONNECTED
  | CLIENT_READY
  | CLIENT_PLAYING
  | CLIENT_GOAL
  deriving DecidableEq

/-- The enumerator values: `static_cast<int32_t>(status)`. -/
def APClientStatus.toInt32 : APClientStatus → Int
  | .CLIENT_UNKNOWN => 0
  | .CLIENT_CONNECTED => 5
  | .CLIENT_READY => 10
  | .CLIENT_PLAYING => 20
  | .CLIENT_GOAL => 30

/-- Permission flags (`enum class APPermission : int32_t`). -/
inductive APPermission
  | DISABLED
  | ENABLED
  | GOAL
  | AUTO
  | AUTO_ENABLED
  deriving DecidableEq

/-- A `double`, kept as its IEEE-754 bit pattern; the code only stores and copies it. -/
structure Double where
  bits : Nat := 0
  deriving DecidableEq

structure APNetworkVersion where
  major : Int := 0
  minor : Int := 5
  build : Int := 1
  class_name : Str := "Version".toList
  deriving DecidableEq

structure APNetworkItem where
  item : Int := 0
  location : Int := 0
  player : Int := 0
  flags : Int := 0
  deriving DecidableEq

structure APNetworkPlayer where
  team : Int := 0
  slot : Int := 0
  alias_ : Str := []
  name : Str := []
  deriving DecidableEq

structure APJSONMessagePart where
  type : Str := []
  text : Str := []
  color : Str := []
  flags : Int := 0
  player : Int := 0
  deriving DecidableEq

structure APConnectPacket where
  password : Str := []
  game : Str := "Selaco".toList
  name : Str := []
  uuid : Str := []
  version : APNetworkVersion := {}
  items_handling : Int := 7
  tags : List Str := []
  slot_data : Bool := true
  deriving DecidableEq

structure APLocationChecksPacket where
  locations : List Int := []
  deriving DecidableEq

structure APStatusUpdatePacket where
  status : APClientStatus := .CLIENT_UNKNOWN
  deriving DecidableEq

structure APSayPacket where
  text : Str := []
  deriving DecidableEq

structure APGetDataPackagePacket where
  games : List Str := []
  deriving DecidableEq

structure APRoomInfoPacket where
  version : APNetworkVersion := {}
  generator_version : APNetworkVersion := {}
  tags : List Str := []
  password : Bool := false
  permissions : List (Str × APPermission) := []
  hint_cost : Int := 0
  location_check_points : Int := 0
  games : List Str := []
  datapackage_checksums : List (Str × Str) := []
  seed_name : Str := []
  time : Double := {}
  deriving DecidableEq

structure APConnectedPacket where
  team : Int := 0
  slot : Int := 0
  players : List APNetworkPlayer := []
  missing_locations : List Int := []
  checked_locations : List Int := []
  slot_data : List (Str × Str) := []
  slot_info : List (Int × Str) := []
  hint_points : Int := 0
  deriving DecidableEq

structure APConnectionRefusedPacket where
  errors : List Str := []
  deriving DecidableEq

structure APReceivedItemsPacket where
  index : Int := 0
  items : List APNetworkItem := []
  deriving DecidableEq

structure APPrintJSONPacket where
  data : List APJSONMessagePart := []
  type : Str := []
  receiving : Int := 0
  item : APNetworkItem := {}
  found : Bool := false
  team : Int := 0
  slot : Int := 0
  message : Str := []
  tags : List Str := []
  countdown : Int := 0
  deriving DecidableEq

/-- The packet classes derived from `APPacket` that `ap_definitions.cpp` implements. -/
inductive APPacket
  | Connect (p : APConnectPacket)
  | Sync
  | LocationChecks (p : APLocationChecksPacket)
  | StatusUpdate (p : APStatusUpdatePacket)
  | Say (p : APSayPacket)
  | GetDataPackage (p : APGetDataPackagePacket)
  | RoomInfo (p : APRoomInfoPacket)
  | Connected (p : APConnectedPacket)
  | ConnectionRefused (p : APConnectionRefusedPacket)
  | ReceivedItems (p : APReceivedItemsPacket)
  | PrintJSON (p : APPrintJSONPacket)
  deriving DecidableEq

/-- The `cmd` string that each packet constructor sets. -/
def APPacket.cmd : APPacket → Str
  | .Connect _ => "Connect".toList
  | .Sync => "Sync".toList
  | .LocationChecks _ => "LocationChecks".toList
  | .StatusUpdate _ => "StatusUpdate".toList
  | .Say _ => "Say".toList
  | .GetDataPackage _ => "GetDataPackage".toList
  | .RoomInfo _ => "RoomInfo".toList
  | .Connected _ => "Connected".toList
  | .ConnectionRefused _ => "ConnectionRefused".toList
  | .ReceivedItems _ => "ReceivedItems".toList
  | .PrintJSON _ => "PrintJSON".toList

/-! ## The JSON document tree (`rapidjson::Value`) -/

/-- A `rapidjson::Value`.  An object keeps its members in insertion order; an
integer number of any width is `int`. -/
inductive JValue
  | null
  | bool (b : Bool)
  | int (n : Int)
  | real (d : Double)
  | str (s : Str)
  | arr (xs : List JValue)
  | obj (members : List (Str × JValue))

/-- The rapidjson `Writer`: turns a document tree into text. -/
abbrev JsonWriter := JValue → Str

/-- The string `rapidjson::Value(s.c_str(), allocator)` holds: the C string ends at the
first NUL character. -/
def c_str (s : Str) : Str :=
  s.takeWhile (fun c => c != Char.ofNat 0)

def APNetworkVersion.ToJSON (v : APNetworkVersion) : JValue :=
  .obj [("major".toList, .int v.major), ("minor".toList, .int v.minor),
    ("build".toList, .int v.build), ("class".toList, .str (c_str v.class_name))]

def APNetworkItem.ToJSON (i : APNetworkItem) : JValue :=
  .obj [("item".toList, .int i.item), ("location".toList, .int i.location),
    ("player".toList, .int i.player), ("flags".toList, .int i.flags)]

def APNetworkPlayer.ToJSON (p : APNetworkPlayer) : JValue :=
  .obj [("team".toList, .int p.team), ("slot".toList, .int p.slot),
    ("alias".toList, .str (c_str p.alias_)), ("name".toList, .str (c_str p.name))]

def APJSONMessagePart.ToJSON (p : APJSONMessagePart) : JValue :=
  .obj ([("type".toList, .str (c_str p.type)), ("text".toList, .str (c_str p.text))]
    ++ (if p.color ≠ [] then [("color".toList, JValue.str (c_str p.color))] else [])
    ++ (if p.flags ≠ 0 then [("flags".toList, JValue.int p.flags)] else [])
    ++ (if p.player ≠ 0 then [("player".toList, JValue.int p.player)] else []))

/-- The virtual `ToJSON` of each packet class. -/
def APPacket.ToJSON (pk : APPacket) : JValue :=
  match pk with
  | .Connect p =>
    .obj [("cmd".toList, .str (c_str pk.cmd)), ("password".toList, .str (c_str p.password)),
      ("game".toList, .str (c_str p.game)), ("name".toList, .str (c_str p.name)),
      ("uuid".toList, .str (c_str p.uuid)), ("version".toList, p.version.ToJSON),
      ("items_handling".toList, .int p.items_handling),
      ("slot_data".toList, .bool p.slot_data),
      ("tags".toList, .arr (p.tags.map (fun t => JValue.str (c_str t))))]
  | .Sync => .obj [("cmd".toList, .str (c_str pk.cmd))]
  | .LocationChecks p =>
    .obj [("cmd".toList, .str (c_str pk.cmd)), ("locations".toList, .arr (p.locations.map JValue.int))]
  | .StatusUpdate p =>
    .obj [("cmd".toList, .str (c_str pk.cmd)), ("status".toList, .int p.status.toInt32)]
  | .Say p => .obj [("cmd".toList, .str (c_str pk.cmd)), ("text".toList, .str (c_str p.text))]
  | .GetDataPackage p =>
    .obj ([("cmd".toList, JValue.str (c_str pk.cmd))]
      ++ (if p.games ≠ [] then [("games".toList, JValue.arr (p.games.map (fun t => JValue.str (c_str t))))] else []))
  | .RoomInfo p =>
    .obj [("cmd".toList, .str (c_str pk.cmd)), ("version".toList, p.version.ToJSON),
      ("generator_version".toList, p.generator_version.ToJSON),
      ("password".toList, .bool p.password), ("hint_cost".toList, .int p.hint_cost),
      ("location_check_points".toList, .int p.location_check_points),
      ("seed_name".toList, .str (c_str p.seed_name)), ("time".toList, .real p.time),
      ("tags".toList, .arr (p.tags.map (fun t => JValue.str (c_str t)))),
      ("games".toList, .arr (p.games.map (fun t => JValue.str (c_str t))))]
  | .Connected p =>
    .obj [("cmd".toList, .str (c_str pk.cmd)), ("team".toList, .int p.team),
      ("slot".toList, .int p.slot), ("hint_points".toList, .int p.hint_points),
      ("players".toList, .arr (p.players.map APNetworkPlayer.ToJSON)),
      ("missing_locations".toList, .arr (p.missing_locations.map JValue.int)),
      ("checked_locations".toList, .arr (p.checked_locations.map JValue.int))]
  | .ConnectionRefused p =>
    .obj [("cmd".toList, .str (c_str pk.cmd)), ("errors".toList, .arr (p.errors.map (fun t => JValue.str (c_str t))))]
  | .ReceivedItems p =>
    .obj [("cmd".toList, .str (c_str pk.cmd)), ("index".toList, .int p.index),
      ("items".toList, .arr (p.items.map APNetworkItem.ToJSON))]
  | .PrintJSON p =>
    .obj [("cmd".toList, .str (c_str pk.cmd)), ("type".toList, .str (c_str p.type)),
      ("data".toList, .arr (p.data.map APJSONMessagePart.ToJSON))]

/-- `APPacketToString`: build the document with `ToJSON`, then run the writer. -/
def APPacketToString (J : JsonWriter) (packet : APPacket) : Str :=
  c_str (J packet.ToJSON)

/-! ## Standard-library string functions used by the code -/

/-- What ends a call that does not return: one of the exceptions `std::stoi` throws,
or `std::terminate`, which ends the process. -/
inductive StdException
  | invalid_argument
  | out_of_range
  | terminate
  deriving DecidableEq

deriving instance DecidableEq for Except

/-- The test `startsWith pat s`: whether the string `s` begins with `pat`. -/
def startsWith : Str → Str → Bool
  | [], _ => true
  | _ :: _, [] => false
  | p :: ps, c :: cs => p == c && startsWith ps cs

/-- Search of `pat` in `s`, the first position being numbered `i`: the string
`find(pat)`, where `none` is `npos`. -/
def findStrFrom (pat : Str) : Str → Nat → Option Nat
  | [], i => if pat = [] then some i else none
  | c :: t, i => if startsWith pat (c :: t) then some i else findStrFrom pat t (i + 1)

/-- The call `s.find(pat)`; `none` is `npos`. -/
def findStr (s pat : Str) : Option Nat :=
  findStrFrom pat s 0

/-- The call `s.find(c, pos)`; `none` is `npos`. -/
def findChar (s : Str) (c : Char) (pos : Nat) : Option Nat :=
  let t := s.drop pos
  let i := t.indexOf c
  if i < t.length then some (pos + i) else none

/-- The call `s.substr(pos, len)`, for `pos` within the string. -/
def substr (s : Str) (pos len : Nat) : Str :=
  (s.drop pos).take len

/-- The C function `isspace` in the C locale. -/
def isspace (c : Char) : Bool :=
  c.toNat = 32 || (9 ≤ c.toNat && c.toNat ≤ 13)

/-- Value of a run of decimal digits, most significant first. -/
def digitsValue (ds : Str) : Nat :=
  ds.foldl (fun acc c => acc * 10 + (c.toNat - 48)) 0

/-- The call `std::stoi(s)`: white space, an optional sign, then decimal digits; what
follows the digits is ignored.  No digit throws `invalid_argument`, a value
outside `int` throws `out_of_range`. -/
def stoi (s : Str) : Except StdException Int :=
  let s := s.dropWhile isspace
  let signed : Bool × Str :=
    match s with
    | c :: t => if c = '-' then (true, t) else if c = '+' then (false, t) else (false, s)
    | [] => (false, s)
  let ds := signed.2.takeWhile Char.isDigit
  if ds = [] then .error .invalid_argument
  else
    let v : Int := if signed.1 then -(digitsValue ds : Int) else (digitsValue ds : Int)
    if v < -2147483648 ∨ 2147483647 < v then .error .out_of_range else .ok v

/-- Decimal digits of `n`, most significant first, by recursion on a bound `fuel > n`. -/
def decimalDigits : Nat → Nat → Str
  | 0, _ => []
  | fuel + 1, n =>
    if n < 10 then [Nat.digitChar n]
    else decimalDigits fuel (n / 10) ++ [Nat.digitChar (n % 10)]

/-- The call `std::to_string(n)` for an `int`. -/
def to_string (n : Int) : Str :=
  if n < 0 then '-' :: decimalDigits (n.natAbs + 1) n.natAbs
  else decimalDigits (n.natAbs + 1) n.natAbs

/-- Conversion to `int32_t`: two's complement wrap-around. -/
def toInt32 (x : Int) : Int :=
  (x + 2147483648) % 4294967296 - 2147483648

/-! ## websocket_client -/

/-- WebSocket connection states (`enum class WSConnectionState`). -/
inductive WSConnectionState
  | Disconnected
  | Connecting
  | Connected
  | Closing
  | Failed
  deriving DecidableEq

/-- WebSocket message types (`enum class WSMessageType`). -/
inductive WSMessageType
  | Text
  | Binary
  | Close
  | Ping
  | Pong
  deriving DecidableEq

structure WSMessage where
  type : WSMessageType
  data : Str
  deriving DecidableEq

/-- The members of `WebSocketImpl`.  `std::make_unique<WebSocketImpl>()`
value-initialises the object, so `port` is 0 and `use_ssl` is false; no code
assigns `host`, `port`, `path` or `use_ssl`. -/
structure WebSocketImpl where
  socket_fd : Int := -1
  connected : Bool := false
  host : Str := []
  port : Int := 0
  path : Str := []
  use_ssl : Bool := false
  deriving DecidableEq

/-- The object state of `WebSocketClient`.  `socket_writes` lists the buffers handed
to the socket `send` so far and the `..._threads_started` fields count the
threads created.  A `std::thread` object is joined in the destructor only, so
`connection_thread_` holds a joinable thread exactly when
`connection_threads_started` is not 0. -/
structure WebSocketClient where
  host_ : Str := []
  port_ : Int := 0
  path_ : Str := []
  use_ssl_ : Bool := false
  state_ : WSConnectionState := .Disconnected
  impl_ : WebSocketImpl := {}
  should_stop_ : Bool := false
  should_reconnect_ : Bool := false
  outbound_queue_ : List WSMessage := []
  auto_reconnect_ : Bool := false
  reconnect_delay_ms_ : Int := 3000
  connection_timeout_ms_ : Int := 10000
  ping_interval_ms_ : Int := 30000
  messages_sent_ : Nat := 0
  messages_received_ : Nat := 0
  bytes_sent_ : Nat := 0
  bytes_received_ : Nat := 0
  socket_writes : List (List Nat) := []
  connection_threads_started : Nat := 0
  message_threads_started : Nat := 0
  reconnect_threads_started : Nat := 0
  deriving DecidableEq

namespace WebSocketClient

def SetState (ws : WebSocketClient) (new_state : WSConnectionState) : WebSocketClient :=
  { ws with state_ := new_state }

def IsConnected (ws : WebSocketClient) : Bool :=
  ws.state_ = .Connected

/-- `Connect(host, port, path, use_ssl)`: refused while connecting or connected;
otherwise the connection thread is started and assigned to `connection_thread_`.
When `connection_thread_` already holds the thread of an earlier call, the
assignment destroys that joinable `std::thread`, which calls `std::terminate`:
the call does not return, and the state given is the one the process ends in. -/
def ConnectHost (ws : WebSocketClient) (host : Str) (port : Int) (path : Str) (use_ssl : Bool) :
    Except StdException Bool × WebSocketClient :=
  if ws.state_ = .Connected ∨ ws.state_ = .Connecting then (.ok false, ws)
  else
    let joinable : Bool := ws.connection_threads_started ≠ 0
    let ws := { ws with host_ := host, port_ := port, path_ := path, use_ssl_ := use_ssl }
    let ws := ws.SetState .Connecting
    let ws := { ws with should_stop_ := false,
                        connection_threads_started := ws.connection_threads_started + 1 }
    if joinable then (.error .terminate, ws) else (.ok true, ws)

/-- `Disconnect(code, reason)`: a connected socket gets the two-byte Close frame
and is closed. -/
def Disconnect (ws : WebSocketClient) : WebSocketClient :=
  let ws := { ws with should_stop_ := true, should_reconnect_ := false }
  let ws :=
    if ws.impl_.connected then
      { ws with socket_writes := ws.socket_writes ++ [[0x88, 0x00]],
                impl_ := { ws.impl_ with connected := false } }
    else ws
  ws.SetState .Disconnected

def SendText (ws : WebSocketClient) (message : Str) : Bool × WebSocketClient :=
  if !ws.IsConnected then (false, ws)
  else (true, { ws with outbound_queue_ := ws.outbound_queue_ ++ [⟨.Text, message⟩] })

def SendBinary (ws : WebSocketClient) (data : Str) : Bool × WebSocketClient :=
  if !ws.IsConnected then (false, ws)
  else (true, { ws with outbound_queue_ := ws.outbound_queue_ ++ [⟨.Binary, data⟩] })

def SendPing (ws : WebSocketClient) (data : Str) : Bool × WebSocketClient :=
  if !ws.IsConnected then (false, ws)
  else (true, { ws with outbound_queue_ := ws.outbound_queue_ ++ [⟨.Ping, data⟩] })

def ShouldReconnect (ws : WebSocketClient) : Bool :=
  ws.auto_reconnect_ && !ws.should_stop_

def ScheduleReconnect (ws : WebSocketClient) : WebSocketClient :=
  { ws with should_reconnect_ := true,
            reconnect_threads_started := ws.reconnect_threads_started + 1 }

end WebSocketClient

/-- The result record of `WSUtils::ParseWebSocketURL`. -/
structure ParsedURL where
  scheme : Str := []
  host : Str := []
  port : Int := 0
  path : Str := []
  is_secure : Bool := false
  deriving DecidableEq

/-- `WSUtils::ParseWebSocketURL(url, result)`: the returned flag and the record as
the call leaves it; `std::stoi` on the port text may throw. -/
def ParseWebSocketURL (url : Str) (result : ParsedURL) : Except StdException (Bool × ParsedURL) :=
  let lower_url := url.map Char.toLower
  let withScheme : Option ParsedURL :=
    if findStr lower_url "ws://".toList = some 0 then
      some { result with scheme := "ws".toList, is_secure := false, port := 80 }
    else if findStr lower_url "wss://".toList = some 0 then
      some { result with scheme := "wss".toList, is_secure := true, port := 443 }
    else none
  match withScheme with
  | none => .ok (false, result)
  | some result =>
    -- `npos + 3` wraps around to 2
    let start : Nat := match findStr url "://".toList with
      | some k => k + 3
      | none => 2
    let found_path := findChar url '/' start
    let port_pos := findChar url ':' start
    let result : ParsedURL := match found_path with
      | none => { result with path := "/".toList }
      | some p => { result with path := url.drop p }
    let path_pos : Nat := match found_path with
      | none => url.length
      | some p => p
    match port_pos with
    | some pp =>
      if pp < path_pos then
        match stoi (substr url (pp + 1) (path_pos - pp - 1)) with
        | .error e => .error e
        | .ok port => .ok (true, { result with host := substr url start (pp - start), port := port })
      else .ok (true, { result with host := substr url start (path_pos - start) })
    | none => .ok (true, { result with host := substr url start (path_pos - start) })

/-! ## archipelago_client -/

/-- One invocation of an application callback, with its argument. -/
inductive APEvent
  | Connected
  | Disconnected
  | ItemReceived (item : APNetworkItem)
  | LocationChecked (location_id : Int)
  | ChatMessage (message : Str)
  | Error (error : Str)
  deriving DecidableEq

/-- The object state of `ArchipelagoClient`.  A field `on_..._` tells whether that
`std::function` holds a callback; `events` lists the callback invocations so
far and `reconnect_timers_started` counts the reconnect threads created (both
record effects and are read by no method).  `ws_client_` is never null after
construction. -/
structure ArchipelagoClient where
  ws_client_ : WebSocketClient := {}
  connection_state_ : APConnectionState := .Disconnected
  server_address_ : Str := []
  server_port_ : Int := 38281
  slot_name_ : Str := []
  password_ : Str := []
  auto_reconnect_ : Bool := true
  reconnect_delay_ : Int := 3000
  team_ : Int := 0
  slot_ : Int := 0
  players_ : List APNetworkPlayer := []
  missing_locations_ : List Int := []
  checked_locations_ : List Int := []
  checked_locations_set_ : Finset Int := ∅
  pending_items_ : List APNetworkItem := []
  received_item_count_ : Int := 0
  hint_points_ : Int := 0
  current_status_ : APClientStatus := .CLIENT_UNKNOWN
  server_version_ : APNetworkVersion := {}
  server_tags_ : List Str := []
  requires_password_ : Bool := false
  permissions_ : List (Str × APPermission) := []
  hint_cost_ : Int := 0
  location_check_points_ : Int := 0
  games_ : List Str := []
  seed_name_ : Str := []
  client_uuid_ : Str := []
  on_connected_ : Bool := false
  on_disconnected_ : Bool := false
  on_item_received_ : Bool := false
  on_location_checked_ : Bool := false
  on_chat_message_ : Bool := false
  on_error_ : Bool := false
  should_reconnect_ : Bool := false
  events : List APEvent := []
  reconnect_timers_started : Nat := 0
  deriving DecidableEq

/-- The vector that the parameter `const std::vector<int64_t>& location_ids` of
`CheckLocations` refers to: a vector of the caller, or a member of the client,
which `GetMissingLocations()` and `GetCheckedLocations()` return by reference. -/
inductive LocationIds
  | vector (ids : List Int)
  | missing_locations_
  | checked_locations_
  deriving DecidableEq

namespace ArchipelagoClient

/-- The constructor; `uuid` is the value `GenerateUUID()` draws. -/
def new (uuid : Str) : ArchipelagoClient :=
  { client_uuid_ := uuid }

/-- Run the callback `e` stands for, when one is registered. -/
def invoke (s : ArchipelagoClient) (registered : Bool) (e : APEvent) : ArchipelagoClient :=
  if registered then { s with events := s.events ++ [e] } else s

def SetConnectionState (s : ArchipelagoClient) (state : APConnectionState) : ArchipelagoClient :=
  { s with connection_state_ := state }

def ResetState (s : ArchipelagoClient) : ArchipelagoClient :=
  { s with
    team_ := 0
    slot_ := 0
    players_ := []
    missing_locations_ := []
    checked_locations_ := []
    checked_locations_set_ := ∅
    pending_items_ := []
    received_item_count_ := 0
    hint_points_ := 0
    current_status_ := .CLIENT_UNKNOWN }

def IsConnected (s : ArchipelagoClient) : Bool :=
  s.connection_state_ = .Connected

def GetConnectionState (s : ArchipelagoClient) : APConnectionState :=
  s.connection_state_

def SendPacket (J : JsonWriter) (s : ArchipelagoClient) (packet : APPacket) : ArchipelagoClient :=
  if !s.ws_client_.IsConnected then s
  else
    let json_str := APPacketToString J packet
    { s with ws_client_ := (s.ws_client_.SendText ("[".toList ++ json_str ++ "]".toList)).2 }

def Disconnect (s : ArchipelagoClient) : ArchipelagoClient :=
  let s := { s with ws_client_ := s.ws_client_.Disconnect }
  s.SetConnectionState .Disconnected

def Authenticate (J : JsonWriter) (s : ArchipelagoClient) (slot_name password : Str) :
    Bool × ArchipelagoClient :=
  if !s.ws_client_.IsConnected then (false, s)
  else
    let connect_packet : APConnectPacket :=
      { password := password
        name := slot_name
        uuid := s.client_uuid_
        version := { major := 0, minor := 5, build := 1 }
        items_handling := 7
        tags := ["AP".toList]
        slot_data := true }
    (true, s.SendPacket J (.Connect connect_packet))

/-- The body of the loop of `CheckLocations`, for one `location_id`. -/
def CheckLocations.visit (s : ArchipelagoClient) (location_id : Int) : ArchipelagoClient :=
  if location_id ∉ s.checked_locations_set_ then
    let s := { s with
      checked_locations_ := s.checked_locations_ ++ [location_id]
      checked_locations_set_ := insert location_id s.checked_locations_set_ }
    -- `std::find` and `erase`: the first occurrence goes
    let s := { s with missing_locations_ := s.missing_locations_.erase location_id }
    s.invoke s.on_location_checked_ (.LocationChecked location_id)
  else s

/-- The loop of `CheckLocations` when `location_ids` is `missing_locations_` itself.
The range-for takes `begin()` and `end()` once, so it runs `count` times, once
per element the vector had at the start, and reads slot `i` of the array of the
vector as that slot is when the loop reaches it.  `erase` moves the elements
behind the erased one down by one slot and leaves the slot of the last element
as it was: `stale` lists the slots behind the end of the vector. -/
def CheckLocations.aliased : Nat → Nat → List Int → ArchipelagoClient → ArchipelagoClient
  | 0, _, _, s => s
  | count + 1, i, stale, s =>
    let location_id := (s.missing_locations_ ++ stale).getD i 0
    let erased : Bool :=
      location_id ∉ s.checked_locations_set_ ∧ location_id ∈ s.missing_locations_
    let stale := if erased then s.missing_locations_.getLast?.toList ++ stale else stale
    CheckLocations.aliased count (i + 1) stale (CheckLocations.visit s location_id)

/-- `CheckLocations(location_ids)`.  The packet is filled from `location_ids` after the
loop.  For a vector that is a member of the client the loop reads the member as
the loop body changes it: `missing_locations_` loses elements (see
`CheckLocations.aliased`); `checked_locations_` only grows behind the elements
the loop reads (its array is taken not to move), and does not grow at all when
every element of it is in the set index. -/
def CheckLocations (J : JsonWriter) (s : ArchipelagoClient) (location_ids : LocationIds) :
    ArchipelagoClient :=
  if !s.IsConnected then s
  else
    match location_ids with
    | .vector ids =>
      let s := ids.foldl CheckLocations.visit s
      s.SendPacket J (.LocationChecks { locations := ids })
    | .missing_locations_ =>
      let s := CheckLocations.aliased s.missing_locations_.length 0 [] s
      s.SendPacket J (.LocationChecks { locations := s.missing_locations_ })
    | .checked_locations_ =>
      let s := s.checked_locations_.foldl CheckLocations.visit s
      s.SendPacket J (.LocationChecks { locations := s.checked_locations_ })

/-- `CheckLocation(location_id)` passes the temporary vector `{location_id}`. -/
def CheckLocation (J : JsonWriter) (s : ArchipelagoClient) (location_id : Int) : ArchipelagoClient :=
  s.CheckLocations J (.vector [location_id])

def IsLocationChecked (s : ArchipelagoClient) (location_id : Int) : Bool :=
  location_id ∈ s.checked_locations_set_

def GetPendingItems (s : ArchipelagoClient) : List APNetworkItem :=
  s.pending_items_

def ClearPendingItems (s : ArchipelagoClient) : ArchipelagoClient :=
  { s with pending_items_ := [] }

def GetReceivedItemCount (s : ArchipelagoClient) : Int :=
  s.received_item_count_

def GetCheckedLocations (s : ArchipelagoClient) : List Int :=
  s.checked_locations_

def GetMissingLocations (s : ArchipelagoClient) : List Int :=
  s.missing_locations_

def GetStatus (s : ArchipelagoClient) : APClientStatus :=
  s.current_status_

def UpdateStatus (J : JsonWriter) (s : ArchipelagoClient) (status : APClientStatus) :
    ArchipelagoClient :=
  let s := { s with current_status_ := status }
  if !s.IsConnected then s
  else s.SendPacket J (.StatusUpdate { status := status })

def SendChatMessage (J : JsonWriter) (s : ArchipelagoClient) (message : Str) : ArchipelagoClient :=
  if !s.IsConnected then s
  else s.SendPacket J (.Say { text := message })

def RequestDataPackage (J : JsonWriter) (s : ArchipelagoClient) (games : List Str) :
    ArchipelagoClient :=
  if !s.ws_client_.IsConnected then s
  else s.SendPacket J (.GetDataPackage { games := games })

def SyncData (J : JsonWriter) (s : ArchipelagoClient) : ArchipelagoClient :=
  if !s.IsConnected then s
  else s.SendPacket J .Sync

def StartReconnectTimer (s : ArchipelagoClient) : ArchipelagoClient :=
  { s with should_reconnect_ := true, reconnect_timers_started := s.reconnect_timers_started + 1 }

def OnWebSocketConnected (s : ArchipelagoClient) : ArchipelagoClient :=
  s

def OnWebSocketDisconnected (s : ArchipelagoClient) (_code : Int) (_reason : Str) :
    ArchipelagoClient :=
  let s := s.SetConnectionState .Disconnected
  let s := s.invoke s.on_disconnected_ .Disconnected
  if s.auto_reconnect_ && s.should_reconnect_ then s.StartReconnectTimer else s

def OnWebSocketError (s : ArchipelagoClient) (error : Str) : ArchipelagoClient :=
  let s := s.invoke s.on_error_ (.Error error)
  s.SetConnectionState .Failed

def HandleRoomInfo (J : JsonWriter) (s : ArchipelagoClient) (packet : APRoomInfoPacket) :
    ArchipelagoClient :=
  let s := { s with
    server_version_ := packet.version
    server_tags_ := packet.tags
    requires_password_ := packet.password
    permissions_ := packet.permissions
    hint_cost_ := packet.hint_cost
    location_check_points_ := packet.location_check_points
    games_ := packet.games
    seed_name_ := packet.seed_name }
  if s.slot_name_ ≠ [] then (s.Authenticate J s.slot_name_ s.password_).2 else s

def HandleConnected (J : JsonWriter) (s : ArchipelagoClient) (packet : APConnectedPacket) :
    ArchipelagoClient :=
  let s := { s with
    team_ := packet.team
    slot_ := packet.slot
    players_ := packet.players
    missing_locations_ := packet.missing_locations
    checked_locations_ := packet.checked_locations
    hint_points_ := packet.hint_points }
  let s := { s with checked_locations_set_ := ∅ }
  let s := { s with
    checked_locations_set_ :=
      s.checked_locations_.foldl (fun set location_id => insert location_id set)
        s.checked_locations_set_ }
  let s := s.SetConnectionState .Connected
  let s := s.UpdateStatus J .CLIENT_READY
  s.invoke s.on_connected_ .Connected

def HandleConnectionRefused (s : ArchipelagoClient) (packet : APConnectionRefusedPacket) :
    ArchipelagoClient :=
  let s := s.SetConnectionState .Failed
  if s.on_error_ then
    let error_msg := packet.errors.foldl (fun msg error => msg ++ (error ++ " ".toList))
      "Connection refused: ".toList
    s.invoke true (.Error error_msg)
  else s

/-- The body of the incremental loop of `HandleReceivedItems`, for one `item`. -/
def HandleReceivedItems.visit (s : ArchipelagoClient) (item : APNetworkItem) : ArchipelagoClient :=
  let s := { s with
    pending_items_ := s.pending_items_ ++ [item]
    received_item_count_ := toInt32 (s.received_item_count_ + 1) }
  s.invoke s.on_item_received_ (.ItemReceived item)

def HandleReceivedItems (s : ArchipelagoClient) (packet : APReceivedItemsPacket) :
    ArchipelagoClient :=
  if packet.index = 0 then
    { s with
      pending_items_ := packet.items
      received_item_count_ := toInt32 packet.items.length }
  else
    packet.items.foldl HandleReceivedItems.visit s

def HandlePrintJSON (s : ArchipelagoClient) (packet : APPrintJSONPacket) : ArchipelagoClient :=
  let message := packet.data.foldl
    (fun message part => if part.text ≠ [] then message ++ part.text else message) []
  if message ≠ [] ∧ s.on_chat_message_ then s.invoke true (.ChatMessage message) else s

end ArchipelagoClient

/-! ### Transport methods that run the owner's handlers

The constructor of `ArchipelagoClient` registers its `OnWebSocket...` methods
as the four callbacks of its `WebSocketClient`, so these transport methods act
on the owning client. -/

namespace WebSocketClient

def HandleError (owner : ArchipelagoClient) (error : Str) : ArchipelagoClient :=
  let owner := owner.OnWebSocketError error
  { owner with ws_client_ := owner.ws_client_.SetState .Failed }

def HandleConnected (owner : ArchipelagoClient) : ArchipelagoClient :=
  let owner := { owner with ws_client_ := owner.ws_client_.SetState .Connected }
  let owner := owner.OnWebSocketConnected
  { owner with ws_client_ :=
      { owner.ws_client_ with
        message_threads_started := owner.ws_client_.message_threads_started + 1 } }

def HandleDisconnected (owner : ArchipelagoClient) (code : Int) (reason : Str) :
    ArchipelagoClient :=
  let owner := { owner with ws_client_ := owner.ws_client_.SetState .Disconnected }
  let owner := owner.OnWebSocketDisconnected code reason
  if owner.ws_client_.ShouldReconnect then
    { owner with ws_client_ := owner.ws_client_.ScheduleReconnect }
  else owner

/-- `Connect(uri)`: the state after the call and the value returned, or what ends the
call: the exception that leaves `ParseWebSocketURL`, or `std::terminate`. -/
def Connect (owner : ArchipelagoClient) (uri : Str) : ArchipelagoClient × Except StdException Bool :=
  match ParseWebSocketURL uri {} with
  | .error e => (owner, .error e)
  | .ok (false, _) => (HandleError owner ("Invalid WebSocket URL: ".toList ++ uri), .ok false)
  | .ok (true, parsed) =>
    let r := owner.ws_client_.ConnectHost parsed.host parsed.port parsed.path parsed.is_secure
    ({ owner with ws_client_ := r.2 }, r.1)

end WebSocketClient

namespace ArchipelagoClient

/-- `Connect(address, port, slot_name, password)`: the state after the call and
the value returned, or what ends the call without a return. -/
def Connect (s : ArchipelagoClient) (address : Str) (port : Int) (slot_name password : Str) :
    ArchipelagoClient × Except StdException Bool :=
  if s.connection_state_ = .Connected ∨ s.connection_state_ = .Connecting then (s, .ok false)
  else
    let s := { s with
      server_address_ := address
      server_port_ := port
      slot_name_ := slot_name
      password_ := password }
    let s := s.SetConnectionState .Connecting
    let ws_url := "ws://".toList ++ address ++ ":".toList ++ to_string port ++ "/".toList
    WebSocketClient.Connect s ws_url

def OnReconnectTimer (s : ArchipelagoClient) : ArchipelagoClient :=
  if s.should_reconnect_ ∧ s.connection_state_ = .Disconnected then
    (s.Connect s.server_address_ s.server_port_ s.slot_name_ s.password_).1
  else s

def SetAutoReconnect (s : ArchipelagoClient) (enabled : Bool) : ArchipelagoClient :=
  { s with auto_reconnect_ := enabled }

def SetReconnectDelay (s : ArchipelagoClient) (milliseconds : Int) : ArchipelagoClient :=
  { s with reconnect_delay_ := milliseconds }

/-- The six callback setters; `callback` tells whether the `std::function` passed
holds a target. -/
def SetConnectedCallback (s : ArchipelagoClient) (callback : Bool) : ArchipelagoClient :=
  { s with on_connected_ := callback }

def SetDisconnectedCallback (s : ArchipelagoClient) (callback : Bool) : ArchipelagoClient :=
  { s with on_disconnected_ := callback }

def SetItemReceivedCallback (s : ArchipelagoClient) (callback : Bool) : ArchipelagoClient :=
  { s with on_item_received_ := callback }

def SetLocationCheckedCallback (s : ArchipelagoClient) (callback : Bool) : ArchipelagoClient :=
  { s with on_location_checked_ := callback }

def SetChatMessageCallback (s : ArchipelagoClient) (callback : Bool) : ArchipelagoClient :=
  { s with on_chat_message_ := callback }

def SetErrorCallback (s : ArchipelagoClient) (callback : Bool) : ArchipelagoClient :=
  { s with on_error_ := callback }

end ArchipelagoClient

/-! ## Decoding: `FromJSON` and `APPacketFromString` -/

/-- The rapidjson parser, `doc.Parse(text)`: the document, or `none` for
`HasParseError()`. -/
abbrev JsonReader := Str → Option JValue

namespace JValue

def IsObject : JValue → Bool
  | .obj _ => true
  | _ => false

def IsArray : JValue → Bool
  | .arr _ => true
  | _ => false

def IsString : JValue → Bool
  | .str _ => true
  | _ => false

/-- `IsInt()`: an integer number that fits `int32_t`. -/
def IsInt : JValue → Bool
  | .int n => -2147483648 ≤ n ∧ n ≤ 2147483647
  | _ => false

/-- `IsInt64()`: an integer number that fits `int64_t`. -/
def IsInt64 : JValue → Bool
  | .int n => -9223372036854775808 ≤ n ∧ n ≤ 9223372036854775807
  | _ => false

/-- The member `value[name]` of an object that `HasMember(name)`: the first member
with that name. -/
def member? (value : JValue) (name : Str) : Option JValue :=
  match value with
  | .obj members => (members.find? (fun m => m.1 = name)).map (fun m => m.2)
  | _ => none

/-- The guarded read `if (value.HasMember(name) && value[name].IsInt()) x = value[name].GetInt();`
on an object: the new value of `x`. -/
def readInt (value : JValue) (name : Str) (x : Int) : Int :=
  match value.member? name with
  | some (.int n) => if (JValue.int n).IsInt then n else x
  | _ => x

/-- The guarded read with `IsInt64()` and `GetInt64()`. -/
def readInt64 (value : JValue) (name : Str) (x : Int) : Int :=
  match value.member? name with
  | some (.int n) => if (JValue.int n).IsInt64 then n else x
  | _ => x

/-- The guarded read with `IsString()` and `GetString()`; the `const char*` returned
is copied up to its first NUL. -/
def readString (value : JValue) (name : Str) (x : Str) : Str :=
  match value.member? name with
  | some (.str s) => c_str s
  | _ => x

/-- The guarded read with `IsBool()` and `GetBool()`. -/
def readBool (value : JValue) (name : Str) (x : Bool) : Bool :=
  match value.member? name with
  | some (.bool b) => b
  | _ => x

/-- The guarded read with `IsDouble()` and `GetDouble()`. -/
def readDouble (value : JValue) (name : Str) (x : Double) : Double :=
  match value.member? name with
  | some (.real d) => d
  | _ => x

/-- The guarded loop over `value[name].GetArray()` that clears the vector `x` and
keeps what `f` accepts of each element. -/
def readArray {α : Type} (value : JValue) (name : Str) (f : JValue → Option α) (x : List α) :
    List α :=
  match value.member? name with
  | some (.arr elements) => elements.filterMap f
  | _ => x

/-- The loop body `if (e.IsString()) v.push_back(e.GetString());`. -/
def stringElement : JValue → Option Str
  | .str s => some (c_str s)
  | _ => none

/-- The loop body `if (e.IsInt64()) v.push_back(e.GetInt64());`. -/
def int64Element : JValue → Option Int
  | .int n => if (JValue.int n).IsInt64 then some n else none
  | _ => none

end JValue

def APNetworkVersion.FromJSON (v : APNetworkVersion) (value : JValue) : Bool × APNetworkVersion :=
  if !value.IsObject then (false, v)
  else
    (true, { v with
      major := value.readInt "major".toList v.major
      minor := value.readInt "minor".toList v.minor
      build := value.readInt "build".toList v.build
      class_name := value.readString "class".toList v.class_name })

def APNetworkItem.FromJSON (i : APNetworkItem) (value : JValue) : Bool × APNetworkItem :=
  if !value.IsObject then (false, i)
  else
    (true, { i with
      item := value.readInt64 "item".toList i.item
      location := value.readInt64 "location".toList i.location
      player := value.readInt "player".toList i.player
      flags := value.readInt "flags".toList i.flags })

def APNetworkPlayer.FromJSON (p : APNetworkPlayer) (value : JValue) : Bool × APNetworkPlayer :=
  if !value.IsObject then (false, p)
  else
    (true, { p with
      team := value.readInt "team".toList p.team
      slot := value.readInt "slot".toList p.slot
      alias_ := value.readString "alias".toList p.alias_
      name := value.readString "name".toList p.name })

def APJSONMessagePart.FromJSON (p : APJSONMessagePart) (value : JValue) :
    Bool × APJSONMessagePart :=
  if !value.IsObject then (false, p)
  else
    (true, { p with
      type := value.readString "type".toList p.type
      text := value.readString "text".toList p.text
      color := value.readString "color".toList p.color
      flags := value.readInt "flags".toList p.flags
      player := value.readInt "player".toList p.player })

/-- The loop body `T x; if (x.FromJSON(e)) v.push_back(x);` for the network item. -/
def APNetworkItem.element (value : JValue) : Option APNetworkItem :=
  let r := APNetworkItem.FromJSON {} value
  if r.1 then some r.2 else none

/-- The same loop body for the network player. -/
def APNetworkPlayer.element (value : JValue) : Option APNetworkPlayer :=
  let r := APNetworkPlayer.FromJSON {} value
  if r.1 then some r.2 else none

/-- The same loop body for the message part. -/
def APJSONMessagePart.element (value : JValue) : Option APJSONMessagePart :=
  let r := APJSONMessagePart.FromJSON {} value
  if r.1 then some r.2 else none

def APRoomInfoPacket.FromJSON (p : APRoomInfoPacket) (value : JValue) : Bool × APRoomInfoPacket :=
  if !value.IsObject then (false, p)
  else
    let version :=
      match value.member? "version".toList with
      | some (.obj m) => (p.version.FromJSON (.obj m)).2
      | _ => p.version
    let generator_version :=
      match value.member? "generator_version".toList with
      | some (.obj m) => (p.generator_version.FromJSON (.obj m)).2
      | _ => p.generator_version
    (true, { p with
      version := version
      generator_version := generator_version
      password := value.readBool "password".toList p.password
      hint_cost := value.readInt "hint_cost".toList p.hint_cost
      location_check_points := value.readInt "location_check_points".toList p.location_check_points
      seed_name := value.readString "seed_name".toList p.seed_name
      time := value.readDouble "time".toList p.time
      tags := value.readArray "tags".toList JValue.stringElement p.tags
      games := value.readArray "games".toList JValue.stringElement p.games })

def APConnectedPacket.FromJSON (p : APConnectedPacket) (value : JValue) :
    Bool × APConnectedPacket :=
  if !value.IsObject then (false, p)
  else
    (true, { p with
      team := value.readInt "team".toList p.team
      slot := value.readInt "slot".toList p.slot
      hint_points := value.readInt "hint_points".toList p.hint_points
      players := value.readArray "players".toList APNetworkPlayer.element p.players
      missing_locations :=
        value.readArray "missing_locations".toList JValue.int64Element p.missing_locations
      checked_locations :=
        value.readArray "checked_locations".toList JValue.int64Element p.checked_locations })

def APConnectionRefusedPacket.FromJSON (p : APConnectionRefusedPacket) (value : JValue) :
    Bool × APConnectionRefusedPacket :=
  if !value.IsObject then (false, p)
  else (true, { p with errors := value.readArray "errors".toList JValue.stringElement p.errors })

def APReceivedItemsPacket.FromJSON (p : APReceivedItemsPacket) (value : JValue) :
    Bool × APReceivedItemsPacket :=
  if !value.IsObject then (false, p)
  else
    (true, { p with
      index := value.readInt "index".toList p.index
      items := value.readArray "items".toList APNetworkItem.element p.items })

def APPrintJSONPacket.FromJSON (p : APPrintJSONPacket) (value : JValue) :
    Bool × APPrintJSONPacket :=
  if !value.IsObject then (false, p)
  else
    (true, { p with
      type := value.readString "type".toList p.type
      data := value.readArray "data".toList APJSONMessagePart.element p.data })

/-- The virtual `FromJSON` of each packet class; the six client-to-server classes
return true and read nothing. -/
def APPacket.FromJSON (pk : APPacket) (value : JValue) : Bool × APPacket :=
  match pk with
  | .RoomInfo p => ((p.FromJSON value).1, .RoomInfo (p.FromJSON value).2)
  | .Connected p => ((p.FromJSON value).1, .Connected (p.FromJSON value).2)
  | .ConnectionRefused p => ((p.FromJSON value).1, .ConnectionRefused (p.FromJSON value).2)
  | .ReceivedItems p => ((p.FromJSON value).1, .ReceivedItems (p.FromJSON value).2)
  | .PrintJSON p => ((p.FromJSON value).1, .PrintJSON (p.FromJSON value).2)
  | pk => (true, pk)

/-- A failed `RAPIDJSON_ASSERT`: `HasMember` is called on a value that is not an
object.  The process stops there (`assert`); it is no C++ exception. -/
inductive AssertionFailure
  | IsObject
  deriving DecidableEq

/-- `APPacketFromString(json_str)`: the packet, `none` for `nullptr`, or the failed
assertion.  The text is passed as `json_str.c_str()`; the packet object is the
document itself or the first element of a non-empty array, and `HasMember("cmd")`
is called on it without an `IsObject()` test. -/
def APPacketFromString (R : JsonReader) (json_str : Str) :
    Except AssertionFailure (Option APPacket) :=
  match R (c_str json_str) with
  | none => .ok none
  | some doc =>
    let packet_obj : Option JValue :=
      match doc with
      | .arr (first :: _) => some first
      | .obj members => some (.obj members)
      | _ => none
    match packet_obj with
    | none => .ok none
    | some packet_obj =>
      if !packet_obj.IsObject then .error .IsObject
      else
        match packet_obj.member? "cmd".toList with
        | some (.str text) =>
          let cmd := c_str text
          let packet : Option APPacket :=
            if cmd = "RoomInfo".toList then some (.RoomInfo {})
            else if cmd = "Connected".toList then some (.Connected {})
            else if cmd = "ConnectionRefused".toList then some (.ConnectionRefused {})
            else if cmd = "ReceivedItems".toList then some (.ReceivedItems {})
            else if cmd = "PrintJSON".toList then some (.PrintJSON {})
            else none
          match packet with
          | none => .ok none
          | some packet =>
            if (packet.FromJSON packet_obj).1 then .ok (some (packet.FromJSON packet_obj).2)
            else .ok none
        | _ => .ok none

namespace ArchipelagoClient

/-- `ProcessIncomingPacket(json_data)`: the packet decoded, if any, goes to its
handler. -/
def ProcessIncomingPacket (J : JsonWriter) (R : JsonReader) (s : ArchipelagoClient)
    (json_data : Str) : Except AssertionFailure ArchipelagoClient :=
  match APPacketFromString R json_data with
  | .error e => .error e
  | .ok none => .ok s
  | .ok (some packet) =>
    match packet with
    | .RoomInfo room_info => .ok (s.HandleRoomInfo J room_info)
    | .Connected connected => .ok (s.HandleConnected J connected)
    | .ConnectionRefused refused => .ok (s.HandleConnectionRefused refused)
    | .ReceivedItems items => .ok (s.HandleReceivedItems items)
    | .PrintJSON print_json => .ok (s.HandlePrintJSON print_json)
    | _ => .ok s

def OnWebSocketMessage (J : JsonWriter) (R : JsonReader) (s : ArchipelagoClient)
    (message : WSMessage) : Except AssertionFailure ArchipelagoClient :=
  if message.type = .Text then s.ProcessIncomingPacket J R message.data else .ok s

end ArchipelagoClient

namespace WebSocketClient

def HandleMessage (J : JsonWriter) (R : JsonReader) (owner : ArchipelagoClient)
    (message : WSMessage) : Except AssertionFailure ArchipelagoClient :=
  let owner := { owner with ws_client_ :=
    { owner.ws_client_ with
      messages_received_ := owner.ws_client_.messages_received_ + 1
      bytes_received_ := owner.ws_client_.bytes_received_ + message.data.length } }
  owner.OnWebSocketMessage J R message

/-- The bytes of the frame `ProcessOutboundMessages` builds for a text message:
`0x81`, the length (one byte below 126, else 126 and two bytes), the payload. -/
def textFrame (data : Str) : List Nat :=
  [0x81]
    ++ (if data.length < 126 then [data.length % 256]
        else [126, (data.length / 256) % 256, data.length % 256])
    ++ data.map (fun c => c.toNat % 256)

/-- The loop of `ProcessOutboundMessages` over the queue content; `send` gives the
value the socket `send` returns for a buffer. -/
def ProcessOutboundMessages.loop (send : List Nat → Int) :
    List WSMessage → WebSocketClient → WebSocketClient
  | [], ws => ws
  | msg :: rest, ws =>
    if ws.impl_.connected then
      let ws := { ws with outbound_queue_ := rest }
      let ws :=
        if msg.type = .Text then
          let frame := textFrame msg.data
          let bytes_sent := send frame
          let ws := { ws with socket_writes := ws.socket_writes ++ [frame] }
          if bytes_sent > 0 then
            { ws with
              messages_sent_ := ws.messages_sent_ + 1
              bytes_sent_ := ws.bytes_sent_ + bytes_sent.toNat }
          else ws
        else ws
      ProcessOutboundMessages.loop send rest ws
    else ws

def ProcessOutboundMessages (send : List Nat → Int) (ws : WebSocketClient) : WebSocketClient :=
  ProcessOutboundMessages.loop send ws.outbound_queue_ ws

end WebSocketClient

/-! ## The threads of `WebSocketClient` -/

/-- `WSUtils::GenerateWebSocketKey()`. -/
def GenerateWebSocketKey : Str :=
  "dGhlIHNhbXBsZSBub25jZQ==".toList

namespace WebSocketImpl

/-- The text `SendHandshake(key)` builds in its local `handshake`. -/
def SendHandshake.handshake (impl : WebSocketImpl) (key : Str) : Str :=
  "GET ".toList ++ impl.path ++ " HTTP/1.1\r\n".toList
    ++ "Host: ".toList ++ impl.host ++ ":".toList ++ to_string impl.port ++ "\r\n".toList
    ++ "Upgrade: websocket\r\n".toList
    ++ "Connection: Upgrade\r\n".toList
    ++ "Sec-WebSocket-Key: ".toList ++ key ++ "\r\n".toList
    ++ "Sec-WebSocket-Version: 13\r\n".toList
    ++ "\r\n".toList

/-- `SendHandshake(key)`; `send` gives the value the socket `send` returns for a
buffer. -/
def SendHandshake (impl : WebSocketImpl) (send : List Nat → Int) (key : Str) : Bool :=
  let handshake := SendHandshake.handshake impl key
  let bytes_sent := send (handshake.map (fun c => c.toNat % 256))
  bytes_sent = handshake.length

/-- `ReceiveHandshakeResponse()`; `received` lists the bytes `recv` stored (at most
4095), the empty list standing for a result `<= 0`.  The response is the buffer
up to its first NUL. -/
def ReceiveHandshakeResponse (received : List Nat) : Bool :=
  if received.length ≤ 0 then false
  else
    let response := c_str (received.map Char.ofNat)
    (findStr response "HTTP/1.1 101".toList).isSome
      && (findStr response "Upgrade: websocket".toList).isSome

end WebSocketImpl

/-- What the system calls of one run of `ConnectionThreadProc` return: the descriptor
from `socket`, whether `gethostbyname` finds the host, the result of `connect`,
the result of `send` for a buffer, and the bytes `recv` stores. -/
structure ConnectionCalls where
  socket : Int
  gethostbyname : Bool
  connect : Int
  send : List Nat → Int
  recv : List Nat

namespace WebSocketClient

/-- `ConnectionThreadProc()`, run for the transport of `owner`. -/
def ConnectionThreadProc (owner : ArchipelagoClient) (os : ConnectionCalls) : ArchipelagoClient :=
  let owner := { owner with ws_client_ :=
    { owner.ws_client_ with impl_ := { owner.ws_client_.impl_ with socket_fd := os.socket } } }
  if os.socket < 0 then HandleError owner "Failed to create socket".toList
  else if !os.gethostbyname then
    HandleError owner ("Failed to resolve hostname: ".toList ++ owner.ws_client_.host_)
  else if os.connect < 0 then HandleError owner "Failed to connect to server".toList
  else
    let ws_key := GenerateWebSocketKey
    let handshake := WebSocketImpl.SendHandshake.handshake owner.ws_client_.impl_ ws_key
    let sent := owner.ws_client_.impl_.SendHandshake os.send ws_key
    let owner := { owner with ws_client_ :=
      { owner.ws_client_ with
        socket_writes :=
          owner.ws_client_.socket_writes ++ [handshake.map (fun c => c.toNat % 256)] } }
    if !sent then HandleError owner "Failed to send WebSocket handshake".toList
    else if !WebSocketImpl.ReceiveHandshakeResponse os.recv then
      HandleError owner "Invalid WebSocket handshake response".toList
    else
      let owner := { owner with ws_client_ :=
        { owner.ws_client_ with impl_ := { owner.ws_client_.impl_ with connected := true } } }
      HandleConnected owner

/-- The frame parsing of `MessageThreadProc` for the `buffer` one `recv` filled: the
message handed to `HandleMessage`, if any.  The payload length is the low seven
bits of the second byte and the payload the bytes after the header, taken as
they are. -/
def MessageThreadProc.parse (buffer : List Nat) : Option WSMessage :=
  let bytes_received := buffer.length
  if bytes_received ≥ 2 then
    let fin := (buffer.getD 0 0 &&& 0x80) ≠ 0
    let opcode := buffer.getD 0 0 &&& 0x0F
    let masked := (buffer.getD 1 0 &&& 0x80) ≠ 0
    let payload_len := buffer.getD 1 0 &&& 0x7F
    if fin ∧ opcode = 0x01 then
      let header_size := if masked then 2 + 4 else 2
      if bytes_received > header_size ∧ payload_len ≤ bytes_received - header_size then
        some ⟨.Text, ((buffer.drop header_size).take payload_len).map Char.ofNat⟩
      else none
    else none
  else none

/-- `MessageThreadProc()`, run for the transport of `owner`.  `reads` lists what the
successive calls of `recv` store (each at most 4096 bytes), the empty list
standing for a result `<= 0`; when `reads` is used up the thread waits in
`recv`. -/
def MessageThreadProc (J : JsonWriter) (R : JsonReader) (send : List Nat → Int) :
    List (List Nat) → ArchipelagoClient → Except AssertionFailure ArchipelagoClient
  | [], owner => .ok owner
  | buffer :: reads, owner =>
    if !owner.ws_client_.should_stop_ && owner.ws_client_.impl_.connected then
      if buffer.length ≤ 0 then .ok (HandleDisconnected owner 1006 "Connection lost".toList)
      else
        let handled : Except AssertionFailure ArchipelagoClient :=
          match MessageThreadProc.parse buffer with
          | some message => HandleMessage J R owner message
          | none => .ok owner
        match handled with
        | .error e => .error e
        | .ok owner =>
          MessageThreadProc J R send reads
            { owner with ws_client_ := owner.ws_client_.ProcessOutboundMessages send }
    else .ok owner

end WebSocketClient

/-! ## Auxiliary definitions of the verification -/

mutual
/-- A sample JSON writer, to run the model on concrete inputs: compact text, strings
copied between quotes, a real number written as `0.0`. -/
def compactWriter : JValue → Str
  | .null => "null".toList
  | .bool b => if b then "true".toList else "false".toList
  | .int n => to_string n
  | .real _ => "0.0".toList
  | .str s => Char.ofNat 34 :: s ++ [Char.ofNat 34]
  | .arr xs => Char.ofNat 91 :: compactWriter.elements xs ++ [Char.ofNat 93]
  | .obj ms => Char.ofNat 123 :: compactWriter.members ms ++ [Char.ofNat 125]
/-- The elements of an array, separated by commas. -/
def compactWriter.elements : List JValue → Str
  | [] => []
  | [x] => compactWriter x
  | x :: y :: r => compactWriter x ++ Char.ofNat 44 :: compactWriter.elements (y :: r)
/-- The members of an object, separated by commas. -/
def compactWriter.members : List (Str × JValue) → Str
  | [] => []
  | [(k, v)] => Char.ofNat 34 :: k ++ Char.ofNat 34 :: Char.ofNat 58 :: compactWriter v
  | (k, v) :: m :: r =>
    Char.ofNat 34 :: k ++ Char.ofNat 34 :: Char.ofNat 58 :: compactWriter v
      ++ Char.ofNat 44 :: compactWriter.members (m :: r)
end

/-- A freshly constructed client with all six callbacks registered. -/
def freshSession : ArchipelagoClient :=
  let s := ArchipelagoClient.new "0f0f0f0f-0f0f-4f0f-8f0f-0f0f0f0f0f0f".toList
  let s := s.SetConnectedCallback true
  let s := s.SetDisconnectedCallback true
  let s := s.SetItemReceivedCallback true
  let s := s.SetLocationCheckedCallback true
  let s := s.SetChatMessageCallback true
  s.SetErrorCallback true

/-- The session after `Connect("localhost", 38281, "Player", "")` and the transport
handshake: the transport is Connected, the session still Connecting. -/
def openedSession : ArchipelagoClient :=
  WebSocketClient.HandleConnected
    (freshSession.Connect "localhost".toList 38281 "Player".toList []).1

/-- The session after the server then sent `RoomInfo` and the `Connected` packet
`packet`. -/
def connectedSession (packet : APConnectedPacket) : ArchipelagoClient :=
  (openedSession.HandleRoomInfo compactWriter {}).HandleConnected compactWriter packet

/-- The session after the server sent `RoomInfo` and then refused the connection. -/
def refusedSession : ArchipelagoClient :=
  (openedSession.HandleRoomInfo compactWriter {}).HandleConnectionRefused
    { errors := ["InvalidSlot".toList] }

/-- A new client whose application called `UpdateStatus(CLIENT_GOAL)` before the first
`Connect`. -/
def goalSession : ArchipelagoClient :=
  freshSession.UpdateStatus compactWriter .CLIENT_GOAL

/-- The ten snapshot fields that `ResetState` clears are the same in `s` and `t`. -/
def SameSnapshot (s t : ArchipelagoClient) : Prop :=
  t.team_ = s.team_ ∧ t.slot_ = s.slot_ ∧ t.players_ = s.players_
    ∧ t.missing_locations_ = s.missing_locations_
    ∧ t.checked_locations_ = s.checked_locations_
    ∧ t.checked_locations_set_ = s.checked_locations_set_
    ∧ t.pending_items_ = s.pending_items_
    ∧ t.received_item_count_ = s.received_item_count_
    ∧ t.hint_points_ = s.hint_points_
    ∧ t.current_status_ = s.current_status_

/-- The ids for which the loop of `CheckLocations` runs its body, in order: an id
counts when it is not in the set at the moment the loop reaches it. -/
def CheckLocations.applied (set : Finset Int) : List Int → List Int
  | [] => []
  | x :: xs => if x ∈ set then applied set xs else x :: applied (insert x set) xs

/-- The checked sequence and its set index agree: `IsLocationChecked(id)` exactly for
the ids that occur in `GetCheckedLocations()`. -/
def Consistent (s : ArchipelagoClient) : Prop :=
  ∀ id : Int, s.IsLocationChecked id = true ↔ id ∈ s.GetCheckedLocations

/-- The operations that move a client from one state to the next: the public methods,
the timer, the packet handlers (`ProcessIncomingPacket` runs at most one of them per
message) and the transport events.  `ResetState` is private and has no caller; it
is listed to cover it all the same.  `TransportActivity ws` stands for any change
the transport threads make to the transport's own state. -/
inductive Op
  | Connect (address : Str) (port : Int) (slot_name password : Str)
  | Disconnect
  | Authenticate (slot_name password : Str)
  | CheckLocation (location_id : Int)
  | CheckLocations (location_ids : LocationIds)
  | ClearPendingItems
  | UpdateStatus (status : APClientStatus)
  | SendChatMessage (message : Str)
  | RequestDataPackage (games : List Str)
  | SyncData
  | SetAutoReconnect (enabled : Bool)
  | SetReconnectDelay (milliseconds : Int)
  | SetConnectedCallback (callback : Bool)
  | SetDisconnectedCallback (callback : Bool)
  | SetItemReceivedCallback (callback : Bool)
  | SetLocationCheckedCallback (callback : Bool)
  | SetChatMessageCallback (callback : Bool)
  | SetErrorCallback (callback : Bool)
  | ResetState
  | OnReconnectTimer
  | HandleRoomInfo (packet : APRoomInfoPacket)
  | HandleConnected (packet : APConnectedPacket)
  | HandleConnectionRefused (packet : APConnectionRefusedPacket)
  | HandleReceivedItems (packet : APReceivedItemsPacket)
  | HandlePrintJSON (packet : APPrintJSONPacket)
  | TransportConnected
  | TransportDisconnected (code : Int) (reason : Str)
  | TransportError (error : Str)
  | TransportActivity (ws : WebSocketClient)

/-- The state after one operation.  A `Connect` that does not return still leaves its
state here, so the states `step` reaches include those the program reaches. -/
def step (J : JsonWriter) (s : ArchipelagoClient) : Op → ArchipelagoClient
  | .Connect address port slot_name password => (s.Connect address port slot_name password).1
  | .Disconnect => s.Disconnect
  | .Authenticate slot_name password => (s.Authenticate J slot_name password).2
  | .CheckLocation location_id => s.CheckLocation J location_id
  | .CheckLocations location_ids => s.CheckLocations J location_ids
  | .ClearPendingItems => s.ClearPendingItems
  | .UpdateStatus status => s.UpdateStatus J status
  | .SendChatMessage message => s.SendChatMessage J message
  | .RequestDataPackage games => s.RequestDataPackage J games
  | .SyncData => s.SyncData J
  | .SetAutoReconnect enabled => s.SetAutoReconnect enabled
  | .SetReconnectDelay milliseconds => s.SetReconnectDelay milliseconds
  | .SetConnectedCallback callback => s.SetConnectedCallback callback
  | .SetDisconnectedCallback callback => s.SetDisconnectedCallback callback
  | .SetItemReceivedCallback callback => s.SetItemReceivedCallback callback
  | .SetLocationCheckedCallback callback => s.SetLocationCheckedCallback callback
  | .SetChatMessageCallback callback => s.SetChatMessageCallback callback
  | .SetErrorCallback callback => s.SetErrorCallback callback
  | .ResetState => s.ResetState
  | .OnReconnectTimer => s.OnReconnectTimer
  | .HandleRoomInfo packet => s.HandleRoomInfo J packet
  | .HandleConnected packet => s.HandleConnected J packet
  | .HandleConnectionRefused packet => s.HandleConnectionRefused packet
  | .HandleReceivedItems packet => s.HandleReceivedItems packet
  | .HandlePrintJSON packet => s.HandlePrintJSON packet
  | .TransportConnected => WebSocketClient.HandleConnected s
  | .TransportDisconnected code reason => WebSocketClient.HandleDisconnected s code reason
  | .TransportError error => WebSocketClient.HandleError s error
  | .TransportActivity ws => { s with ws_client_ := ws }

/-- The states a client can be in: the constructed one, and those one operation away
from a reachable one. -/
inductive Reachable (J : JsonWriter) : ArchipelagoClient → Prop
  | init (uuid : Str) : Reachable J (ArchipelagoClient.new uuid)
  | next (s : ArchipelagoClient) (op : Op) : Reachable J s → Reachable J (step J s op)

/-- Both parts of the checked data of `t` are those of `s`. -/
def SameChecked (s t : ArchipelagoClient) : Prop :=
  t.checked_locations_ = s.checked_locations_ ∧ t.checked_locations_set_ = s.checked_locations_set_

/-- A sample JSON reader, to run the model on concrete inputs: it reads the compact
text of each listed document back to that document and rejects any other text. -/
def readerOf (documents : List JValue) : JsonReader :=
  fun text => documents.find? (fun document => compactWriter document = text)

/-- The message `SendPacket` enqueues for `packet`: its text between brackets. -/
def packetMessage (J : JsonWriter) (packet : APPacket) : WSMessage :=
  ⟨.Text, "[".toList ++ APPacketToString J packet ++ "]".toList⟩

/-- The Connect packet that `Authenticate(slot_name, password)` builds for a client
whose identifier is `uuid`. -/
def connectPacket (slot_name password uuid : Str) : APConnectPacket :=
  { password := password
    game := "Selaco".toList
    name := slot_name
    uuid := uuid
    version := { major := 0, minor := 5, build := 1, class_name := "Version".toList }
    items_handling := 7
    tags := ["AP".toList]
    slot_data := true }

/-- The handshake scenario: `Connect`, the Connected event of the transport, then the
two inbound text messages `first` and `second`. -/
def handshake (J : JsonWriter) (R : JsonReader) (s : ArchipelagoClient) (address : Str)
    (port : Int) (slot_name password first second : Str) :
    Except AssertionFailure ArchipelagoClient :=
  match WebSocketClient.HandleMessage J R
      (WebSocketClient.HandleConnected (s.Connect address port slot_name password).1)
      ⟨.Text, first⟩ with
  | .error e => .error e
  | .ok afterFirst => WebSocketClient.HandleMessage J R afterFirst ⟨.Text, second⟩

/-- A reader for the compact texts of a default RoomInfo packet, a default Connected
packet, the array `[5]` and a ReceivedItems object whose `index` is a string and
that has no `items`. -/
def sampleReader : JsonReader :=
  readerOf
    [(APPacket.RoomInfo {}).ToJSON, (APPacket.Connected {}).ToJSON, .arr [.int 5],
      .obj [("cmd".toList, .str "ReceivedItems".toList), ("index".toList, .str "2".toList)]]

/-- The transport of `openedSession` with its socket as `ConnectionThreadProc` leaves
it when the connection is established: descriptor 3, marked connected. -/
def establishedTransport : WebSocketClient :=
  { openedSession.ws_client_ with impl_ := { socket_fd := 3, connected := true } }

/-- A socket whose `send` takes every buffer whole. -/
def sendsAll : List Nat → Int :=
  fun buffer => buffer.length

/-- Results of the system calls when the server accepts the TCP connection, `send`
takes every buffer whole and `recv` stores the bytes of `response`. -/
def serverAnswering (response : Str) : ConnectionCalls :=
  { socket := 3, gethostbyname := true, connect := 0, send := sendsAll,
    recv := response.map (fun c => c.toNat % 256) }

/-- The session after `Connect("localhost", 38281, "Player", "")` and a run of
`ConnectionThreadProc` in which the server answers with the handshake response
of RFC 6455 for the key sent. -/
def establishedSession : ArchipelagoClient :=
  WebSocketClient.ConnectionThreadProc
    (freshSession.Connect "localhost".toList 38281 "Player".toList []).1
    (serverAnswering ("HTTP/1.1 101 Switching Protocols\r\nUpgrade: websocket\r\n"
      ++ "Connection: Upgrade\r\nSec-WebSocket-Accept: s3pPLMBiTxaQ9kYGzzhZRbK+xOo=\r\n\r\n").toList)

/-- The session `establishedSession` after the server sent `RoomInfo` and an empty
`Connected` packet: session and transport are Connected, the socket is open. -/
def liveSession : ArchipelagoClient :=
  (establishedSession.HandleRoomInfo compactWriter {}).HandleConnected compactWriter {}

/-- The operation `op` on `s` stores a received-item count that is an `int32` value:
`HandleReceivedItems` assigns the number of items (index 0) or adds it to the
count (otherwise); no other operation counts. -/
def CountsWithoutWrap (s : ArchipelagoClient) : Op → Prop
  | .HandleReceivedItems packet =>
    if packet.index = 0 then (packet.items.length : Int) ≤ 2147483647
    else s.received_item_count_ + packet.items.length ≤ 2147483647
  | _ => True

/-- The states a client reaches by operations that count without `int32`
wrap-around. -/
inductive ReachableWithoutWrap (J : JsonWriter) : ArchipelagoClient → Prop
  | init (uuid : Str) : ReachableWithoutWrap J (ArchipelagoClient.new uuid)
  | next (s : ArchipelagoClient) (op : Op) :
    ReachableWithoutWrap J s → CountsWithoutWrap s op → ReachableWithoutWrap J (step J s op)

/-- A message that is an array of two packet objects: a `RoomInfo` packet, then a
`ReceivedItems` packet with one item. -/
def roomInfoThenItems : JValue :=
  .arr [(APPacket.RoomInfo { seed_name := "seed".toList }).ToJSON,
    (APPacket.ReceivedItems { index := 0, items := [{ item := 100001 }] }).ToJSON]

/-- A sample JSON reader for the message `roomInfoThenItems` and for its first packet
sent alone. -/
def batchReader : JsonReader :=
  readerOf [roomInfoThenItems, (APPacket.RoomInfo { seed_name := "seed".toList }).ToJSON]

/-! ## Lemmas on the loop of `CheckLocations` -/

theorem CheckLocations_foldl_visit (ids : List Int) (s : ArchipelagoClient) :
    ids.foldl ArchipelagoClient.CheckLocations.visit s = { s with
      checked_locations_ :=
        s.checked_locations_ ++ CheckLocations.applied s.checked_locations_set_ ids
      checked_locations_set_ := s.checked_locations_set_ ∪ ids.toFinset
      missing_locations_ :=
        s.missing_locations_.diff (CheckLocations.applied s.checked_locations_set_ ids)
      events := s.events ++ (if s.on_location_checked_ then
        (CheckLocations.applied s.checked_locations_set_ ids).map APEvent.LocationChecked
        else []) } := by
  induction ids generalizing s with
  | nil => cases s; simp [CheckLocations.applied]
  | cons x xs ih =>
    rw [List.foldl_cons, ih]
    obtain ⟨_, _, _, _, _, _, _, _, _, _, _, _, _, set, _, _, _, _, _, _, _, _, _, _, _, _, _, _,
      _, _, cb, _, _, _, _, _⟩ := s
    by_cases hx : x ∈ set
    · simp [ArchipelagoClient.CheckLocations.visit, CheckLocations.applied, hx]
    · cases cb <;>
        simp [ArchipelagoClient.CheckLocations.visit, CheckLocations.applied, hx, ArchipelagoClient.invoke, List.diff_cons,
          Finset.insert_eq, Finset.union_left_comm]

theorem applied_eq_nil (set : Finset Int) (ids : List Int)
    (h : ∀ x ∈ ids, x ∈ set) : CheckLocations.applied set ids = [] := by
  induction ids generalizing set with
  | nil => rfl
  | cons x xs ih =>
    have hx : x ∈ set := h x (List.mem_cons_self x xs)
    simp only [CheckLocations.applied, hx, if_true]
    exact ih set (fun y hy => h y (List.mem_cons_of_mem x hy))

theorem applied_subset (set : Finset Int) (ids : List Int) :
    ∀ x ∈ CheckLocations.applied set ids, x ∈ ids ∧ x ∉ set := by
  induction ids generalizing set with
  | nil => intro x hx; simp [CheckLocations.applied] at hx
  | cons y ys ih =>
    intro x hx
    by_cases hy : y ∈ set
    · simp only [CheckLocations.applied, hy, if_true] at hx
      exact ⟨List.mem_cons_of_mem y (ih set x hx).1, (ih set x hx).2⟩
    · simp only [CheckLocations.applied, hy, if_false, List.mem_cons] at hx
      rcases hx with rfl | hx
      · exact ⟨List.mem_cons_self _ _, hy⟩
      · have := ih (insert y set) x hx
        exact ⟨List.mem_cons_of_mem y this.1, fun hmem => this.2 (Finset.mem_insert_of_mem hmem)⟩

theorem mem_applied (set : Finset Int) (ids : List Int) (x : Int)
    (hx : x ∈ ids) (hset : x ∉ set) : x ∈ CheckLocations.applied set ids := by
  induction ids generalizing set with
  | nil => simp at hx
  | cons y ys ih =>
    by_cases hy : y ∈ set
    · simp only [CheckLocations.applied, hy, if_true]
      rcases List.mem_cons.mp hx with rfl | hx
      · exact absurd hy hset
      · exact ih set hx hset
    · simp only [CheckLocations.applied, hy, if_false, List.mem_cons]
      by_cases hxy : x = y
      · exact Or.inl hxy
      · rcases List.mem_cons.mp hx with h | hx
        · exact absurd h hxy
        · exact Or.inr (ih (insert y set) hx (by simp [Finset.mem_insert, hxy, hset]))

theorem applied_nodup (set : Finset Int) (ids : List Int) :
    (CheckLocations.applied set ids).Nodup := by
  induction ids generalizing set with
  | nil => simp [CheckLocations.applied]
  | cons x xs ih =>
    by_cases hx : x ∈ set
    · simp only [CheckLocations.applied, hx, if_true]
      exact ih set
    · simp only [CheckLocations.applied, hx, if_false, List.nodup_cons]
      exact ⟨fun hmem => (applied_subset _ _ x hmem).2 (Finset.mem_insert_self x set), ih _⟩

theorem mem_applied_iff (set : Finset Int) (ids : List Int) (x : Int) :
    x ∈ CheckLocations.applied set ids ↔ x ∈ ids ∧ x ∉ set :=
  ⟨applied_subset set ids x, fun h => mem_applied set ids x h.1 h.2⟩

theorem count_applied (set : Finset Int) (ids : List Int) (x : Int) :
    (CheckLocations.applied set ids).count x = if x ∈ ids ∧ x ∉ set then 1 else 0 := by
  by_cases h : x ∈ ids ∧ x ∉ set
  · rw [if_pos h]
    exact List.count_eq_one_of_mem (applied_nodup set ids) ((mem_applied_iff set ids x).mpr h)
  · rw [if_neg h]
    exact List.count_eq_zero_of_not_mem (fun hm => h ((mem_applied_iff set ids x).mp hm))

theorem count_diff_list (x : Int) (l xs : List Int) :
    (l.diff xs).count x = l.count x - xs.count x := by
  induction xs generalizing l with
  | nil => simp
  | cons a xs ih =>
    rw [List.diff_cons, ih, List.count_erase, List.count_cons]
    by_cases h : a = x
    · subst h; simp; omega
    · have h2 : (x == a) = false := by simpa using fun h3 => h h3.symm
      simp [h, h2]

/-! ## Session operations -/

open ArchipelagoClient

theorem SendPacket_queue (J : JsonWriter) (s : ArchipelagoClient) (packet : APPacket)
    (hws : s.ws_client_.IsConnected = true) :
    s.SendPacket J packet = { s with ws_client_ := { s.ws_client_ with
      outbound_queue_ := s.ws_client_.outbound_queue_ ++
        [⟨.Text, "[".toList ++ APPacketToString J packet ++ "]".toList⟩] } } := by
  simp [SendPacket, hws, WebSocketClient.SendText]

/-- The loop body of `CheckLocations` changes the checked data, the missing list and
the callback log, nothing else. -/
theorem visit_frame (s : ArchipelagoClient) (x : Int) :
    CheckLocations.visit s x = { s with
      checked_locations_ := (CheckLocations.visit s x).checked_locations_
      checked_locations_set_ := (CheckLocations.visit s x).checked_locations_set_
      missing_locations_ := (CheckLocations.visit s x).missing_locations_
      events := (CheckLocations.visit s x).events } := by
  unfold CheckLocations.visit
  split
  · cases s.on_location_checked_ <;> rfl
  · rfl

theorem aliased_frame (count i : Nat) (stale : List Int) (s : ArchipelagoClient) :
    CheckLocations.aliased count i stale s = { s with
      checked_locations_ := (CheckLocations.aliased count i stale s).checked_locations_
      checked_locations_set_ := (CheckLocations.aliased count i stale s).checked_locations_set_
      missing_locations_ := (CheckLocations.aliased count i stale s).missing_locations_
      events := (CheckLocations.aliased count i stale s).events } := by
  induction count generalizing i stale s with
  | zero => rfl
  | succ n ih =>
    unfold CheckLocations.aliased
    simp only
    rw [ih]
    generalize CheckLocations.aliased n (i + 1) _ _ = t
    rw [visit_frame]

/-- Claim C1, as the code has it: on a Connected session whose transport is connected,
`CheckLocations(ids)` enqueues exactly one message, the text of a LocationChecks
packet whose `locations` is `ids` as the call reads it after its loop.  For a
list held by the caller that is `ids` as passed, unfiltered; this also when
every id was already checked.  For `ids` a reference to the missing or to the
checked list of the client it is what that list holds after the loop (the
checked list as it was, when the set index agrees with it). -/
theorem CheckLocations_sends_ids_unfiltered (J : JsonWriter) (s : ArchipelagoClient)
    (hs : s.IsConnected = true) (hws : s.ws_client_.IsConnected = true) :
    (∀ ids : List Int,
      (s.CheckLocations J (.vector ids)).ws_client_.outbound_queue_ =
          s.ws_client_.outbound_queue_ ++
            [⟨.Text, "[".toList ++ APPacketToString J (.LocationChecks { locations := ids })
              ++ "]".toList⟩]
        ∧ (APPacket.LocationChecks { locations := ids }).ToJSON =
          .obj [("cmd".toList, .str "LocationChecks".toList),
            ("locations".toList, .arr (ids.map JValue.int))])
      ∧ (s.CheckLocations J .missing_locations_).ws_client_.outbound_queue_ =
          s.ws_client_.outbound_queue_ ++
            [⟨.Text, "[".toList ++ APPacketToString J (.LocationChecks
                { locations := (s.CheckLocations J .missing_locations_).missing_locations_ })
              ++ "]".toList⟩]
      ∧ (Consistent s →
          (s.CheckLocations J .checked_locations_).ws_client_.outbound_queue_ =
            s.ws_client_.outbound_queue_ ++
              [⟨.Text, "[".toList ++ APPacketToString J (.LocationChecks
                  { locations := s.checked_locations_ }) ++ "]".toList⟩]) := by
  refine ⟨?_, ?_, ?_⟩
  · intro ids
    constructor
    · have h : (ids.foldl CheckLocations.visit s).ws_client_ = s.ws_client_ := by
        rw [CheckLocations_foldl_visit]
      simp only [CheckLocations, hs, Bool.not_true, Bool.false_eq_true, if_false]
      rw [SendPacket_queue J _ _ (by rw [h]; exact hws), h]
    · simp [APPacket.ToJSON, APPacket.cmd, c_str]
  · have h : (CheckLocations.aliased s.missing_locations_.length 0 [] s).ws_client_ =
        s.ws_client_ := by
      rw [aliased_frame]
    simp only [CheckLocations, hs, Bool.not_true, Bool.false_eq_true, if_false]
    rw [SendPacket_queue J _ _ (by rw [h]; exact hws), h]
  · intro hcons
    have happ : CheckLocations.applied s.checked_locations_set_ s.checked_locations_ = [] := by
      apply applied_eq_nil
      intro x hx
      have := (hcons x).mpr hx
      simpa [ArchipelagoClient.IsLocationChecked] using this
    have h : (s.checked_locations_.foldl CheckLocations.visit s).ws_client_ = s.ws_client_ := by
      rw [CheckLocations_foldl_visit]
    have hc : (s.checked_locations_.foldl CheckLocations.visit s).checked_locations_ =
        s.checked_locations_ := by
      rw [CheckLocations_foldl_visit]
      simp [happ]
    simp only [CheckLocations, hs, Bool.not_true, Bool.false_eq_true, if_false]
    rw [SendPacket_queue J _ _ (by rw [h]; exact hws), h, hc]

theorem CheckLocations_sends_ids_unfiltered_witness :
    (connectedSession {}).IsConnected = true ∧
      ((connectedSession {}).CheckLocations compactWriter (.vector [5, 6])).ws_client_.outbound_queue_ =
        (connectedSession {}).ws_client_.outbound_queue_ ++
          [⟨.Text, "[".toList ++ APPacketToString compactWriter (.LocationChecks { locations := [5, 6] })
            ++ "]".toList⟩]
      ∧ (APPacket.LocationChecks { locations := [5, 6] }).ToJSON =
        .obj [("cmd".toList, .str "LocationChecks".toList),
          ("locations".toList, .arr ([5, 6].map JValue.int))] :=
  ⟨by decide, (CheckLocations_sends_ids_unfiltered compactWriter (connectedSession {})
    (by decide) (by decide)).1 [5, 6]⟩

set_option maxRecDepth 100000 in
/-- Claim C1 fails as stated: on a Connected session (transport connected) in which
location 5 is already checked, the filtered list of `[5]` is empty, and yet
`CheckLocations([5])` enqueues a LocationChecks packet, listing 5. -/
theorem CheckLocations_resends_checked_id :
    (connectedSession { checked_locations := [5] }).IsConnected = true
      ∧ (connectedSession { checked_locations := [5] }).ws_client_.IsConnected = true
      ∧ [(5 : Int)].filter
          (fun id => !(connectedSession { checked_locations := [5] }).IsLocationChecked id) = []
      ∧ ((connectedSession { checked_locations := [5] }).CheckLocations compactWriter
            (.vector [5])).ws_client_.outbound_queue_ =
          (connectedSession { checked_locations := [5] }).ws_client_.outbound_queue_ ++
            [⟨.Text, "[\x7b\"cmd\":\"LocationChecks\",\"locations\":[5]\x7d]".toList⟩] := by
  decide

theorem SendPacket_eq (J : JsonWriter) (s : ArchipelagoClient) (packet : APPacket) :
    s.SendPacket J packet = { s with ws_client_ := (s.SendPacket J packet).ws_client_ } := by
  unfold SendPacket
  split <;> rfl

/-- What `CheckLocations` leaves in a Connected session: the loop result, with the
transport as `SendPacket` leaves it. -/
theorem CheckLocations_eq (J : JsonWriter) (s : ArchipelagoClient) (ids : List Int)
    (hs : s.IsConnected = true) :
    s.CheckLocations J (.vector ids) = { s with
      ws_client_ := (s.CheckLocations J (.vector ids)).ws_client_
      checked_locations_ :=
        s.checked_locations_ ++ CheckLocations.applied s.checked_locations_set_ ids
      checked_locations_set_ := s.checked_locations_set_ ∪ ids.toFinset
      missing_locations_ :=
        s.missing_locations_.diff (CheckLocations.applied s.checked_locations_set_ ids)
      events := s.events ++ (if s.on_location_checked_ then
        (CheckLocations.applied s.checked_locations_set_ ids).map APEvent.LocationChecked
        else []) } := by
  have h : s.CheckLocations J (.vector ids) =
      (ids.foldl CheckLocations.visit s).SendPacket J (.LocationChecks { locations := ids }) := by
    simp [CheckLocations, hs]
  rw [h, SendPacket_eq, CheckLocations_foldl_visit]

theorem CheckLocations_checked (J : JsonWriter) (s : ArchipelagoClient) (ids : List Int)
    (hs : s.IsConnected = true) :
    (s.CheckLocations J (.vector ids)).checked_locations_ =
      s.checked_locations_ ++ CheckLocations.applied s.checked_locations_set_ ids :=
  congrArg ArchipelagoClient.checked_locations_ (CheckLocations_eq J s ids hs)

theorem CheckLocations_set (J : JsonWriter) (s : ArchipelagoClient) (ids : List Int)
    (hs : s.IsConnected = true) :
    (s.CheckLocations J (.vector ids)).checked_locations_set_ = s.checked_locations_set_ ∪ ids.toFinset :=
  congrArg ArchipelagoClient.checked_locations_set_ (CheckLocations_eq J s ids hs)

theorem CheckLocations_missing (J : JsonWriter) (s : ArchipelagoClient) (ids : List Int)
    (hs : s.IsConnected = true) :
    (s.CheckLocations J (.vector ids)).missing_locations_ =
      s.missing_locations_.diff (CheckLocations.applied s.checked_locations_set_ ids) :=
  congrArg ArchipelagoClient.missing_locations_ (CheckLocations_eq J s ids hs)

theorem CheckLocations_events (J : JsonWriter) (s : ArchipelagoClient) (ids : List Int)
    (hs : s.IsConnected = true) :
    (s.CheckLocations J (.vector ids)).events = s.events ++ (if s.on_location_checked_ then
        (CheckLocations.applied s.checked_locations_set_ ids).map APEvent.LocationChecked
        else []) :=
  congrArg ArchipelagoClient.events (CheckLocations_eq J s ids hs)

theorem CheckLocations_IsConnected (J : JsonWriter) (s : ArchipelagoClient) (ids : List Int)
    (hs : s.IsConnected = true) : (s.CheckLocations J (.vector ids)).IsConnected = true :=
  (congrArg ArchipelagoClient.IsConnected (CheckLocations_eq J s ids hs)).trans hs

theorem CheckLocations_applied_again (J : JsonWriter) (s : ArchipelagoClient) (ids : List Int)
    (hs : s.IsConnected = true) :
    CheckLocations.applied (s.CheckLocations J (.vector ids)).checked_locations_set_ ids = [] := by
  apply applied_eq_nil
  intro x hx
  rw [CheckLocations_set J s ids hs]
  exact Finset.mem_union_right _ (List.mem_toFinset.mpr hx)

/-- For a list held by the caller: on a Connected session a second
`CheckLocations(ids)` in a row leaves `checkedLocations`, the set index and
`missingLocations` as the first call left them and invokes no callback.  From
empty checked data, `CheckLocations([5])` twice leaves the checked sequence
`[5]`, and the LocationChecked callback has run once, for 5. -/
theorem CheckLocations_idempotent (J : JsonWriter) (s : ArchipelagoClient) (ids : List Int)
    (hs : s.IsConnected = true) :
    ((s.CheckLocations J (.vector ids)).CheckLocations J (.vector ids)).checked_locations_ =
        (s.CheckLocations J (.vector ids)).checked_locations_
      ∧ ((s.CheckLocations J (.vector ids)).CheckLocations J (.vector ids)).checked_locations_set_ =
        (s.CheckLocations J (.vector ids)).checked_locations_set_
      ∧ ((s.CheckLocations J (.vector ids)).CheckLocations J (.vector ids)).missing_locations_ =
        (s.CheckLocations J (.vector ids)).missing_locations_
      ∧ ((s.CheckLocations J (.vector ids)).CheckLocations J (.vector ids)).events = (s.CheckLocations J (.vector ids)).events
      ∧ (s.checked_locations_ = [] → s.checked_locations_set_ = ∅ →
          s.on_location_checked_ = true →
          ((s.CheckLocations J (.vector [5])).CheckLocations J (.vector [5])).checked_locations_ = [5]
          ∧ ((s.CheckLocations J (.vector [5])).CheckLocations J (.vector [5])).checked_locations_.length = 1
          ∧ ((s.CheckLocations J (.vector [5])).CheckLocations J (.vector [5])).events =
              s.events ++ [.LocationChecked 5]) := by
  have hc := CheckLocations_IsConnected J s ids hs
  have happ := CheckLocations_applied_again J s ids hs
  refine ⟨?_, ?_, ?_, ?_, ?_⟩
  · rw [CheckLocations_checked J _ ids hc, happ, List.append_nil]
  · rw [CheckLocations_set J _ ids hc, CheckLocations_set J s ids hs, Finset.union_assoc,
      Finset.union_self]
  · rw [CheckLocations_missing J _ ids hc, happ, List.diff_nil]
  · rw [CheckLocations_events J _ ids hc, happ]
    simp
  · intro hl hset hcb
    have hc5 := CheckLocations_IsConnected J s [5] hs
    have happ5 := CheckLocations_applied_again J s [5] hs
    have h1 : (s.CheckLocations J (.vector [5])).checked_locations_ = [5] := by
      rw [CheckLocations_checked J s [5] hs, hl, hset]
      simp [CheckLocations.applied]
    have h2 : (s.CheckLocations J (.vector [5])).events = s.events ++ [.LocationChecked 5] := by
      rw [CheckLocations_events J s [5] hs, hset, hcb]
      simp [CheckLocations.applied]
    rw [CheckLocations_checked J _ [5] hc5, CheckLocations_events J _ [5] hc5, happ5, h1, h2]
    simp

theorem CheckLocations_idempotent_witness :
    (connectedSession {}).IsConnected = true
      ∧ (((connectedSession {}).CheckLocations compactWriter (.vector [5])).CheckLocations compactWriter
          (.vector [5])).checked_locations_ = [5]
      ∧ (((connectedSession {}).CheckLocations compactWriter (.vector [5])).CheckLocations compactWriter
          (.vector [5])).events = (connectedSession {}).events ++ [.LocationChecked 5] :=
  have h := CheckLocations_idempotent compactWriter (connectedSession {}) [5] (by decide)
  ⟨by decide, (h.2.2.2.2 (by decide) (by decide) (by decide)).1,
    (h.2.2.2.2 (by decide) (by decide) (by decide)).2.2⟩

set_option maxRecDepth 100000 in
/-- Claim C2 on the code: on the Connected session whose missing locations are 6, 7
and 8 and where nothing is checked, `CheckLocations(GetMissingLocations())`
reads the vector it erases from.  The first call checks 6 and 8 and leaves 7
missing; a second call in a row then checks 7, appends it to the checked
sequence and runs the LocationChecked callback for it: it does not leave the
state as the first call left it. -/
theorem CheckLocations_of_missing_list_twice :
    (connectedSession { missing_locations := [6, 7, 8] }).IsConnected = true
      ∧ (connectedSession { missing_locations := [6, 7, 8] }).GetMissingLocations = [6, 7, 8]
      ∧ (connectedSession { missing_locations := [6, 7, 8] }).GetCheckedLocations = []
      ∧ ((connectedSession { missing_locations := [6, 7, 8] }).CheckLocations compactWriter
          .missing_locations_).checked_locations_ = [6, 8]
      ∧ ((connectedSession { missing_locations := [6, 7, 8] }).CheckLocations compactWriter
          .missing_locations_).missing_locations_ = [7]
      ∧ ((connectedSession { missing_locations := [6, 7, 8] }).CheckLocations compactWriter
          .missing_locations_).events =
          (connectedSession { missing_locations := [6, 7, 8] }).events
            ++ [.LocationChecked 6, .LocationChecked 8]
      ∧ (((connectedSession { missing_locations := [6, 7, 8] }).CheckLocations compactWriter
          .missing_locations_).CheckLocations compactWriter
          .missing_locations_).checked_locations_ = [6, 8, 7]
      ∧ (((connectedSession { missing_locations := [6, 7, 8] }).CheckLocations compactWriter
          .missing_locations_).CheckLocations compactWriter
          .missing_locations_).missing_locations_ = []
      ∧ (((connectedSession { missing_locations := [6, 7, 8] }).CheckLocations compactWriter
          .missing_locations_).CheckLocations compactWriter .missing_locations_).events =
          ((connectedSession { missing_locations := [6, 7, 8] }).CheckLocations compactWriter
            .missing_locations_).events ++ [.LocationChecked 7] := by
  decide

theorem toInt32_of_range (x : Int) (hlo : -2147483648 ≤ x) (hhi : x ≤ 2147483647) :
    toInt32 x = x := by
  unfold toInt32
  omega

theorem HandleReceivedItems_foldl_visit (items : List APNetworkItem) (s : ArchipelagoClient) :
    items.foldl HandleReceivedItems.visit s = { s with
      pending_items_ := s.pending_items_ ++ items
      received_item_count_ := items.foldl (fun c _ => toInt32 (c + 1)) s.received_item_count_
      events := s.events ++ (if s.on_item_received_ then items.map APEvent.ItemReceived else []) } := by
  induction items generalizing s with
  | nil => cases s; simp
  | cons x xs ih =>
    rw [List.foldl_cons, ih]
    obtain ⟨_, _, _, _, _, _, _, _, _, _, _, _, _, _, _, _, _, _, _, _, _, _, _, _, _, _, _, _,
      _, cb, _, _, _, _, _, _⟩ := s
    cases cb <;> simp [HandleReceivedItems.visit, invoke]

theorem foldl_count_of_range (items : List APNetworkItem) (c : Int) (hlo : -2147483648 ≤ c)
    (hhi : c + items.length ≤ 2147483647) :
    items.foldl (fun c _ => toInt32 (c + 1)) c = c + items.length := by
  induction items generalizing c with
  | nil => simp
  | cons x xs ih =>
    simp only [List.length_cons, Nat.cast_add, Nat.cast_one] at hhi
    rw [List.foldl_cons, toInt32_of_range (c + 1) (by omega) (by omega),
      ih (c + 1) (by omega) (by omega)]
    simp only [List.length_cons, Nat.cast_add, Nat.cast_one]
    omega

/-- Claim C3: for a ReceivedItems packet with `index == 0`, `HandleReceivedItems`
replaces `pendingItems` by the items of the packet, in packet order, assigns
the number of items to the `int32` field `receivedItemCount` (the number itself
whenever it is an `int32` value), and invokes no callback. -/
theorem HandleReceivedItems_resync (s : ArchipelagoClient) (packet : APReceivedItemsPacket)
    (h0 : packet.index = 0) :
    (s.HandleReceivedItems packet).pending_items_ = packet.items
      ∧ (s.HandleReceivedItems packet).received_item_count_ = toInt32 packet.items.length
      ∧ (packet.items.length ≤ 2147483647 →
          (s.HandleReceivedItems packet).received_item_count_ = packet.items.length)
      ∧ (s.HandleReceivedItems packet).events = s.events := by
  have h : s.HandleReceivedItems packet = { s with
      pending_items_ := packet.items
      received_item_count_ := toInt32 packet.items.length } := by
    simp [HandleReceivedItems, h0]
  rw [h]
  refine ⟨rfl, rfl, ?_, rfl⟩
  intro hn
  exact toInt32_of_range _ (by omega) (by omega)

theorem HandleReceivedItems_resync_witness :
    (⟨0, [{ item := 100001 }, { item := 100002 }]⟩ : APReceivedItemsPacket).index = 0
      ∧ ((connectedSession {}).HandleReceivedItems
          ⟨0, [{ item := 100001 }, { item := 100002 }]⟩).pending_items_ =
        [{ item := 100001 }, { item := 100002 }]
      ∧ ((connectedSession {}).HandleReceivedItems
          ⟨0, [{ item := 100001 }, { item := 100002 }]⟩).received_item_count_ = (2 : Nat) :=
  have h := HandleReceivedItems_resync (connectedSession {})
    ⟨0, [{ item := 100001 }, { item := 100002 }]⟩ rfl
  ⟨rfl, h.1, h.2.2.1 (by decide)⟩

/-- Claim C4: for a ReceivedItems packet with `index != 0`, `HandleReceivedItems`
appends the items of the packet to `pendingItems`, adds their number to
`receivedItemCount` (within `int32`), and invokes the ItemReceived callback
once per item, in packet order.  So `{index:0, items:[A,B]}` followed by
`{index:2, items:[C]}` leaves `pendingItems == [A,B,C]`, the count 3, and one
ItemReceived invocation, for C. -/
theorem HandleReceivedItems_incremental (s : ArchipelagoClient) (packet : APReceivedItemsPacket)
    (h0 : packet.index ≠ 0) :
    (s.HandleReceivedItems packet).pending_items_ = s.pending_items_ ++ packet.items
      ∧ (-2147483648 ≤ s.received_item_count_ →
          s.received_item_count_ + packet.items.length ≤ 2147483647 →
          (s.HandleReceivedItems packet).received_item_count_ =
            s.received_item_count_ + packet.items.length)
      ∧ (s.on_item_received_ = true →
          (s.HandleReceivedItems packet).events =
            s.events ++ packet.items.map APEvent.ItemReceived)
      ∧ (s.on_item_received_ = true → ∀ A B C : APNetworkItem,
          ((s.HandleReceivedItems ⟨0, [A, B]⟩).HandleReceivedItems ⟨2, [C]⟩).pending_items_
              = [A, B, C]
            ∧ ((s.HandleReceivedItems ⟨0, [A, B]⟩).HandleReceivedItems
                ⟨2, [C]⟩).received_item_count_ = 3
            ∧ ((s.HandleReceivedItems ⟨0, [A, B]⟩).HandleReceivedItems ⟨2, [C]⟩).events
              = s.events ++ [.ItemReceived C]) := by
  have h : s.HandleReceivedItems packet = packet.items.foldl HandleReceivedItems.visit s := by
    simp [HandleReceivedItems, h0]
  rw [h, HandleReceivedItems_foldl_visit]
  refine ⟨rfl, ?_, ?_, ?_⟩
  · intro hlo hhi
    exact foldl_count_of_range packet.items _ hlo hhi
  · intro hcb
    simp [hcb]
  · intro hcb A B C
    simp [HandleReceivedItems, HandleReceivedItems.visit, invoke, hcb]
    decide

theorem HandleReceivedItems_incremental_witness :
    (⟨2, [{ item := 100003 }]⟩ : APReceivedItemsPacket).index ≠ 0
      ∧ (((connectedSession {}).HandleReceivedItems
            ⟨0, [{ item := 100001 }, { item := 100002 }]⟩).HandleReceivedItems
            ⟨2, [{ item := 100003 }]⟩).pending_items_ =
          [{ item := 100001 }, { item := 100002 }, { item := 100003 }]
      ∧ (((connectedSession {}).HandleReceivedItems
            ⟨0, [{ item := 100001 }, { item := 100002 }]⟩).HandleReceivedItems
            ⟨2, [{ item := 100003 }]⟩).received_item_count_ = 3
      ∧ (((connectedSession {}).HandleReceivedItems
            ⟨0, [{ item := 100001 }, { item := 100002 }]⟩).HandleReceivedItems
            ⟨2, [{ item := 100003 }]⟩).events =
          (connectedSession {}).events ++ [.ItemReceived { item := 100003 }] :=
  ⟨by decide,
    (HandleReceivedItems_incremental (connectedSession {}) ⟨2, [{ item := 100003 }]⟩
      (by decide)).2.2.2 (by decide) { item := 100001 } { item := 100002 } { item := 100003 }⟩

/-- Claim C5: after `Disconnect()` from any state `IsConnected()` is false; and in
every state in which `IsConnected()` is false, `CheckLocation`, `CheckLocations`
and `SendChatMessage` return with the whole client state as it was: snapshot,
callback log and outbound queue of the transport included. -/
theorem not_connected_calls_are_noops (J : JsonWriter) (s : ArchipelagoClient) :
    s.Disconnect.IsConnected = false
      ∧ (∀ (id : Int) (ids : LocationIds) (text : Str),
          s.Disconnect.CheckLocation J id = s.Disconnect
          ∧ s.Disconnect.CheckLocations J ids = s.Disconnect
          ∧ s.Disconnect.SendChatMessage J text = s.Disconnect)
      ∧ (s.IsConnected = false → ∀ (id : Int) (ids : LocationIds) (text : Str),
          s.CheckLocation J id = s
          ∧ s.CheckLocations J ids = s
          ∧ s.SendChatMessage J text = s) := by
  have hd : s.Disconnect.IsConnected = false := by
    simp [ArchipelagoClient.Disconnect, ArchipelagoClient.SetConnectionState, ArchipelagoClient.IsConnected]
  have key : ∀ t : ArchipelagoClient, t.IsConnected = false →
      ∀ (id : Int) (ids : LocationIds) (text : Str),
        t.CheckLocation J id = t ∧ t.CheckLocations J ids = t ∧ t.SendChatMessage J text = t := by
    intro t ht id ids text
    simp [ArchipelagoClient.CheckLocation, ArchipelagoClient.CheckLocations, ArchipelagoClient.SendChatMessage, ht]
  exact ⟨hd, key _ hd, key s⟩

theorem not_connected_calls_are_noops_witness :
    refusedSession.IsConnected = false
      ∧ refusedSession.CheckLocation compactWriter 5 = refusedSession
      ∧ refusedSession.CheckLocations compactWriter (.vector [5, 6]) = refusedSession
      ∧ refusedSession.SendChatMessage compactWriter "hello".toList = refusedSession :=
  ⟨by decide,
    (not_connected_calls_are_noops compactWriter refusedSession).2.2 (by decide) 5
      (.vector [5, 6]) "hello".toList⟩

theorem HandleConnected_foldl_insert (ids : List Int) (set : Finset Int) :
    ids.foldl (fun set location_id => insert location_id set) set = set ∪ ids.toFinset := by
  induction ids generalizing set with
  | nil => simp
  | cons x xs ih =>
    rw [List.foldl_cons, ih]
    ext y
    simp only [Finset.mem_union, Finset.mem_insert, List.toFinset_cons]
    tauto

/-- Claim C8: handling a Connected packet `p` while the transport is connected leaves
team, slot, roster, missing and checked locations and hint points equal to the
fields of `p`; the set index holds exactly the elements of `p.checked_locations`;
the session state is Connected and the status Ready; one message is enqueued,
the StatusUpdate packet with status 10; and the Connected callback runs once. -/
theorem HandleConnected_populates (J : JsonWriter) (s : ArchipelagoClient)
    (p : APConnectedPacket) (hws : s.ws_client_.IsConnected = true) :
    (s.HandleConnected J p).team_ = p.team
      ∧ (s.HandleConnected J p).slot_ = p.slot
      ∧ (s.HandleConnected J p).players_ = p.players
      ∧ (s.HandleConnected J p).missing_locations_ = p.missing_locations
      ∧ (s.HandleConnected J p).checked_locations_ = p.checked_locations
      ∧ (s.HandleConnected J p).hint_points_ = p.hint_points
      ∧ (s.HandleConnected J p).checked_locations_set_ = p.checked_locations.toFinset
      ∧ (∀ id, (s.HandleConnected J p).IsLocationChecked id = true ↔ id ∈ p.checked_locations)
      ∧ (s.HandleConnected J p).connection_state_ = .Connected
      ∧ (s.HandleConnected J p).current_status_ = .CLIENT_READY
      ∧ (s.HandleConnected J p).ws_client_.outbound_queue_ =
          s.ws_client_.outbound_queue_ ++
            [⟨.Text, "[".toList ++ APPacketToString J (.StatusUpdate { status := .CLIENT_READY })
              ++ "]".toList⟩]
      ∧ (APPacket.StatusUpdate { status := .CLIENT_READY }).ToJSON =
          .obj [("cmd".toList, .str "StatusUpdate".toList), ("status".toList, .int 10)]
      ∧ (s.on_connected_ = true → (s.HandleConnected J p).events = s.events ++ [.Connected]) := by
  have hws' : s.ws_client_.state_ = .Connected := by simpa [WebSocketClient.IsConnected] using hws
  have hset := HandleConnected_foldl_insert p.checked_locations ∅
  simp only [Finset.empty_union] at hset
  refine ⟨?_, ?_, ?_, ?_, ?_, ?_, ?_, ?_, ?_, ?_, ?_, ?_, ?_⟩
  all_goals
    try simp [ArchipelagoClient.HandleConnected, ArchipelagoClient.UpdateStatus,
      ArchipelagoClient.SetConnectionState, ArchipelagoClient.IsConnected,
      ArchipelagoClient.SendPacket, WebSocketClient.IsConnected, WebSocketClient.SendText,
      ArchipelagoClient.invoke, hws', hset, ArchipelagoClient.IsLocationChecked, apply_ite]
  simp [APPacket.ToJSON, APPacket.cmd, c_str, APClientStatus.toInt32]

theorem HandleConnected_populates_witness :
    openedSession.ws_client_.IsConnected = true
      ∧ (openedSession.HandleConnected compactWriter
          { team := 1, slot := 2, checked_locations := [5], missing_locations := [6] }).team_ = 1
      ∧ (openedSession.HandleConnected compactWriter
          { team := 1, slot := 2, checked_locations := [5], missing_locations := [6] }
          ).connection_state_ = .Connected
      ∧ (openedSession.HandleConnected compactWriter
          { team := 1, slot := 2, checked_locations := [5], missing_locations := [6] }).events =
        openedSession.events ++ [.Connected] :=
  have h := HandleConnected_populates compactWriter openedSession
    { team := 1, slot := 2, checked_locations := [5], missing_locations := [6] } (by decide)
  ⟨by decide, h.1, h.2.2.2.2.2.2.2.2.1, h.2.2.2.2.2.2.2.2.2.2.2.2 (by decide)⟩

theorem SameChecked_consistent {s t : ArchipelagoClient} (h : SameChecked s t)
    (hs : Consistent s) : Consistent t := by
  intro id
  have := hs id
  simpa [ArchipelagoClient.IsLocationChecked, ArchipelagoClient.GetCheckedLocations, h.1, h.2]
    using this

theorem SameChecked_trans {s t u : ArchipelagoClient} (h1 : SameChecked s t)
    (h2 : SameChecked t u) : SameChecked s u :=
  ⟨h2.1.trans h1.1, h2.2.trans h1.2⟩

theorem SendPacket_sameChecked (J : JsonWriter) (s : ArchipelagoClient) (packet : APPacket) :
    SameChecked s (s.SendPacket J packet) := by
  rw [SendPacket_eq]; exact ⟨rfl, rfl⟩

theorem invoke_sameChecked (s : ArchipelagoClient) (b : Bool) (e : APEvent) :
    SameChecked s (s.invoke b e) := by
  cases b <;> exact ⟨rfl, rfl⟩

theorem wsConnect_sameChecked (owner : ArchipelagoClient) (uri : Str) :
    SameChecked owner (WebSocketClient.Connect owner uri).1 := by
  unfold WebSocketClient.Connect
  cases ParseWebSocketURL uri {} with
  | error e => exact ⟨rfl, rfl⟩
  | ok r =>
    obtain ⟨b, parsed⟩ := r
    cases b
    · exact invoke_sameChecked owner owner.on_error_ _
    · exact ⟨rfl, rfl⟩

theorem Connect_sameChecked (s : ArchipelagoClient) (address : Str) (port : Int)
    (slot_name password : Str) : SameChecked s (s.Connect address port slot_name password).1 := by
  unfold ArchipelagoClient.Connect
  split
  · exact ⟨rfl, rfl⟩
  · exact SameChecked_trans (t := _) ⟨rfl, rfl⟩ (wsConnect_sameChecked _ _)

theorem step_sameChecked (J : JsonWriter) (s : ArchipelagoClient) (op : Op)
    (h1 : ∀ id, op ≠ .CheckLocation id) (h2 : ∀ ids, op ≠ .CheckLocations ids)
    (h3 : ∀ p, op ≠ .HandleConnected p) (h4 : op ≠ .ResetState) :
    SameChecked s (step J s op) := by
  cases op with
  | Connect a p n pw => exact Connect_sameChecked s a p n pw
  | CheckLocation id => exact absurd rfl (h1 id)
  | CheckLocations ids => exact absurd rfl (h2 ids)
  | HandleConnected p => exact absurd rfl (h3 p)
  | ResetState => exact absurd rfl h4
  | Disconnect => exact ⟨rfl, rfl⟩
  | Authenticate n pw =>
    simp only [step, ArchipelagoClient.Authenticate]
    split
    · exact ⟨rfl, rfl⟩
    · exact SendPacket_sameChecked _ _ _
  | ClearPendingItems => exact ⟨rfl, rfl⟩
  | UpdateStatus st =>
    simp only [step, ArchipelagoClient.UpdateStatus]
    split
    · exact ⟨rfl, rfl⟩
    · exact SameChecked_trans (t := _) ⟨rfl, rfl⟩ (SendPacket_sameChecked _ _ _)
  | SendChatMessage m =>
    simp only [step, ArchipelagoClient.SendChatMessage]
    split
    · exact ⟨rfl, rfl⟩
    · exact SendPacket_sameChecked _ _ _
  | RequestDataPackage g =>
    simp only [step, ArchipelagoClient.RequestDataPackage]
    split
    · exact ⟨rfl, rfl⟩
    · exact SendPacket_sameChecked _ _ _
  | SyncData =>
    simp only [step, ArchipelagoClient.SyncData]
    split
    · exact ⟨rfl, rfl⟩
    · exact SendPacket_sameChecked _ _ _
  | SetAutoReconnect b => exact ⟨rfl, rfl⟩
  | SetReconnectDelay ms => exact ⟨rfl, rfl⟩
  | SetConnectedCallback cb => exact ⟨rfl, rfl⟩
  | SetDisconnectedCallback cb => exact ⟨rfl, rfl⟩
  | SetItemReceivedCallback cb => exact ⟨rfl, rfl⟩
  | SetLocationCheckedCallback cb => exact ⟨rfl, rfl⟩
  | SetChatMessageCallback cb => exact ⟨rfl, rfl⟩
  | SetErrorCallback cb => exact ⟨rfl, rfl⟩
  | OnReconnectTimer =>
    simp only [step, ArchipelagoClient.OnReconnectTimer]
    split
    · exact Connect_sameChecked _ _ _ _ _
    · exact ⟨rfl, rfl⟩
  | HandleRoomInfo p =>
    simp only [step, ArchipelagoClient.HandleRoomInfo, ArchipelagoClient.Authenticate]
    split
    · split
      · exact ⟨rfl, rfl⟩
      · exact SameChecked_trans (t := _) ⟨rfl, rfl⟩ (SendPacket_sameChecked _ _ _)
    · exact ⟨rfl, rfl⟩
  | HandleConnectionRefused p =>
    simp only [step, ArchipelagoClient.HandleConnectionRefused]
    split <;> exact ⟨rfl, rfl⟩
  | HandleReceivedItems p =>
    simp only [step, ArchipelagoClient.HandleReceivedItems]
    split
    · exact ⟨rfl, rfl⟩
    · rw [HandleReceivedItems_foldl_visit]; exact ⟨rfl, rfl⟩
  | HandlePrintJSON p =>
    simp only [step, ArchipelagoClient.HandlePrintJSON]
    split <;> exact ⟨rfl, rfl⟩
  | TransportConnected => exact ⟨rfl, rfl⟩
  | TransportDisconnected c r =>
    simp only [step, WebSocketClient.HandleDisconnected, ArchipelagoClient.OnWebSocketDisconnected]
    split <;> split <;> first | exact ⟨rfl, rfl⟩ | (cases s.on_disconnected_ <;> exact ⟨rfl, rfl⟩)
  | TransportError e =>
    simp only [step, WebSocketClient.HandleError, ArchipelagoClient.OnWebSocketError]
    cases s.on_error_ <;> exact ⟨rfl, rfl⟩
  | TransportActivity ws => exact ⟨rfl, rfl⟩

theorem new_consistent (uuid : Str) : Consistent (ArchipelagoClient.new uuid) := by
  intro id
  simp [Consistent, ArchipelagoClient.new, ArchipelagoClient.IsLocationChecked,
    ArchipelagoClient.GetCheckedLocations]

theorem visit_consistent (s : ArchipelagoClient) (x : Int) (h : Consistent s) :
    Consistent (CheckLocations.visit s x) := by
  intro id
  have hid := h id
  unfold CheckLocations.visit
  simp only [ArchipelagoClient.IsLocationChecked, ArchipelagoClient.GetCheckedLocations,
    decide_eq_true_eq] at hid ⊢
  split
  · cases s.on_location_checked_ <;>
      simp [ArchipelagoClient.invoke, Finset.mem_insert, hid, or_comm]
  · exact hid

theorem foldl_visit_consistent (ids : List Int) (s : ArchipelagoClient) (h : Consistent s) :
    Consistent (ids.foldl CheckLocations.visit s) := by
  induction ids generalizing s with
  | nil => exact h
  | cons x xs ih => exact ih _ (visit_consistent s x h)

theorem aliased_consistent (count i : Nat) (stale : List Int) (s : ArchipelagoClient)
    (h : Consistent s) : Consistent (CheckLocations.aliased count i stale s) := by
  induction count generalizing i stale s with
  | zero => exact h
  | succ n ih =>
    unfold CheckLocations.aliased
    exact ih _ _ _ (visit_consistent s _ h)

/-- Whatever vector it is given, `CheckLocations` changes the transport, the checked
data, the missing list and the callback log, nothing else. -/
theorem CheckLocations_frame (J : JsonWriter) (s : ArchipelagoClient)
    (location_ids : LocationIds) :
    s.CheckLocations J location_ids = { s with
      ws_client_ := (s.CheckLocations J location_ids).ws_client_
      checked_locations_ := (s.CheckLocations J location_ids).checked_locations_
      checked_locations_set_ := (s.CheckLocations J location_ids).checked_locations_set_
      missing_locations_ := (s.CheckLocations J location_ids).missing_locations_
      events := (s.CheckLocations J location_ids).events } := by
  unfold ArchipelagoClient.CheckLocations
  split
  · rfl
  · cases location_ids with
    | vector ids =>
      simp only
      rw [SendPacket_eq, CheckLocations_foldl_visit]
    | missing_locations_ =>
      simp only
      rw [SendPacket_eq, aliased_frame]
    | checked_locations_ =>
      simp only
      rw [SendPacket_eq, CheckLocations_foldl_visit]

theorem CheckLocations_consistent (J : JsonWriter) (s : ArchipelagoClient)
    (location_ids : LocationIds) (h : Consistent s) :
    Consistent (s.CheckLocations J location_ids) := by
  unfold ArchipelagoClient.CheckLocations
  split
  · exact h
  · cases location_ids with
    | vector ids =>
      simp only
      rw [SendPacket_eq]
      exact foldl_visit_consistent ids s h
    | missing_locations_ =>
      simp only
      rw [SendPacket_eq]
      exact aliased_consistent _ _ _ s h
    | checked_locations_ =>
      simp only
      rw [SendPacket_eq]
      exact foldl_visit_consistent _ s h

theorem HandleConnected_consistent (J : JsonWriter) (s : ArchipelagoClient)
    (p : APConnectedPacket) : Consistent (s.HandleConnected J p) := by
  have hset := HandleConnected_foldl_insert p.checked_locations ∅
  simp only [Finset.empty_union] at hset
  intro id
  simp only [ArchipelagoClient.HandleConnected, ArchipelagoClient.UpdateStatus,
    ArchipelagoClient.SetConnectionState, ArchipelagoClient.IsLocationChecked,
    ArchipelagoClient.GetCheckedLocations, hset]
  split
  · cases s.on_connected_ <;> simp [ArchipelagoClient.invoke]
  · rw [SendPacket_eq]
    cases s.on_connected_ <;> simp [ArchipelagoClient.invoke]

theorem ResetState_consistent (s : ArchipelagoClient) : Consistent s.ResetState := by
  intro id
  simp [ArchipelagoClient.ResetState, ArchipelagoClient.IsLocationChecked,
    ArchipelagoClient.GetCheckedLocations]

theorem step_consistent (J : JsonWriter) (s : ArchipelagoClient) (op : Op) (h : Consistent s) :
    Consistent (step J s op) := by
  by_cases h1 : ∃ id, op = .CheckLocation id
  · obtain ⟨id, rfl⟩ := h1
    exact CheckLocations_consistent J s (.vector [id]) h
  by_cases h2 : ∃ ids, op = .CheckLocations ids
  · obtain ⟨ids, rfl⟩ := h2
    exact CheckLocations_consistent J s ids h
  by_cases h3 : ∃ p, op = .HandleConnected p
  · obtain ⟨p, rfl⟩ := h3
    exact HandleConnected_consistent J s p
  by_cases h4 : op = .ResetState
  · subst h4
    exact ResetState_consistent s
  · exact SameChecked_consistent
      (step_sameChecked J s op (fun id e => h1 ⟨id, e⟩) (fun ids e => h2 ⟨ids, e⟩)
        (fun p e => h3 ⟨p, e⟩) h4) h

theorem Reachable_consistent {J : JsonWriter} {s : ArchipelagoClient} (h : Reachable J s) :
    Consistent s := by
  induction h with
  | init uuid => exact new_consistent uuid
  | next s op _ ih => exact step_consistent J s op ih

/-- Claim C9: the checked sequence and its set index agree in every reachable state:
`IsLocationChecked(id)` holds exactly when `id` occurs in
`GetCheckedLocations()`.  This holds at construction, every operation
(`CheckLocations`, `HandleConnected`, `ResetState` and all the others) keeps
it, and so it holds in every reachable state. -/
theorem checked_index_consistent (J : JsonWriter) :
    (∀ uuid : Str, ∀ id : Int, (ArchipelagoClient.new uuid).IsLocationChecked id = true ↔
        id ∈ (ArchipelagoClient.new uuid).GetCheckedLocations)
      ∧ (∀ (s : ArchipelagoClient) (op : Op), Consistent s → Consistent (step J s op))
      ∧ (∀ s : ArchipelagoClient, Reachable J s →
          ∀ id : Int, s.IsLocationChecked id = true ↔ id ∈ s.GetCheckedLocations) :=
  ⟨fun uuid => new_consistent uuid, fun s op h => step_consistent J s op h,
    fun _ h => Reachable_consistent h⟩

theorem checked_index_consistent_witness :
    Reachable compactWriter
        (step compactWriter (step compactWriter (ArchipelagoClient.new "id".toList)
          (.HandleConnected { checked_locations := [5, 5, 6] })) (.CheckLocations (.vector [6, 7])))
      ∧ ∀ id : Int,
        (step compactWriter (step compactWriter (ArchipelagoClient.new "id".toList)
          (.HandleConnected { checked_locations := [5, 5, 6] }))
          (.CheckLocations (.vector [6, 7]))).IsLocationChecked id = true ↔
        id ∈ (step compactWriter (step compactWriter (ArchipelagoClient.new "id".toList)
          (.HandleConnected { checked_locations := [5, 5, 6] }))
          (.CheckLocations (.vector [6, 7]))).GetCheckedLocations :=
  ⟨.next _ _ (.next _ _ (.init _)),
    (checked_index_consistent compactWriter).2.2 _ (.next _ _ (.next _ _ (.init _)))⟩

theorem filter_erase_of_false (p : Int → Bool) (l : List Int) (a : Int) (ha : p a = false) :
    (l.erase a).filter p = l.filter p := by
  induction l with
  | nil => rfl
  | cons x xs ih =>
    by_cases hxa : x = a
    · subst hxa
      simp [ha]
    · rw [List.erase_cons_tail (by simpa using hxa)]
      simp only [List.filter_cons, ih]

theorem filter_diff_of_false (p : Int → Bool) (l xs : List Int) (h : ∀ x ∈ xs, p x = false) :
    (l.diff xs).filter p = l.filter p := by
  induction xs generalizing l with
  | nil => simp
  | cons x xs ih =>
    rw [List.diff_cons, ih _ (fun y hy => h y (List.mem_cons_of_mem x hy)),
      filter_erase_of_false p l x (h x (List.mem_cons_self x xs))]

/-- Claim C10, as the code has it: on a Connected session, for a list `ids` held by
the caller, `CheckLocations(ids)` removes from `missingLocations` the first
occurrence of each id of `ids` that was not checked before the call, once for
each such id however often `ids` repeats it, and nothing else: every value
occurs in the result as often as before, less one when it is such an id.  So
the result is a sublist of the old sequence and the elements not in `ids` stay,
in their order.  When `missingLocations` has no duplicate and none of its
elements is checked already, no id of `ids` occurs in it afterwards. -/
theorem CheckLocations_removes_from_missing (J : JsonWriter) (s : ArchipelagoClient)
    (ids : List Int) (hs : s.IsConnected = true) :
    (s.CheckLocations J (.vector ids)).missing_locations_ =
        s.missing_locations_.diff (CheckLocations.applied s.checked_locations_set_ ids)
      ∧ (CheckLocations.applied s.checked_locations_set_ ids).Nodup
      ∧ (∀ x : Int, x ∈ CheckLocations.applied s.checked_locations_set_ ids ↔
          x ∈ ids ∧ s.IsLocationChecked x = false)
      ∧ (∀ x : Int, (s.CheckLocations J (.vector ids)).missing_locations_.count x =
          s.missing_locations_.count x -
            (if x ∈ ids ∧ s.IsLocationChecked x = false then 1 else 0))
      ∧ (s.CheckLocations J (.vector ids)).missing_locations_.Sublist s.missing_locations_
      ∧ (s.CheckLocations J (.vector ids)).missing_locations_.filter (fun x => decide (x ∉ ids)) =
          s.missing_locations_.filter (fun x => decide (x ∉ ids))
      ∧ (s.missing_locations_.Nodup →
          (∀ x ∈ s.missing_locations_, s.IsLocationChecked x = false) →
          ∀ id ∈ ids, id ∉ (s.CheckLocations J (.vector ids)).missing_locations_) := by
  have hchk : ∀ x : Int, s.IsLocationChecked x = false ↔ x ∉ s.checked_locations_set_ := by
    intro x; simp [ArchipelagoClient.IsLocationChecked]
  rw [CheckLocations_missing J s ids hs]
  refine ⟨rfl, applied_nodup _ _, ?_, ?_, List.diff_sublist _ _, ?_, ?_⟩
  · intro x
    rw [hchk]
    exact mem_applied_iff _ _ x
  · intro x
    rw [count_diff_list, count_applied]
    simp only [hchk]
  · apply filter_diff_of_false
    intro x hx
    simpa using (applied_subset _ _ x hx).1
  · intro hnd hdisj id hid hmem
    have hm := (hnd.mem_diff_iff).mp hmem
    have hnot : id ∉ s.checked_locations_set_ := by
      simpa [ArchipelagoClient.IsLocationChecked] using hdisj id hm.1
    exact hm.2 (mem_applied _ _ _ hid hnot)

set_option maxRecDepth 100000 in
theorem CheckLocations_removes_from_missing_witness :
    (connectedSession { missing_locations := [6, 7, 8, 6] }).IsConnected = true
      ∧ ((connectedSession { missing_locations := [6, 7, 8, 6] }).CheckLocations compactWriter
          (.vector [8, 6, 8])).missing_locations_ = [7, 6] :=
  ⟨by decide,
    ((CheckLocations_removes_from_missing compactWriter
      (connectedSession { missing_locations := [6, 7, 8, 6] }) [8, 6, 8] (by decide)).1).trans
      (by decide)⟩

/-- Claim C10 fails as stated: after a Connected packet whose `missing_locations` is
`[7, 7]`, the session is Connected and `CheckLocations([7])` leaves a 7 in
`missingLocations`. -/
theorem CheckLocations_leaves_duplicate_missing :
    (connectedSession { missing_locations := [7, 7] }).IsConnected = true
      ∧ (7 : Int) ∈ [(7 : Int)]
      ∧ (7 : Int) ∈ ((connectedSession { missing_locations := [7, 7] }).CheckLocations
          compactWriter (.vector [7])).missing_locations_ := by
  decide

theorem digitChar_isDigit (d : Nat) (h : d < 10) :
    (Nat.digitChar d).isDigit = true ∧ (Nat.digitChar d).toNat - 48 = d
      ∧ isspace (Nat.digitChar d) = false ∧ Nat.digitChar d ≠ '-' ∧ Nat.digitChar d ≠ '+' := by
  interval_cases d <;> decide

theorem digitsValue_append (xs : Str) (c : Char) :
    digitsValue (xs ++ [c]) = digitsValue xs * 10 + (c.toNat - 48) := by
  simp [digitsValue, List.foldl_append]

/-- The decimal digits of `n`: a non-empty run of digit characters whose value is `n`. -/
theorem decimalDigits_spec (fuel n : Nat) (h : n < fuel) :
    decimalDigits fuel n ≠ [] ∧ (∀ c ∈ decimalDigits fuel n, c.isDigit = true)
      ∧ digitsValue (decimalDigits fuel n) = n := by
  induction fuel generalizing n with
  | zero => omega
  | succ fuel ih =>
    unfold decimalDigits
    split
    · rename_i h10
      have hd := digitChar_isDigit n h10
      refine ⟨by simp, ?_, ?_⟩
      · intro c hc
        rw [List.mem_singleton.mp hc]; exact hd.1
      · simp [digitsValue, hd.2.1]
    · rename_i h10
      have hlt : n / 10 < fuel := by omega
      have hd := digitChar_isDigit (n % 10) (Nat.mod_lt _ (by decide))
      obtain ⟨_, h2, h3⟩ := ih (n / 10) hlt
      refine ⟨by simp, ?_, ?_⟩
      · intro c hc
        rcases List.mem_append.mp hc with hc | hc
        · exact h2 c hc
        · rw [List.mem_singleton.mp hc]; exact hd.1
      · rw [digitsValue_append, h3, hd.2.1]
        omega

theorem isDigit_toNat (c : Char) (h : c.isDigit = true) : 48 ≤ c.toNat ∧ c.toNat ≤ 57 := by
  simp only [Char.isDigit, Bool.and_eq_true, decide_eq_true_eq] at h
  exact ⟨h.1, h.2⟩

theorem isDigit_not_sign (c : Char) (h : c.isDigit = true) :
    isspace c = false ∧ c ≠ '-' ∧ c ≠ '+' := by
  have hc := isDigit_toNat c h
  refine ⟨?_, ?_, ?_⟩
  · simp only [isspace, Bool.or_eq_false_iff, decide_eq_false_iff_not, Bool.and_eq_false_iff]
    omega
  · rintro rfl
    exact absurd hc.1 (by decide)
  · rintro rfl
    exact absurd hc.1 (by decide)

theorem takeWhile_all (p : Char → Bool) (l : Str) (h : ∀ c ∈ l, p c = true) :
    l.takeWhile p = l := by
  induction l with
  | nil => rfl
  | cons x xs ih =>
    rw [List.takeWhile_cons, h x (List.mem_cons_self x xs), if_pos rfl,
      ih (fun c hc => h c (List.mem_cons_of_mem x hc))]

theorem stoi_digits (ds : Str) (h0 : ds ≠ []) (hd : ∀ c ∈ ds, c.isDigit = true)
    (hhi : (digitsValue ds : Int) ≤ 2147483647) : stoi ds = .ok (digitsValue ds : Int) := by
  cases ds with
  | nil => exact absurd rfl h0
  | cons c t =>
    have hc := isDigit_not_sign c (hd c (List.mem_cons_self c t))
    have htw := takeWhile_all Char.isDigit (c :: t) hd
    simp [stoi, List.dropWhile_cons, hc.1, hc.2.1, hc.2.2, htw]
    omega

theorem stoi_minus_digits (ds : Str) (h0 : ds ≠ []) (hd : ∀ c ∈ ds, c.isDigit = true)
    (hlo : -2147483648 ≤ -(digitsValue ds : Int)) :
    stoi ('-' :: ds) = .ok (-(digitsValue ds : Int)) := by
  have hminus : isspace '-' = false := by decide
  have htw := takeWhile_all Char.isDigit ds hd
  simp [stoi, List.dropWhile_cons, hminus, htw, h0]
  omega

/-- The function `stoi` reads back what `to_string` writes, for every `int`. -/
theorem stoi_to_string (n : Int) (hlo : -2147483648 ≤ n) (hhi : n ≤ 2147483647) :
    stoi (to_string n) = .ok n := by
  obtain ⟨h0, hd, hv⟩ := decimalDigits_spec (n.natAbs + 1) n.natAbs (Nat.lt_succ_self _)
  unfold to_string
  split
  · rw [stoi_minus_digits _ h0 hd (by rw [hv]; omega), hv]
    congr 1
    omega
  · rw [stoi_digits _ h0 hd (by rw [hv]; omega), hv]
    congr 1
    omega

theorem to_string_chars (n : Int) : ∀ c ∈ to_string n, c = '-' ∨ c.isDigit = true := by
  obtain ⟨_, hd, _⟩ := decimalDigits_spec (n.natAbs + 1) n.natAbs (Nat.lt_succ_self _)
  intro c hc
  unfold to_string at hc
  split at hc
  · rcases List.mem_cons.mp hc with h | h
    · exact Or.inl h
    · exact Or.inr (hd c h)
  · exact Or.inr (hd c hc)

theorem to_string_no_sep (n : Int) : '/' ∉ to_string n ∧ ':' ∉ to_string n := by
  constructor <;> intro h <;> rcases to_string_chars n _ h with h | h <;> revert h <;> decide

theorem connect_url_eq (address : Str) (port : Int) :
    "ws://".toList ++ address ++ ":".toList ++ to_string port ++ "/".toList =
      'w' :: 's' :: ':' :: '/' :: '/' :: (address ++ ':' :: (to_string port ++ ['/'])) := by
  simp

theorem findChar_slash (address D : Str) (h2 : '/' ∉ address) (h3 : '/' ∉ D) :
    findChar ('w' :: 's' :: ':' :: '/' :: '/' :: (address ++ ':' :: (D ++ ['/']))) '/' 5
      = some (5 + (address.length + 1 + D.length)) := by
  have hi : List.indexOf '/' (address ++ ':' :: (D ++ ['/'])) = address.length + 1 + D.length := by
    rw [List.indexOf_append_of_not_mem h2, List.indexOf_cons_ne _ (by decide),
      List.indexOf_append_of_not_mem h3]
    simp
    omega
  simp only [findChar, List.drop_succ_cons, List.drop_zero, hi]
  simp
  omega

theorem findChar_colon (address rest : Str) (h1 : ':' ∉ address) :
    findChar ('w' :: 's' :: ':' :: '/' :: '/' :: (address ++ ':' :: rest)) ':' 5
      = some (5 + address.length) := by
  have hi : List.indexOf ':' (address ++ ':' :: rest) = address.length := by
    rw [List.indexOf_append_of_not_mem h1]
    simp
  simp only [findChar, List.drop_succ_cons, List.drop_zero, hi]
  simp

theorem findStr_scheme (rest : Str) :
    findStr (('w' :: 's' :: ':' :: '/' :: '/' :: rest).map Char.toLower) "ws://".toList = some 0
      ∧ findStr ('w' :: 's' :: ':' :: '/' :: '/' :: rest) "://".toList = some 2 := by
  constructor
  · simp [findStr, findStrFrom, startsWith]
  · simp [findStr, findStrFrom, startsWith]

theorem substr_port (address D : Str) (k len : Nat) (hk : k = 5 + address.length + 1)
    (hlen : len = D.length) :
    substr ('w' :: 's' :: ':' :: '/' :: '/' :: (address ++ ':' :: (D ++ ['/']))) k len = D := by
  have e : 'w' :: 's' :: ':' :: '/' :: '/' :: (address ++ ':' :: (D ++ ['/'])) =
      (['w', 's', ':', '/', '/'] ++ address ++ [':']) ++ (D ++ ['/']) := by simp
  rw [e, substr, List.drop_left' (by simp; omega), hlen, List.take_left]

theorem substr_host (address rest : Str) (len : Nat) (hlen : len = address.length) :
    substr ('w' :: 's' :: ':' :: '/' :: '/' :: (address ++ rest)) (2 + 3) len = address := by
  have e : 'w' :: 's' :: ':' :: '/' :: '/' :: (address ++ rest) =
      ['w', 's', ':', '/', '/'] ++ (address ++ rest) := by simp
  rw [e, substr, List.drop_left' (by simp), hlen, List.take_left]

theorem drop_path (address D : Str) (k : Nat) (hk : k = 5 + (address.length + 1 + D.length)) :
    List.drop k ('w' :: 's' :: ':' :: '/' :: '/' :: (address ++ ':' :: (D ++ ['/']))) = ['/'] := by
  have e : 'w' :: 's' :: ':' :: '/' :: '/' :: (address ++ ':' :: (D ++ ['/'])) =
      (['w', 's', ':', '/', '/'] ++ address ++ [':'] ++ D) ++ ['/'] := by simp
  rw [e, List.drop_left' (by simp; omega)]

/-- The URL that `Connect` builds from an address without `:` and `/` parses to that
address, the port and the path `/`. -/
theorem ParseWebSocketURL_connect_url (address : Str) (port : Int) (result : ParsedURL)
    (h1 : ':' ∉ address) (h2 : '/' ∉ address)
    (hlo : -2147483648 ≤ port) (hhi : port ≤ 2147483647) :
    ParseWebSocketURL
        ("ws://".toList ++ address ++ ":".toList ++ to_string port ++ "/".toList) result =
      .ok (true, { scheme := "ws".toList, host := address, port := port, path := "/".toList,
                   is_secure := false }) := by
  rw [connect_url_eq]
  have hs := findStr_scheme (address ++ ':' :: (to_string port ++ ['/']))
  have hsl := findChar_slash address (to_string port) h2 (to_string_no_sep port).1
  have hco := findChar_colon address (to_string port ++ ['/']) h1
  unfold ParseWebSocketURL
  simp only [hs.1, hs.2, if_true, hsl, hco]
  rw [if_pos (by omega), substr_port address (to_string port) _ _ rfl (by omega),
    stoi_to_string port hlo hhi, substr_host address _ _ (by omega), drop_path address _ _ rfl]
  rfl

/-- The URL that `Connect` builds from an address without `:` always parses. -/
theorem ParseWebSocketURL_connect_url_ok (address : Str) (port : Int) (result : ParsedURL)
    (h1 : ':' ∉ address) (hlo : -2147483648 ≤ port) (hhi : port ≤ 2147483647) :
    ∃ parsed, ParseWebSocketURL
        ("ws://".toList ++ address ++ ":".toList ++ to_string port ++ "/".toList) result =
      .ok (true, parsed) := by
  by_cases h2 : '/' ∈ address
  · rw [connect_url_eq]
    have hs := findStr_scheme (address ++ ':' :: (to_string port ++ ['/']))
    have hco := findChar_colon address (to_string port ++ ['/']) h1
    have hi : List.indexOf '/' (address ++ ':' :: (to_string port ++ ['/'])) =
        List.indexOf '/' address := List.indexOf_append_of_mem h2
    have hlt : List.indexOf '/' address < address.length := List.indexOf_lt_length.mpr h2
    have hsl : findChar ('w' :: 's' :: ':' :: '/' :: '/' ::
        (address ++ ':' :: (to_string port ++ ['/']))) '/' 5 =
        some (5 + List.indexOf '/' address) := by
      simp only [findChar, List.drop_succ_cons, List.drop_zero, hi]
      simp
      omega
    unfold ParseWebSocketURL
    simp only [hs.1, hs.2, if_true, hsl, hco]
    rw [if_neg (by omega)]
    exact ⟨_, rfl⟩
  · exact ⟨_, ParseWebSocketURL_connect_url address port result h1 h2 hlo hhi⟩

/-- The result of `Connect` outside the Connecting and Connected states, once the URL
is parsed: the parameters are stored, the session is Connecting, and the transport
answers for the parsed host. -/
theorem Connect_of_parsed (s : ArchipelagoClient) (address : Str) (port : Int)
    (slot_name password : Str) (parsed : ParsedURL)
    (hst : ¬(s.connection_state_ = .Connected ∨ s.connection_state_ = .Connecting))
    (hp : ParseWebSocketURL
        ("ws://".toList ++ address ++ ":".toList ++ to_string port ++ "/".toList) {} =
      .ok (true, parsed)) :
    s.Connect address port slot_name password =
      ({ s with
          server_address_ := address
          server_port_ := port
          slot_name_ := slot_name
          password_ := password
          connection_state_ := .Connecting
          ws_client_ :=
            (s.ws_client_.ConnectHost parsed.host parsed.port parsed.path parsed.is_secure).2 },
        (s.ws_client_.ConnectHost parsed.host parsed.port parsed.path parsed.is_secure).1) := by
  unfold ArchipelagoClient.Connect
  rw [if_neg hst]
  simp only [WebSocketClient.Connect, hp, ArchipelagoClient.SetConnectionState]

/-- Claim C6, as the code has it: `Connect` returns false and changes nothing in the
Connecting and Connected states.  In every other state, for an address without
`:` (and an `int` port), it stores the four parameters, sets the session state
to Connecting, and passes on how `Transport.Connect` ends: false when the
transport is Connecting or Connected, and then the transport is left as it was;
true when the transport is neither and holds no connection thread of an earlier
`Connect`, and then the transport is Connecting with its first connection
thread started (for the host `address`, the port and the path `/` when the
address has no `/`). -/
theorem Connect_returns_transport_answer (s : ArchipelagoClient) (address : Str) (port : Int)
    (slot_name password : Str) :
    ((s.connection_state_ = .Connected ∨ s.connection_state_ = .Connecting) →
        s.Connect address port slot_name password = (s, .ok false))
      ∧ (¬(s.connection_state_ = .Connected ∨ s.connection_state_ = .Connecting) →
          ':' ∉ address → -2147483648 ≤ port → port ≤ 2147483647 →
          (s.Connect address port slot_name password).1.server_address_ = address
            ∧ (s.Connect address port slot_name password).1.server_port_ = port
            ∧ (s.Connect address port slot_name password).1.slot_name_ = slot_name
            ∧ (s.Connect address port slot_name password).1.password_ = password
            ∧ (s.Connect address port slot_name password).1.connection_state_ = .Connecting
            ∧ ((s.ws_client_.state_ = .Connected ∨ s.ws_client_.state_ = .Connecting) →
                (s.Connect address port slot_name password).2 = .ok false
                ∧ (s.Connect address port slot_name password).1.ws_client_ = s.ws_client_)
            ∧ (¬(s.ws_client_.state_ = .Connected ∨ s.ws_client_.state_ = .Connecting) →
                s.ws_client_.connection_threads_started = 0 →
                (s.Connect address port slot_name password).2 = .ok true
                ∧ (s.Connect address port slot_name password).1.ws_client_.state_ = .Connecting
                ∧ (s.Connect address port slot_name password).1.ws_client_.connection_threads_started
                    = 1
                ∧ ('/' ∉ address →
                    (s.Connect address port slot_name password).1.ws_client_.host_ = address
                    ∧ (s.Connect address port slot_name password).1.ws_client_.port_ = port
                    ∧ (s.Connect address port slot_name password).1.ws_client_.path_ = "/".toList
                    ∧ (s.Connect address port slot_name password).1.ws_client_.use_ssl_
                        = false))) := by
  constructor
  · intro hst
    simp [ArchipelagoClient.Connect, hst]
  · intro hst h1 hlo hhi
    obtain ⟨parsed, hp⟩ := ParseWebSocketURL_connect_url_ok address port {} h1 hlo hhi
    rw [Connect_of_parsed s address port slot_name password parsed hst hp]
    refine ⟨rfl, rfl, rfl, rfl, rfl, ?_, ?_⟩
    · intro hb
      simp [WebSocketClient.ConnectHost, hb]
    · intro hb hthreads
      refine ⟨?_, ?_, ?_, ?_⟩
      · simp [WebSocketClient.ConnectHost, hb, hthreads, WebSocketClient.SetState]
      · simp [WebSocketClient.ConnectHost, hb, hthreads, WebSocketClient.SetState]
      · simp [WebSocketClient.ConnectHost, hb, hthreads, WebSocketClient.SetState]
      · intro h2
        have hq := ParseWebSocketURL_connect_url address port {} h1 h2 hlo hhi
        rw [hp] at hq
        have hparsed := (Prod.mk.inj (Except.ok.inj hq)).2
        subst hparsed
        simp [WebSocketClient.ConnectHost, hb, hthreads, WebSocketClient.SetState]

theorem Connect_returns_transport_answer_witness :
    ¬(freshSession.connection_state_ = .Connected ∨ freshSession.connection_state_ = .Connecting)
      ∧ (freshSession.Connect "localhost".toList 38281 "Player".toList []).2 = .ok true
      ∧ (freshSession.Connect "localhost".toList 38281 "Player".toList []).1.ws_client_.host_ =
          "localhost".toList :=
  have h := ((Connect_returns_transport_answer freshSession "localhost".toList 38281
    "Player".toList []).2 (by decide) (by decide) (by decide) (by decide)).2.2.2.2.2.2
      (by decide) (by decide)
  ⟨by decide, h.1, (h.2.2.2 (by decide)).1⟩

/-- Claim C6 fails as stated: after a ConnectionRefused the session is Failed while the
transport is still Connected, and `Connect` returns false there; and from the
Disconnected state, with the address `::1`, `Connect` returns neither true nor
false: `std::stoi` throws `invalid_argument`. -/
theorem Connect_refused_in_Failed_state :
    refusedSession.connection_state_ = .Failed
      ∧ (refusedSession.Connect "localhost".toList 38281 "Player".toList []).2 = .ok false
      ∧ freshSession.connection_state_ = .Disconnected
      ∧ (freshSession.Connect "::1".toList 38281 "Player".toList []).2 =
          .error .invalid_argument := by
  decide

theorem wsConnect_sameSnapshot (owner : ArchipelagoClient) (uri : Str) :
    SameSnapshot owner (WebSocketClient.Connect owner uri).1 := by
  unfold WebSocketClient.Connect
  cases ParseWebSocketURL uri {} with
  | error e => exact ⟨rfl, rfl, rfl, rfl, rfl, rfl, rfl, rfl, rfl, rfl⟩
  | ok r =>
    obtain ⟨b, parsed⟩ := r
    cases b
    · simp only [WebSocketClient.HandleError, ArchipelagoClient.OnWebSocketError]
      cases owner.on_error_ <;> exact ⟨rfl, rfl, rfl, rfl, rfl, rfl, rfl, rfl, rfl, rfl⟩
    · exact ⟨rfl, rfl, rfl, rfl, rfl, rfl, rfl, rfl, rfl, rfl⟩

/-- Whatever it returns, `Connect` leaves the ten snapshot fields as they were. -/
theorem Connect_sameSnapshot (s : ArchipelagoClient) (address : Str) (port : Int)
    (slot_name password : Str) : SameSnapshot s (s.Connect address port slot_name password).1 := by
  unfold ArchipelagoClient.Connect
  split
  · exact ⟨rfl, rfl, rfl, rfl, rfl, rfl, rfl, rfl, rfl, rfl⟩
  · exact wsConnect_sameSnapshot _ _

set_option maxRecDepth 100000 in
/-- Claim C7 on the code: on a new client whose application called
`UpdateStatus(CLIENT_GOAL)` before connecting (the call stores the status and
returns, the session being Disconnected), the first `Connect` is accepted, it
returns true, and the status is Goal after it, where `ResetState` would leave
Unknown.  `Connect` does not call `ResetState`. -/
theorem Connect_keeps_status_set_before :
    goalSession.connection_state_ = .Disconnected
      ∧ goalSession.ws_client_.connection_threads_started = 0
      ∧ goalSession.current_status_ = .CLIENT_GOAL
      ∧ (goalSession.Connect "localhost".toList 38281 "Player".toList []).2 = .ok true
      ∧ (goalSession.Connect "localhost".toList 38281 "Player".toList []).1.current_status_
          = .CLIENT_GOAL
      ∧ (goalSession.Connect "localhost".toList 38281 "Player".toList []).1.ResetState.current_status_
          = .CLIENT_UNKNOWN
      ∧ (goalSession.Connect "localhost".toList 38281 "Player".toList []).1 ≠
          (goalSession.Connect "localhost".toList 38281 "Player".toList []).1.ResetState := by
  decide

/-- Claim C19: `SendText`, `SendBinary` and `SendPing` return false and leave the
transport as it was when its state is not Connected; when it is Connected they
return true and only append one message of their kind (Text, Binary, Ping), with
the payload, at the back of the outbound queue. -/
theorem Send_enqueues_when_connected (ws : WebSocketClient) (payload : Str) :
    (ws.state_ ≠ .Connected →
        ws.SendText payload = (false, ws) ∧ ws.SendBinary payload = (false, ws)
          ∧ ws.SendPing payload = (false, ws))
      ∧ (ws.state_ = .Connected →
        ws.SendText payload =
            (true, { ws with outbound_queue_ := ws.outbound_queue_ ++ [⟨.Text, payload⟩] })
          ∧ ws.SendBinary payload =
            (true, { ws with outbound_queue_ := ws.outbound_queue_ ++ [⟨.Binary, payload⟩] })
          ∧ ws.SendPing payload =
            (true, { ws with outbound_queue_ := ws.outbound_queue_ ++ [⟨.Ping, payload⟩] })) := by
  constructor
  · intro h
    simp [WebSocketClient.SendText, WebSocketClient.SendBinary, WebSocketClient.SendPing,
      WebSocketClient.IsConnected, h]
  · intro h
    simp [WebSocketClient.SendText, WebSocketClient.SendBinary, WebSocketClient.SendPing,
      WebSocketClient.IsConnected, h]

theorem Send_enqueues_when_connected_witness :
    openedSession.ws_client_.state_ = .Connected
      ∧ (openedSession.ws_client_.SendPing "hi".toList).1 = true
      ∧ (openedSession.ws_client_.SendPing "hi".toList).2.outbound_queue_ =
          openedSession.ws_client_.outbound_queue_ ++ [⟨.Ping, "hi".toList⟩]
      ∧ freshSession.ws_client_.state_ ≠ .Connected
      ∧ freshSession.ws_client_.SendBinary "hi".toList = (false, freshSession.ws_client_) :=
  have h := Send_enqueues_when_connected openedSession.ws_client_ "hi".toList
  have g := Send_enqueues_when_connected freshSession.ws_client_ "hi".toList
  ⟨by decide, congrArg Prod.fst (h.2 (by decide)).2.2, congrArg (fun r => r.2.outbound_queue_)
    (h.2 (by decide)).2.2, by decide, (g.1 (by decide)).2.1⟩

theorem foldl_refused_message (errors : List Str) (msg : Str) :
    errors.foldl (fun msg error => msg ++ (error ++ " ".toList)) msg =
      msg ++ (errors.map (fun error => error ++ " ".toList)).flatten := by
  induction errors generalizing msg with
  | nil => simp
  | cons e es ih =>
    rw [List.foldl_cons, ih]
    simp

/-- Claim C17: `HandleConnectionRefused` sets the session state to Failed and invokes
the Error callback once, with `"Connection refused: "` followed by each reason of
the packet, in order, each followed by one space; nothing else changes. -/
theorem HandleConnectionRefused_reports (s : ArchipelagoClient)
    (packet : APConnectionRefusedPacket) :
    (s.HandleConnectionRefused packet).connection_state_ = .Failed
      ∧ (s.on_error_ = true →
          s.HandleConnectionRefused packet = { s with
            connection_state_ := .Failed
            events := s.events ++ [.Error ("Connection refused: ".toList ++
              (packet.errors.map (fun error => error ++ " ".toList)).flatten)] })
      ∧ (s.on_error_ = false →
          s.HandleConnectionRefused packet = { s with connection_state_ := .Failed }) := by
  refine ⟨?_, ?_, ?_⟩
  · unfold ArchipelagoClient.HandleConnectionRefused
    simp only [ArchipelagoClient.SetConnectionState]
    split <;> simp [ArchipelagoClient.invoke]
  · intro h
    rw [ArchipelagoClient.HandleConnectionRefused, foldl_refused_message]
    simp [ArchipelagoClient.SetConnectionState, h, ArchipelagoClient.invoke]
  · intro h
    simp [ArchipelagoClient.HandleConnectionRefused, ArchipelagoClient.SetConnectionState, h]

set_option maxRecDepth 100000 in
theorem HandleConnectionRefused_reports_witness :
    openedSession.on_error_ = true
      ∧ (openedSession.HandleConnectionRefused
          { errors := ["InvalidSlot".toList, "InvalidGame".toList] }).events =
        openedSession.events ++ [.Error "Connection refused: InvalidSlot InvalidGame ".toList] :=
  ⟨by decide,
    (congrArg ArchipelagoClient.events
      ((HandleConnectionRefused_reports openedSession
        { errors := ["InvalidSlot".toList, "InvalidGame".toList] }).2.1 (by decide))).trans
      (by decide)⟩

theorem foldl_print_message (data : List APJSONMessagePart) (message : Str) :
    data.foldl (fun message part => if part.text ≠ [] then message ++ part.text else message)
        message =
      message ++ (data.map (fun part => part.text)).flatten := by
  induction data generalizing message with
  | nil => simp
  | cons d ds ih =>
    rw [List.foldl_cons, ih]
    by_cases h : d.text = [] <;> simp [h]

/-- Claim C18: `HandlePrintJSON` concatenates the text fields of the data parts, in
order; with a non-empty result it invokes the ChatMessage callback once, with
that string, and changes nothing else; with an empty result it changes nothing. -/
theorem HandlePrintJSON_chat (s : ArchipelagoClient) (packet : APPrintJSONPacket) :
    ((packet.data.map (fun part => part.text)).flatten ≠ [] → s.on_chat_message_ = true →
        s.HandlePrintJSON packet = { s with
          events := s.events ++
            [.ChatMessage (packet.data.map (fun part => part.text)).flatten] })
      ∧ ((packet.data.map (fun part => part.text)).flatten = [] → s.HandlePrintJSON packet = s)
      ∧ (s.on_chat_message_ = false → s.HandlePrintJSON packet = s) := by
  have hm := foldl_print_message packet.data []
  simp only [List.nil_append] at hm
  refine ⟨?_, ?_, ?_⟩
  · intro h hcb
    simp only [ArchipelagoClient.HandlePrintJSON, hm]
    simp [h, hcb, ArchipelagoClient.invoke]
  · intro h
    simp only [ArchipelagoClient.HandlePrintJSON, hm]
    simp [h]
  · intro hcb
    simp [ArchipelagoClient.HandlePrintJSON, hcb]

theorem HandlePrintJSON_chat_witness :
    (([{ text := "Hello ".toList }, { text := [] }, { text := "world".toList }] :
          List APJSONMessagePart).map (fun part => part.text)).flatten ≠ []
      ∧ openedSession.on_chat_message_ = true
      ∧ (openedSession.HandlePrintJSON
          { data := [{ text := "Hello ".toList }, { text := [] }, { text := "world".toList }] }
          ).events = openedSession.events ++ [.ChatMessage "Hello world".toList] :=
  ⟨by decide, by decide,
    (congrArg ArchipelagoClient.events
      ((HandlePrintJSON_chat openedSession
        { data := [{ text := "Hello ".toList }, { text := [] }, { text := "world".toList }] }).1
        (by decide) (by decide))).trans (by decide)⟩

theorem Connect_client_uuid (s : ArchipelagoClient) (address : Str) (port : Int)
    (slot_name password : Str) :
    (s.Connect address port slot_name password).1.client_uuid_ = s.client_uuid_ := by
  unfold ArchipelagoClient.Connect
  split
  · rfl
  · unfold WebSocketClient.Connect
    simp only [ArchipelagoClient.SetConnectionState]
    cases ParseWebSocketURL
        ("ws://".toList ++ address ++ ":".toList ++ to_string port ++ "/".toList) {} with
    | error e => rfl
    | ok r =>
      obtain ⟨b, parsed⟩ := r
      cases b
      · simp only [WebSocketClient.HandleError, ArchipelagoClient.OnWebSocketError]
        cases s.on_error_ <;> rfl
      · rfl

/-- What `HandleRoomInfo` leaves when the transport is connected and the stored slot
name is not empty: the cache filled, one Connect message enqueued. -/
theorem HandleRoomInfo_eq (J : JsonWriter) (s : ArchipelagoClient) (packet : APRoomInfoPacket)
    (hws : s.ws_client_.IsConnected = true) (hslot : s.slot_name_ ≠ []) :
    s.HandleRoomInfo J packet = { s with
      server_version_ := packet.version
      server_tags_ := packet.tags
      requires_password_ := packet.password
      permissions_ := packet.permissions
      hint_cost_ := packet.hint_cost
      location_check_points_ := packet.location_check_points
      games_ := packet.games
      seed_name_ := packet.seed_name
      ws_client_ := { s.ws_client_ with
        outbound_queue_ := s.ws_client_.outbound_queue_ ++
          [packetMessage J (.Connect (connectPacket s.slot_name_ s.password_ s.client_uuid_))] } } := by
  have hws' : s.ws_client_.state_ = .Connected := by
    simpa [WebSocketClient.IsConnected] using hws
  simp [ArchipelagoClient.HandleRoomInfo, ArchipelagoClient.Authenticate,
    ArchipelagoClient.SendPacket, WebSocketClient.IsConnected, WebSocketClient.SendText, hws',
    hslot, packetMessage, connectPacket]

/-- What `HandleRoomInfo` leaves when the stored slot name is empty: the cache filled,
nothing sent. -/
theorem HandleRoomInfo_eq_of_empty (J : JsonWriter) (s : ArchipelagoClient)
    (packet : APRoomInfoPacket) (hslot : s.slot_name_ = []) :
    s.HandleRoomInfo J packet = { s with
      server_version_ := packet.version
      server_tags_ := packet.tags
      requires_password_ := packet.password
      permissions_ := packet.permissions
      hint_cost_ := packet.hint_cost
      location_check_points_ := packet.location_check_points
      games_ := packet.games
      seed_name_ := packet.seed_name } := by
  simp [ArchipelagoClient.HandleRoomInfo, hslot]

/-- An inbound text message that decodes to a RoomInfo packet is counted and handed to
`HandleRoomInfo`. -/
theorem HandleMessage_RoomInfo (J : JsonWriter) (R : JsonReader) (owner : ArchipelagoClient)
    (text : Str) (p : APRoomInfoPacket)
    (h : APPacketFromString R text = .ok (some (.RoomInfo p))) :
    WebSocketClient.HandleMessage J R owner ⟨.Text, text⟩ =
      .ok (ArchipelagoClient.HandleRoomInfo J { owner with ws_client_ :=
        { owner.ws_client_ with
          messages_received_ := owner.ws_client_.messages_received_ + 1
          bytes_received_ := owner.ws_client_.bytes_received_ + text.length } } p) := by
  simp [WebSocketClient.HandleMessage, ArchipelagoClient.OnWebSocketMessage,
    ArchipelagoClient.ProcessIncomingPacket, h]

/-- An inbound text message that decodes to a Connected packet is counted and handed
to `HandleConnected`. -/
theorem HandleMessage_Connected (J : JsonWriter) (R : JsonReader) (owner : ArchipelagoClient)
    (text : Str) (p : APConnectedPacket)
    (h : APPacketFromString R text = .ok (some (.Connected p))) :
    WebSocketClient.HandleMessage J R owner ⟨.Text, text⟩ =
      .ok (ArchipelagoClient.HandleConnected J { owner with ws_client_ :=
        { owner.ws_client_ with
          messages_received_ := owner.ws_client_.messages_received_ + 1
          bytes_received_ := owner.ws_client_.bytes_received_ + text.length } } p) := by
  simp [WebSocketClient.HandleMessage, ArchipelagoClient.OnWebSocketMessage,
    ArchipelagoClient.ProcessIncomingPacket, h]

/-- With the transport connected, `HandleConnected` enqueues the StatusUpdate message
and nothing else. -/
theorem HandleConnected_queue (J : JsonWriter) (s : ArchipelagoClient) (p : APConnectedPacket)
    (hws : s.ws_client_.IsConnected = true) :
    (s.HandleConnected J p).ws_client_.outbound_queue_ =
      s.ws_client_.outbound_queue_ ++
        [packetMessage J (.StatusUpdate { status := .CLIENT_READY })] := by
  have hws' : s.ws_client_.state_ = .Connected := by
    simpa [WebSocketClient.IsConnected] using hws
  simp [ArchipelagoClient.HandleConnected, ArchipelagoClient.UpdateStatus,
    ArchipelagoClient.SetConnectionState, ArchipelagoClient.IsConnected,
    ArchipelagoClient.SendPacket, WebSocketClient.IsConnected, WebSocketClient.SendText,
    ArchipelagoClient.invoke, hws', packetMessage, apply_ite]

/-- Claim C12, as the code has it: from a session and transport that are neither
Connecting nor Connected, on the first `Connect` of the client (no connection
thread started before, an address without `:`): `Connect` returns true, then
the Connected event of the transport, an inbound RoomInfo message and an inbound
Connected message are handled.  `Connect` and the transport event enqueue
nothing; handling RoomInfo enqueues the Connect packet when the slot name is
not empty, and nothing when it is empty, whatever the password; handling
Connected enqueues a StatusUpdate packet and no Connect packet.  In total the
queue gained the one Connect packet (none for an empty slot name) followed by
the StatusUpdate packet. -/
theorem handshake_sends_one_Connect (J : JsonWriter) (R : JsonReader) (s : ArchipelagoClient)
    (address : Str) (port : Int) (slot_name password first second : Str)
    (p1 : APRoomInfoPacket) (p2 : APConnectedPacket)
    (hst : ¬(s.connection_state_ = .Connected ∨ s.connection_state_ = .Connecting))
    (hws : ¬(s.ws_client_.state_ = .Connected ∨ s.ws_client_.state_ = .Connecting))
    (hthreads : s.ws_client_.connection_threads_started = 0)
    (h1 : ':' ∉ address) (hlo : -2147483648 ≤ port) (hhi : port ≤ 2147483647)
    (hd1 : APPacketFromString R first = .ok (some (.RoomInfo p1)))
    (hd2 : APPacketFromString R second = .ok (some (.Connected p2))) :
    (s.Connect address port slot_name password).2 = .ok true
      ∧ (s.Connect address port slot_name password).1.ws_client_.outbound_queue_ =
        s.ws_client_.outbound_queue_
      ∧ (WebSocketClient.HandleConnected
          (s.Connect address port slot_name password).1).ws_client_.outbound_queue_ =
        s.ws_client_.outbound_queue_
      ∧ ∃ afterFirst afterSecond : ArchipelagoClient,
        WebSocketClient.HandleMessage J R
            (WebSocketClient.HandleConnected (s.Connect address port slot_name password).1)
            ⟨.Text, first⟩ = .ok afterFirst
          ∧ WebSocketClient.HandleMessage J R afterFirst ⟨.Text, second⟩ = .ok afterSecond
          ∧ handshake J R s address port slot_name password first second = .ok afterSecond
          ∧ afterFirst.ws_client_.outbound_queue_ =
              s.ws_client_.outbound_queue_ ++
                (if slot_name = [] then []
                 else [packetMessage J
                        (.Connect (connectPacket slot_name password s.client_uuid_))])
          ∧ afterSecond.ws_client_.outbound_queue_ =
              s.ws_client_.outbound_queue_ ++
                (if slot_name = [] then []
                 else [packetMessage J
                        (.Connect (connectPacket slot_name password s.client_uuid_))]) ++
                [packetMessage J (.StatusUpdate { status := .CLIENT_READY })] := by
  obtain ⟨parsed, hp⟩ := ParseWebSocketURL_connect_url_ok address port {} h1 hlo hhi
  have hc := Connect_of_parsed s address port slot_name password parsed hst hp
  have hret : (s.Connect address port slot_name password).2 = .ok true := by
    rw [hc]; simp [WebSocketClient.ConnectHost, hws, hthreads]
  have hq1 : (s.Connect address port slot_name password).1.ws_client_.outbound_queue_ =
      s.ws_client_.outbound_queue_ := by
    rw [hc]; simp [WebSocketClient.ConnectHost, hws, hthreads, WebSocketClient.SetState]
  have hslot1 : (s.Connect address port slot_name password).1.slot_name_ = slot_name := by
    rw [hc]
  have hpw1 : (s.Connect address port slot_name password).1.password_ = password := by
    rw [hc]
  have huuid1 : (s.Connect address port slot_name password).1.client_uuid_ = s.client_uuid_ :=
    Connect_client_uuid s address port slot_name password
  refine ⟨hret, ?_⟩
  simp only [handshake]
  generalize (s.Connect address port slot_name password).1 = s1 at hq1 hslot1 hpw1 huuid1
  have hf := HandleMessage_RoomInfo J R (WebSocketClient.HandleConnected s1) first p1 hd1
  have hopen : ∀ o : ArchipelagoClient,
      (WebSocketClient.HandleConnected o).ws_client_.IsConnected = true := by
    intro o
    simp [WebSocketClient.HandleConnected, ArchipelagoClient.OnWebSocketConnected,
      WebSocketClient.SetState, WebSocketClient.IsConnected]
  by_cases hslot : slot_name = []
  · rw [HandleRoomInfo_eq_of_empty J _ p1 (by
      simpa [WebSocketClient.HandleConnected, ArchipelagoClient.OnWebSocketConnected, hslot1]
        using hslot)] at hf
    refine ⟨hq1, ?_, _, _, hf, HandleMessage_Connected J R _ second p2 hd2, ?_, ?_, ?_⟩
    · simpa [WebSocketClient.HandleConnected, ArchipelagoClient.OnWebSocketConnected,
        WebSocketClient.SetState] using hq1
    · rw [hf]
      exact HandleMessage_Connected J R _ second p2 hd2
    · simp [WebSocketClient.HandleConnected, ArchipelagoClient.OnWebSocketConnected,
        WebSocketClient.SetState, hq1, hslot]
    · rw [HandleConnected_queue J _ p2 (by simp [WebSocketClient.HandleConnected,
        ArchipelagoClient.OnWebSocketConnected, WebSocketClient.SetState,
        WebSocketClient.IsConnected])]
      simp [WebSocketClient.HandleConnected, ArchipelagoClient.OnWebSocketConnected,
        WebSocketClient.SetState, hq1, hslot]
  · rw [HandleRoomInfo_eq J _ p1 (by simp [WebSocketClient.HandleConnected,
      ArchipelagoClient.OnWebSocketConnected, WebSocketClient.SetState,
      WebSocketClient.IsConnected]) (by
        simpa [WebSocketClient.HandleConnected, ArchipelagoClient.OnWebSocketConnected, hslot1]
          using hslot)] at hf
    refine ⟨hq1, ?_, _, _, hf, HandleMessage_Connected J R _ second p2 hd2, ?_, ?_, ?_⟩
    · simpa [WebSocketClient.HandleConnected, ArchipelagoClient.OnWebSocketConnected,
        WebSocketClient.SetState] using hq1
    · rw [hf]
      exact HandleMessage_Connected J R _ second p2 hd2
    · simp [WebSocketClient.HandleConnected, ArchipelagoClient.OnWebSocketConnected,
        WebSocketClient.SetState, hq1, hslot1, hpw1, huuid1, hslot]
    · rw [HandleConnected_queue J _ p2 (by simp [WebSocketClient.HandleConnected,
        ArchipelagoClient.OnWebSocketConnected, WebSocketClient.SetState,
        WebSocketClient.IsConnected])]
      simp [WebSocketClient.HandleConnected, ArchipelagoClient.OnWebSocketConnected,
        WebSocketClient.SetState, hq1, hslot1, hpw1, huuid1, hslot]

set_option maxRecDepth 200000 in
theorem handshake_sends_one_Connect_witness :
    freshSession.ws_client_.connection_threads_started = 0
      ∧ (freshSession.Connect "localhost".toList 38281 "Player".toList []).2 = .ok true
      ∧ ∃ afterSecond : ArchipelagoClient,
        handshake compactWriter sampleReader freshSession "localhost".toList 38281
            "Player".toList [] (compactWriter (APPacket.RoomInfo {}).ToJSON)
            (compactWriter (APPacket.Connected {}).ToJSON) = .ok afterSecond
          ∧ afterSecond.ws_client_.outbound_queue_ =
              freshSession.ws_client_.outbound_queue_ ++
                (if "Player".toList = [] then []
                 else [packetMessage compactWriter
                    (.Connect (connectPacket "Player".toList [] freshSession.client_uuid_))]) ++
                [packetMessage compactWriter (.StatusUpdate { status := .CLIENT_READY })] :=
  have h := handshake_sends_one_Connect compactWriter sampleReader freshSession
      "localhost".toList 38281 "Player".toList [] (compactWriter (APPacket.RoomInfo {}).ToJSON)
      (compactWriter (APPacket.Connected {}).ToJSON) {} {} (by decide) (by decide) (by decide)
      (by decide) (by decide) (by decide) (by decide) (by decide)
  ⟨by decide, h.1,
    match h.2.2.2 with
    | ⟨_, afterSecond, _, _, h, _, hq⟩ => ⟨afterSecond, h, hq⟩⟩

set_option maxRecDepth 200000 in
/-- Claim C12 fails as stated: in the session driven by
`Connect("localhost", 38281, "", "")`, the Connected event of the transport and
the inbound messages RoomInfo and Connected, no Connect packet is sent at all:
the outbound queue ends with the StatusUpdate packet alone. -/
theorem handshake_without_slot_name_sends_no_Connect :
    APPacketFromString sampleReader (compactWriter (APPacket.RoomInfo {}).ToJSON) =
        .ok (some (.RoomInfo {}))
      ∧ APPacketFromString sampleReader (compactWriter (APPacket.Connected {}).ToJSON) =
        .ok (some (.Connected {}))
      ∧ (handshake compactWriter sampleReader freshSession "localhost".toList 38281 [] []
            (compactWriter (APPacket.RoomInfo {}).ToJSON)
            (compactWriter (APPacket.Connected {}).ToJSON)).map
          (fun s => s.ws_client_.outbound_queue_) =
        .ok [⟨.Text, "[\x7b\"cmd\":\"StatusUpdate\",\"status\":10\x7d]".toList⟩] := by
  decide

theorem c_str_idem (s : Str) : c_str (c_str s) = c_str s := by
  unfold c_str
  induction s with
  | nil => rfl
  | cons x xs ih =>
    by_cases h : (x != Char.ofNat 0) = true
    · simp only [List.takeWhile_cons, h, if_true, ih]
    · simp [List.takeWhile_cons, h]

theorem APNetworkItem_element_ToJSON (i : APNetworkItem)
    (h1 : -9223372036854775808 ≤ i.item ∧ i.item ≤ 9223372036854775807)
    (h2 : -9223372036854775808 ≤ i.location ∧ i.location ≤ 9223372036854775807)
    (h3 : -2147483648 ≤ i.player ∧ i.player ≤ 2147483647)
    (h4 : -2147483648 ≤ i.flags ∧ i.flags ≤ 2147483647) :
    APNetworkItem.element i.ToJSON = some i := by
  simp [APNetworkItem.element, APNetworkItem.FromJSON, APNetworkItem.ToJSON, JValue.IsObject,
    JValue.readInt, JValue.readInt64, JValue.member?, JValue.IsInt, JValue.IsInt64, List.find?,
    h1, h2, h3, h4]

theorem filterMap_element_ToJSON (items : List APNetworkItem)
    (h : ∀ i ∈ items,
      (-9223372036854775808 ≤ i.item ∧ i.item ≤ 9223372036854775807)
        ∧ (-9223372036854775808 ≤ i.location ∧ i.location ≤ 9223372036854775807)
        ∧ (-2147483648 ≤ i.player ∧ i.player ≤ 2147483647)
        ∧ (-2147483648 ≤ i.flags ∧ i.flags ≤ 2147483647)) :
    (items.map APNetworkItem.ToJSON).filterMap APNetworkItem.element = items := by
  induction items with
  | nil => rfl
  | cons x xs ih =>
    have hx := h x (List.mem_cons_self x xs)
    rw [List.map_cons, List.filterMap_cons,
      APNetworkItem_element_ToJSON x hx.1 hx.2.1 hx.2.2.1 hx.2.2.2,
      ih (fun i hi => h i (List.mem_cons_of_mem x hi))]

/-- Claim C16: when the JSON library reads the text written for a ReceivedItems packet
back to the document written, `APPacketFromString(APPacketToString(p))` is the
ReceivedItems packet `p` itself: same index, same items in the same order, every
field of every item.  The index, `player` and `flags` are `int32` values, `item`
and `location` are `int64` values. -/
theorem ReceivedItems_round_trip (J : JsonWriter) (R : JsonReader) (p : APReceivedItemsPacket)
    (hR : R (APPacketToString J (.ReceivedItems p)) = some (APPacket.ReceivedItems p).ToJSON)
    (hindex : -2147483648 ≤ p.index ∧ p.index ≤ 2147483647)
    (hitems : ∀ i ∈ p.items,
      (-9223372036854775808 ≤ i.item ∧ i.item ≤ 9223372036854775807)
        ∧ (-9223372036854775808 ≤ i.location ∧ i.location ≤ 9223372036854775807)
        ∧ (-2147483648 ≤ i.player ∧ i.player ≤ 2147483647)
        ∧ (-2147483648 ≤ i.flags ∧ i.flags ≤ 2147483647)) :
    APPacketFromString R (APPacketToString J (.ReceivedItems p)) =
      .ok (some (.ReceivedItems p)) := by
  have hc : c_str (APPacketToString J (.ReceivedItems p)) =
      APPacketToString J (.ReceivedItems p) := c_str_idem _
  have hf := filterMap_element_ToJSON p.items hitems
  unfold APPacketFromString
  rw [hc, hR]
  simp [APPacket.ToJSON, APPacket.cmd, c_str, JValue.IsObject, JValue.member?, List.find?,
    APPacket.FromJSON, APReceivedItemsPacket.FromJSON, JValue.readInt, JValue.readArray,
    JValue.IsInt, hindex, hf]

theorem ReceivedItems_round_trip_witness :
    APPacketFromString
        (readerOf [(APPacket.ReceivedItems
          { index := 2, items := [{ item := 100001, location := 200002, player := 1,
                                    flags := 4 }] }).ToJSON])
        (APPacketToString compactWriter (.ReceivedItems
          { index := 2, items := [{ item := 100001, location := 200002, player := 1,
                                    flags := 4 }] })) =
      .ok (some (.ReceivedItems
          { index := 2, items := [{ item := 100001, location := 200002, player := 1,
                                    flags := 4 }] })) :=
  ReceivedItems_round_trip compactWriter _ _ (by rfl) (by decide) (by decide)

/-- Claim C15, as the code has it: `APPacketToString` writes the document
`{"cmd":"LocationChecks","locations":ls}` (cmd first, the locations in order).
`APPacketFromString` does not decode it back: when the JSON library reads that
text back to the document written, the result is no packet, because
`LocationChecks` is not one of the five commands the decoder knows; and
`APLocationChecksPacket::FromJSON` reads nothing. -/
theorem LocationChecks_encodes_but_is_not_decoded (J : JsonWriter) (R : JsonReader)
    (ls : List Int)
    (hR : R (APPacketToString J (.LocationChecks { locations := ls })) =
      some (APPacket.LocationChecks { locations := ls }).ToJSON) :
    APPacketToString J (.LocationChecks { locations := ls }) =
        c_str (J (.obj [("cmd".toList, .str "LocationChecks".toList),
          ("locations".toList, .arr (ls.map JValue.int))]))
      ∧ APPacketFromString R (APPacketToString J (.LocationChecks { locations := ls })) =
        .ok none
      ∧ (∀ (other : List Int) (value : JValue),
          (APPacket.LocationChecks { locations := other }).FromJSON value =
            (true, .LocationChecks { locations := other })) := by
  have hc : c_str (APPacketToString J (.LocationChecks { locations := ls })) =
      APPacketToString J (.LocationChecks { locations := ls }) := c_str_idem _
  refine ⟨?_, ?_, ?_⟩
  · simp [APPacketToString, APPacket.ToJSON, APPacket.cmd, c_str]
  · unfold APPacketFromString
    rw [hc, hR]
    simp [APPacket.ToJSON, APPacket.cmd, c_str, JValue.IsObject, JValue.member?, List.find?]
  · intro other value
    rfl

theorem LocationChecks_encodes_but_is_not_decoded_witness :
    APPacketFromString
        (readerOf [(APPacket.LocationChecks { locations := [5, 6] }).ToJSON])
        (APPacketToString compactWriter (.LocationChecks { locations := [5, 6] })) = .ok none :=
  (LocationChecks_encodes_but_is_not_decoded compactWriter _ [5, 6] (by rfl)).2.1

/-- Claim C15 fails as stated: the text written for `locations: [12345, 67890]` is
`{"cmd":"LocationChecks","locations":[12345,67890]}`, the reader gives back the
document written, and `APPacketFromString` returns no packet for it. -/
theorem LocationChecks_text_decodes_to_no_packet :
    APPacketToString compactWriter (.LocationChecks { locations := [12345, 67890] }) =
        "\x7b\"cmd\":\"LocationChecks\",\"locations\":[12345,67890]\x7d".toList
      ∧ (readerOf [(APPacket.LocationChecks { locations := [12345, 67890] }).ToJSON]
          (APPacketToString compactWriter
            (.LocationChecks { locations := [12345, 67890] }))).isSome = true
      ∧ APPacketFromString
          (readerOf [(APPacket.LocationChecks { locations := [12345, 67890] }).ToJSON])
          (APPacketToString compactWriter (.LocationChecks { locations := [12345, 67890] })) =
        .ok none := by
  decide

/-- A message for which `APPacketFromString` returns no packet changes nothing. -/
theorem ProcessIncomingPacket_of_none (J : JsonWriter) (R : JsonReader) (s : ArchipelagoClient)
    (text : Str) (h : APPacketFromString R text = .ok none) :
    s.ProcessIncomingPacket J R text = .ok s := by
  simp [ArchipelagoClient.ProcessIncomingPacket, h]

/-- The four ways `APPacketFromString` returns no packet: the text does not parse; the
document is neither an object nor a non-empty array; the packet object has no
string member `cmd`; the command is not one of the five known ones. -/
theorem APPacketFromString_none (R : JsonReader) (text : Str) :
    (R (c_str text) = none → APPacketFromString R text = .ok none)
      ∧ (∀ doc, R (c_str text) = some doc → doc.IsObject = false →
          (∀ first rest, doc ≠ .arr (first :: rest)) → APPacketFromString R text = .ok none)
      ∧ (∀ doc members, R (c_str text) = some doc →
          (doc = .obj members ∨ ∃ rest, doc = .arr (.obj members :: rest)) →
          (∀ t, (JValue.obj members).member? "cmd".toList ≠ some (.str t)) →
          APPacketFromString R text = .ok none)
      ∧ (∀ doc members t, R (c_str text) = some doc →
          (doc = .obj members ∨ ∃ rest, doc = .arr (.obj members :: rest)) →
          (JValue.obj members).member? "cmd".toList = some (.str t) →
          c_str t ∉ ["RoomInfo".toList, "Connected".toList, "ConnectionRefused".toList,
            "ReceivedItems".toList, "PrintJSON".toList] →
          APPacketFromString R text = .ok none) := by
  refine ⟨?_, ?_, ?_, ?_⟩
  · intro h
    simp [APPacketFromString, h]
  · intro doc h hobj harr
    unfold APPacketFromString
    rw [h]
    cases doc with
    | obj ms => simp [JValue.IsObject] at hobj
    | arr xs =>
      cases xs with
      | nil => rfl
      | cons x r => exact absurd rfl (harr x r)
    | _ => rfl
  · intro doc members h hdoc hcmd
    unfold APPacketFromString
    rw [h]
    rcases hdoc with rfl | ⟨rest, rfl⟩
    all_goals
      simp only [JValue.IsObject, Bool.not_true, Bool.false_eq_true, if_false]
  · intro doc members t h hdoc hcmd hnot
    simp only [List.mem_cons, List.mem_singleton, List.not_mem_nil, or_false, not_or] at hnot
    unfold APPacketFromString
    rw [h]
    rcases hdoc with rfl | ⟨rest, rfl⟩
    all_goals
      simp only [JValue.IsObject, Bool.not_true, Bool.false_eq_true, if_false, hcmd, hnot]

/-- A non-empty array whose first element is not an object makes `APPacketFromString`
call `HasMember` on that element: the assertion fails. -/
theorem APPacketFromString_assertion (R : JsonReader) (text : Str) (first : JValue)
    (rest : List JValue) (h : R (c_str text) = some (.arr (first :: rest)))
    (hfirst : first.IsObject = false) :
    APPacketFromString R text = .error .IsObject := by
  unfold APPacketFromString
  rw [h]
  simp [hfirst]

set_option maxRecDepth 100000 in
/-- Claim C13 on the code: the text `[5]` parses to a non-empty array whose first
element, the number 5, is no object and has no `cmd`; `APPacketFromString` does
not return "no packet" for it but calls `HasMember` on the number, where the
assertion of the JSON library fails, and `ProcessIncomingPacket` does not return
the session. -/
theorem APPacketFromString_fails_on_array_of_number :
    compactWriter (.arr [.int 5]) = "[5]".toList
      ∧ (sampleReader "[5]".toList).isSome = true
      ∧ APPacketFromString sampleReader "[5]".toList = .error .IsObject
      ∧ openedSession.ProcessIncomingPacket compactWriter sampleReader "[5]".toList =
          .error .IsObject
      ∧ WebSocketClient.HandleMessage compactWriter sampleReader openedSession
          ⟨.Text, "[5]".toList⟩ = .error .IsObject := by
  decide

/-- The guarded `int` read: the member when it is an `int32` number, else the old
value. -/
theorem readInt_cases (value : JValue) (name : Str) (x : Int) :
    (∀ n, value.member? name = some (.int n) → -2147483648 ≤ n → n ≤ 2147483647 →
        value.readInt name x = n)
      ∧ ((∀ n, value.member? name = some (.int n) → ¬(-2147483648 ≤ n ∧ n ≤ 2147483647)) →
        value.readInt name x = x) := by
  constructor
  · intro n h hlo hhi
    simp [JValue.readInt, h, JValue.IsInt, hlo, hhi]
  · intro h
    unfold JValue.readInt
    split
    · rename_i n heq
      have := h n heq
      simp only [JValue.IsInt, decide_eq_true_eq, this, if_false]
    · rfl

theorem readString_cases (value : JValue) (name : Str) (x : Str) :
    (∀ t, value.member? name = some (.str t) → value.readString name x = c_str t)
      ∧ ((∀ t, value.member? name ≠ some (.str t)) → value.readString name x = x) := by
  constructor
  · intro t h
    simp [JValue.readString, h]
  · intro h
    unfold JValue.readString
    split
    · rename_i t heq
      exact absurd heq (h t)
    · rfl

theorem readBool_cases (value : JValue) (name : Str) (x : Bool) :
    (∀ b, value.member? name = some (.bool b) → value.readBool name x = b)
      ∧ ((∀ b, value.member? name ≠ some (.bool b)) → value.readBool name x = x) := by
  constructor
  · intro b h
    simp [JValue.readBool, h]
  · intro h
    unfold JValue.readBool
    split
    · rename_i b heq
      exact absurd heq (h b)
    · rfl

theorem readDouble_cases (value : JValue) (name : Str) (x : Double) :
    (∀ d, value.member? name = some (.real d) → value.readDouble name x = d)
      ∧ ((∀ d, value.member? name ≠ some (.real d)) → value.readDouble name x = x) := by
  constructor
  · intro d h
    simp [JValue.readDouble, h]
  · intro h
    unfold JValue.readDouble
    split
    · rename_i d heq
      exact absurd heq (h d)
    · rfl

theorem readArray_cases {α : Type} (value : JValue) (name : Str) (f : JValue → Option α)
    (x : List α) :
    (∀ xs, value.member? name = some (.arr xs) → value.readArray name f x = xs.filterMap f)
      ∧ ((∀ xs, value.member? name ≠ some (.arr xs)) → value.readArray name f x = x) := by
  constructor
  · intro xs h
    simp [JValue.readArray, h]
  · intro h
    unfold JValue.readArray
    split
    · rename_i xs heq
      exact absurd heq (h xs)
    · rfl

/-- A packet object with a string `cmd` that names one of the five server packets
decodes to that packet, read by its `FromJSON` from the defaults. -/
theorem APPacketFromString_recognized (R : JsonReader) (text : Str) (doc : JValue)
    (members : List (Str × JValue)) (t : Str) (hR : R (c_str text) = some doc)
    (hdoc : doc = .obj members ∨ ∃ rest, doc = .arr (.obj members :: rest))
    (hcmd : (JValue.obj members).member? "cmd".toList = some (.str t)) :
    (c_str t = "RoomInfo".toList → APPacketFromString R text =
          .ok (some (.RoomInfo (APRoomInfoPacket.FromJSON {} (.obj members)).2)))
      ∧ (c_str t = "Connected".toList → APPacketFromString R text =
          .ok (some (.Connected (APConnectedPacket.FromJSON {} (.obj members)).2)))
      ∧ (c_str t = "ConnectionRefused".toList → APPacketFromString R text =
          .ok (some (.ConnectionRefused
            (APConnectionRefusedPacket.FromJSON {} (.obj members)).2)))
      ∧ (c_str t = "ReceivedItems".toList → APPacketFromString R text =
          .ok (some (.ReceivedItems (APReceivedItemsPacket.FromJSON {} (.obj members)).2)))
      ∧ (c_str t = "PrintJSON".toList → APPacketFromString R text =
          .ok (some (.PrintJSON (APPrintJSONPacket.FromJSON {} (.obj members)).2))) := by
  have f1 : ∀ p : APRoomInfoPacket, (p.FromJSON (.obj members)).1 = true := by
    intro p; rfl
  have f2 : ∀ p : APConnectedPacket, (p.FromJSON (.obj members)).1 = true := by
    intro p; rfl
  have f3 : ∀ p : APConnectionRefusedPacket, (p.FromJSON (.obj members)).1 = true := by
    intro p; rfl
  have f4 : ∀ p : APReceivedItemsPacket, (p.FromJSON (.obj members)).1 = true := by
    intro p; rfl
  have f5 : ∀ p : APPrintJSONPacket, (p.FromJSON (.obj members)).1 = true := by
    intro p; rfl
  refine ⟨?_, ?_, ?_, ?_, ?_⟩
  · intro h
    unfold APPacketFromString
    rw [hR]
    rcases hdoc with rfl | ⟨rest, rfl⟩ <;>
      (simp only [JValue.IsObject, Bool.not_true, Bool.false_eq_true, if_false, hcmd, h]
       simp [APPacket.FromJSON, f1])
  · intro h
    unfold APPacketFromString
    rw [hR]
    rcases hdoc with rfl | ⟨rest, rfl⟩ <;>
      (simp only [JValue.IsObject, Bool.not_true, Bool.false_eq_true, if_false, hcmd, h]
       simp [APPacket.FromJSON, f2])
  · intro h
    unfold APPacketFromString
    rw [hR]
    rcases hdoc with rfl | ⟨rest, rfl⟩ <;>
      (simp only [JValue.IsObject, Bool.not_true, Bool.false_eq_true, if_false, hcmd, h]
       simp [APPacket.FromJSON, f3])
  · intro h
    unfold APPacketFromString
    rw [hR]
    rcases hdoc with rfl | ⟨rest, rfl⟩ <;>
      (simp only [JValue.IsObject, Bool.not_true, Bool.false_eq_true, if_false, hcmd, h]
       simp [APPacket.FromJSON, f4])
  · intro h
    unfold APPacketFromString
    rw [hR]
    rcases hdoc with rfl | ⟨rest, rfl⟩ <;>
      (simp only [JValue.IsObject, Bool.not_true, Bool.false_eq_true, if_false, hcmd, h]
       simp [APPacket.FromJSON, f5])

/-- Claim C14, as the code has it: a message whose packet object carries one of the
five known commands always decodes to a packet of that command, read by
`FromJSON` from a default-constructed packet.  Each field whose member is
missing or has the wrong JSON type (for a number: is not an `int32`) keeps its
default, and so do the fields that `FromJSON` never reads.  So a ReceivedItems
object without an `items` array and without an `int32` `index` decodes to index
0 with no items, and `ProcessIncomingPacket` hands it to `HandleReceivedItems`,
which does the full resync: `pendingItems` becomes empty and
`receivedItemCount` 0; the rest of the state is unchanged and no callback
runs. -/
theorem recognized_cmd_decodes_with_defaults (J : JsonWriter) (R : JsonReader)
    (s : ArchipelagoClient) (text : Str) (doc : JValue) (members : List (Str × JValue))
    (t : Str) (hR : R (c_str text) = some doc)
    (hdoc : doc = .obj members ∨ ∃ rest, doc = .arr (.obj members :: rest))
    (hcmd : (JValue.obj members).member? "cmd".toList = some (.str t)) :
    (c_str t = "RoomInfo".toList →
        ∃ p : APRoomInfoPacket, APPacketFromString R text = .ok (some (.RoomInfo p))
          ∧ p = (APRoomInfoPacket.FromJSON {} (.obj members)).2
          ∧ ((∀ m, (JValue.obj members).member? "version".toList ≠ some (.obj m)) →
              p.version = ({} : APNetworkVersion))
          ∧ ((∀ m, (JValue.obj members).member? "generator_version".toList ≠ some (.obj m)) →
              p.generator_version = ({} : APNetworkVersion))
          ∧ ((∀ b, (JValue.obj members).member? "password".toList ≠ some (.bool b)) →
              p.password = false)
          ∧ ((∀ n, (JValue.obj members).member? "hint_cost".toList = some (.int n) →
                ¬(-2147483648 ≤ n ∧ n ≤ 2147483647)) → p.hint_cost = 0)
          ∧ ((∀ n, (JValue.obj members).member? "location_check_points".toList = some (.int n) →
                ¬(-2147483648 ≤ n ∧ n ≤ 2147483647)) → p.location_check_points = 0)
          ∧ ((∀ x, (JValue.obj members).member? "seed_name".toList ≠ some (.str x)) →
              p.seed_name = [])
          ∧ ((∀ d, (JValue.obj members).member? "time".toList ≠ some (.real d)) →
              p.time = ({} : Double))
          ∧ ((∀ xs, (JValue.obj members).member? "tags".toList ≠ some (.arr xs)) → p.tags = [])
          ∧ ((∀ xs, (JValue.obj members).member? "games".toList ≠ some (.arr xs)) →
              p.games = [])
          ∧ p.permissions = [] ∧ p.datapackage_checksums = [])
      ∧ (c_str t = "Connected".toList →
        ∃ p : APConnectedPacket, APPacketFromString R text = .ok (some (.Connected p))
          ∧ p = (APConnectedPacket.FromJSON {} (.obj members)).2
          ∧ ((∀ n, (JValue.obj members).member? "team".toList = some (.int n) →
                ¬(-2147483648 ≤ n ∧ n ≤ 2147483647)) → p.team = 0)
          ∧ ((∀ n, (JValue.obj members).member? "slot".toList = some (.int n) →
                ¬(-2147483648 ≤ n ∧ n ≤ 2147483647)) → p.slot = 0)
          ∧ ((∀ n, (JValue.obj members).member? "hint_points".toList = some (.int n) →
                ¬(-2147483648 ≤ n ∧ n ≤ 2147483647)) → p.hint_points = 0)
          ∧ ((∀ xs, (JValue.obj members).member? "players".toList ≠ some (.arr xs)) →
              p.players = [])
          ∧ ((∀ xs, (JValue.obj members).member? "missing_locations".toList ≠ some (.arr xs)) →
              p.missing_locations = [])
          ∧ ((∀ xs, (JValue.obj members).member? "checked_locations".toList ≠ some (.arr xs)) →
              p.checked_locations = [])
          ∧ p.slot_data = [] ∧ p.slot_info = [])
      ∧ (c_str t = "ConnectionRefused".toList →
        ∃ p : APConnectionRefusedPacket,
          APPacketFromString R text = .ok (some (.ConnectionRefused p))
          ∧ p = (APConnectionRefusedPacket.FromJSON {} (.obj members)).2
          ∧ ((∀ xs, (JValue.obj members).member? "errors".toList ≠ some (.arr xs)) →
              p.errors = []))
      ∧ (c_str t = "ReceivedItems".toList →
        ∃ p : APReceivedItemsPacket, APPacketFromString R text = .ok (some (.ReceivedItems p))
          ∧ p = (APReceivedItemsPacket.FromJSON {} (.obj members)).2
          ∧ ((∀ n, (JValue.obj members).member? "index".toList = some (.int n) →
                ¬(-2147483648 ≤ n ∧ n ≤ 2147483647)) → p.index = 0)
          ∧ ((∀ xs, (JValue.obj members).member? "items".toList ≠ some (.arr xs)) →
              p.items = []))
      ∧ (c_str t = "PrintJSON".toList →
        ∃ p : APPrintJSONPacket, APPacketFromString R text = .ok (some (.PrintJSON p))
          ∧ p = (APPrintJSONPacket.FromJSON {} (.obj members)).2
          ∧ ((∀ x, (JValue.obj members).member? "type".toList ≠ some (.str x)) → p.type = [])
          ∧ ((∀ xs, (JValue.obj members).member? "data".toList ≠ some (.arr xs)) → p.data = [])
          ∧ p.receiving = 0 ∧ p.item = ({} : APNetworkItem) ∧ p.found = false ∧ p.team = 0
          ∧ p.slot = 0 ∧ p.message = [] ∧ p.tags = [] ∧ p.countdown = 0)
      ∧ (c_str t = "ReceivedItems".toList →
          (∀ xs, (JValue.obj members).member? "items".toList ≠ some (.arr xs)) →
          (∀ n, (JValue.obj members).member? "index".toList = some (.int n) →
            ¬(-2147483648 ≤ n ∧ n ≤ 2147483647)) →
          APPacketFromString R text = .ok (some (.ReceivedItems { index := 0, items := [] }))
            ∧ s.ProcessIncomingPacket J R text =
              .ok { s with pending_items_ := [], received_item_count_ := 0 }) := by
  have hdec := APPacketFromString_recognized R text doc members t hR hdoc hcmd
  have hv : ∀ (name : Str) (v : APNetworkVersion),
      (∀ m, (JValue.obj members).member? name ≠ some (.obj m)) →
      (match (JValue.obj members).member? name with
        | some (.obj m) => (v.FromJSON (.obj m)).2
        | _ => v) = v := by
    intro name v h
    split
    · rename_i m heq
      exact absurd heq (h m)
    · rfl
  refine ⟨?_, ?_, ?_, ?_, ?_, ?_⟩
  · intro h
    refine ⟨_, hdec.1 h, rfl, ?_, ?_, ?_, ?_, ?_, ?_, ?_, ?_, ?_, rfl, rfl⟩
    · exact hv _ _
    · exact hv _ _
    · exact (readBool_cases _ _ _).2
    · exact (readInt_cases _ _ _).2
    · exact (readInt_cases _ _ _).2
    · exact (readString_cases _ _ _).2
    · exact (readDouble_cases _ _ _).2
    · exact (readArray_cases _ _ _ _).2
    · exact (readArray_cases _ _ _ _).2
  · intro h
    refine ⟨_, hdec.2.1 h, rfl, ?_, ?_, ?_, ?_, ?_, ?_, rfl, rfl⟩
    · exact (readInt_cases _ _ _).2
    · exact (readInt_cases _ _ _).2
    · exact (readInt_cases _ _ _).2
    · exact (readArray_cases _ _ _ _).2
    · exact (readArray_cases _ _ _ _).2
    · exact (readArray_cases _ _ _ _).2
  · intro h
    exact ⟨_, hdec.2.2.1 h, rfl, (readArray_cases _ _ _ _).2⟩
  · intro h
    exact ⟨_, hdec.2.2.2.1 h, rfl, (readInt_cases _ _ _).2, (readArray_cases _ _ _ _).2⟩
  · intro h
    exact ⟨_, hdec.2.2.2.2 h, rfl, (readString_cases _ _ _).2, (readArray_cases _ _ _ _).2,
      rfl, rfl, rfl, rfl, rfl, rfl, rfl, rfl⟩
  · intro hri hitems hindex
    have hidx : (JValue.obj members).readInt "index".toList 0 = 0 :=
      (readInt_cases _ _ _).2 hindex
    have hit : (JValue.obj members).readArray "items".toList APNetworkItem.element [] = [] :=
      (readArray_cases _ _ _ _).2 hitems
    have hp : (APReceivedItemsPacket.FromJSON {} (.obj members)).2 =
        { index := 0, items := [] } := by
      simp [APReceivedItemsPacket.FromJSON, JValue.IsObject]
      exact ⟨hidx, hit⟩
    have hd := hdec.2.2.2.1 hri
    rw [hp] at hd
    refine ⟨hd, ?_⟩
    simp [ArchipelagoClient.ProcessIncomingPacket, hd, ArchipelagoClient.HandleReceivedItems,
      toInt32]

set_option maxRecDepth 100000 in
theorem recognized_cmd_decodes_with_defaults_witness :
    APPacketFromString sampleReader
        "\x7b\"cmd\":\"ReceivedItems\",\"index\":\"2\"\x7d".toList =
      .ok (some (.ReceivedItems { index := 0, items := [] })) :=
  ((recognized_cmd_decodes_with_defaults compactWriter sampleReader openedSession
    "\x7b\"cmd\":\"ReceivedItems\",\"index\":\"2\"\x7d".toList
    (.obj [("cmd".toList, .str "ReceivedItems".toList), ("index".toList, .str "2".toList)])
    [("cmd".toList, .str "ReceivedItems".toList), ("index".toList, .str "2".toList)]
    "ReceivedItems".toList (by rfl) (Or.inl rfl) (by rfl)).2.2.2.2.2 (by decide)
    (by intro xs h; simp [JValue.member?, List.find?] at h)
    (by intro n h; simp [JValue.member?, List.find?] at h)).1

set_option maxRecDepth 100000 in
/-- Claim C14 fails as stated: with one item pending and the count 1, the message
`{"cmd":"ReceivedItems","index":"2"}` (a string `index`, no `items`) is decoded
to a ReceivedItems packet and handled: `pendingItems` is emptied and
`receivedItemCount` set to 0. -/
theorem ReceivedItems_with_wrong_fields_resyncs :
    ((connectedSession {}).HandleReceivedItems
        { index := 0, items := [{ item := 100001 }] }).pending_items_ = [{ item := 100001 }]
      ∧ ((connectedSession {}).HandleReceivedItems
        { index := 0, items := [{ item := 100001 }] }).received_item_count_ = 1
      ∧ APPacketFromString sampleReader
          "\x7b\"cmd\":\"ReceivedItems\",\"index\":\"2\"\x7d".toList =
        .ok (some (.ReceivedItems {}))
      ∧ (((connectedSession {}).HandleReceivedItems
            { index := 0, items := [{ item := 100001 }] }).ProcessIncomingPacket compactWriter
            sampleReader "\x7b\"cmd\":\"ReceivedItems\",\"index\":\"2\"\x7d".toList).map
          (fun s => (s.pending_items_, s.received_item_count_)) = .ok ([], 0) := by
  decide

/-- The loop of `ProcessOutboundMessages` on a connected socket: every message leaves
the queue, and the frames written are those of the Text messages, in order. -/
theorem ProcessOutboundMessages_loop_writes (send : List Nat → Int) (queue : List WSMessage)
    (ws : WebSocketClient) (h : ws.impl_.connected = true) :
    (WebSocketClient.ProcessOutboundMessages.loop send queue ws).socket_writes =
        ws.socket_writes ++
          (queue.filter (fun m => m.type = .Text)).map
            (fun m => WebSocketClient.textFrame m.data)
      ∧ (WebSocketClient.ProcessOutboundMessages.loop send queue ws).outbound_queue_ =
        (if queue = [] then ws.outbound_queue_ else []) := by
  induction queue generalizing ws with
  | nil => simp [WebSocketClient.ProcessOutboundMessages.loop]
  | cons m rest ih =>
    unfold WebSocketClient.ProcessOutboundMessages.loop
    rw [if_pos h]
    by_cases ht : m.type = .Text
    · by_cases hs : send (WebSocketClient.textFrame m.data) > 0
      · simp only [ht, if_true, hs]
        have := ih { ws with
          outbound_queue_ := rest
          socket_writes := ws.socket_writes ++ [WebSocketClient.textFrame m.data]
          messages_sent_ := ws.messages_sent_ + 1
          bytes_sent_ := ws.bytes_sent_ + (send (WebSocketClient.textFrame m.data)).toNat } h
        refine ⟨?_, ?_⟩
        · rw [this.1]; simp [ht]
        · rw [this.2]; simp
      · simp only [ht, if_true, hs, if_false]
        have := ih { ws with
          outbound_queue_ := rest
          socket_writes := ws.socket_writes ++ [WebSocketClient.textFrame m.data] } h
        refine ⟨?_, ?_⟩
        · rw [this.1]; simp [ht]
        · rw [this.2]; simp
    · simp only [ht, if_false]
      have := ih { ws with outbound_queue_ := rest } h
      refine ⟨?_, ?_⟩
      · rw [this.1]; simp [ht]
      · rw [this.2]; simp

/-- On a connected socket `ProcessOutboundMessages` empties the queue and writes one
frame per Text message, in the order of the queue; Binary and Ping messages leave
the queue without a frame. -/
theorem ProcessOutboundMessages_writes (send : List Nat → Int) (ws : WebSocketClient)
    (h : ws.impl_.connected = true) :
    (WebSocketClient.ProcessOutboundMessages send ws).socket_writes =
        ws.socket_writes ++
          (ws.outbound_queue_.filter (fun m => m.type = .Text)).map
            (fun m => WebSocketClient.textFrame m.data)
      ∧ (WebSocketClient.ProcessOutboundMessages send ws).outbound_queue_ = [] := by
  have := ProcessOutboundMessages_loop_writes send ws.outbound_queue_ ws h
  refine ⟨this.1, ?_⟩
  rw [WebSocketClient.ProcessOutboundMessages, this.2]
  split
  · assumption
  · rfl

/-- Claim C20 on the code: with the socket connected, `SendBinary("ab")` and
`SendPing("")` are accepted and queued behind the text message `"hi"`; draining
the queue removes all three messages and writes one frame only, the text frame
`81 02 68 69`: no frame with opcode 0x2 and none with opcode 0x9. -/
theorem drain_writes_no_frame_for_Binary_and_Ping :
    (((establishedTransport.SendText "hi".toList).2.SendBinary "ab".toList).2.SendPing []).1
        = true
      ∧ (((establishedTransport.SendText "hi".toList).2.SendBinary "ab".toList).2.SendPing
          []).2.outbound_queue_ = [⟨.Text, "hi".toList⟩, ⟨.Binary, "ab".toList⟩, ⟨.Ping, []⟩]
      ∧ (((establishedTransport.SendText "hi".toList).2.SendBinary "ab".toList).2.SendPing
          []).2.socket_writes = []
      ∧ (WebSocketClient.ProcessOutboundMessages sendsAll
          (((establishedTransport.SendText "hi".toList).2.SendBinary "ab".toList).2.SendPing
            []).2).outbound_queue_ = []
      ∧ (WebSocketClient.ProcessOutboundMessages sendsAll
          (((establishedTransport.SendText "hi".toList).2.SendBinary "ab".toList).2.SendPing
            []).2).socket_writes = [[0x81, 0x02, 0x68, 0x69]] := by
  decide

/-- The frame of a text message, below and from 126 payload bytes. -/
theorem textFrame_eq (data : Str) :
    (data.length ≤ 125 →
        WebSocketClient.textFrame data =
          0x81 :: data.length :: data.map (fun c => c.toNat % 256))
      ∧ (126 ≤ data.length →
        WebSocketClient.textFrame data =
          0x81 :: 126 :: (data.length / 256 % 256) :: (data.length % 256)
            :: data.map (fun c => c.toNat % 256)) := by
  refine ⟨?_, ?_⟩
  · intro h
    have : data.length % 256 = data.length := Nat.mod_eq_of_lt (by omega)
    unfold WebSocketClient.textFrame
    rw [if_pos (by omega), this]
    rfl
  · intro h
    unfold WebSocketClient.textFrame
    rw [if_neg (by omega)]
    rfl

/-- Claim C21, as the code has it: the frame written for a payload of `n` bytes is the
byte `0x81`, the length and the `n` payload bytes.  For `n <= 125` the length is
the one byte `n`; for `126 <= n <= 65535` it is the byte 126 followed by `n` as
two bytes, most significant first.  The writer has no third encoding. -/
theorem textFrame_length_encoding (data : Str) :
    (data.length ≤ 125 →
        WebSocketClient.textFrame data =
          0x81 :: data.length :: data.map (fun c => c.toNat % 256))
      ∧ (126 ≤ data.length → data.length ≤ 65535 →
        WebSocketClient.textFrame data =
            0x81 :: 126 :: (data.length / 256) :: (data.length % 256)
              :: data.map (fun c => c.toNat % 256)
          ∧ data.length / 256 < 256
          ∧ data.length / 256 * 256 + data.length % 256 = data.length)
      ∧ (data.map (fun c => c.toNat % 256)).length = data.length := by
  refine ⟨(textFrame_eq data).1, ?_, by simp⟩
  intro h1 h2
  have : data.length / 256 % 256 = data.length / 256 := Nat.mod_eq_of_lt (by omega)
  rw [(textFrame_eq data).2 h1, this]
  exact ⟨rfl, by omega, by omega⟩

theorem textFrame_length_encoding_witness :
    WebSocketClient.textFrame "hi".toList = [0x81, 2, 0x68, 0x69]
      ∧ WebSocketClient.textFrame (List.replicate 300 'a') =
          [0x81, 126, 1, 44] ++ List.replicate 300 0x61 :=
  ⟨(textFrame_length_encoding "hi".toList).1 (by decide),
    ((textFrame_length_encoding (List.replicate 300 'a')).2.1
      (by rw [List.length_replicate]; decide) (by rw [List.length_replicate]; decide)).1.trans
      (by rw [List.length_replicate, List.map_replicate]; rfl)⟩

/-- Claim C21 fails as stated: for a payload of 65536 bytes the second header byte is
126, not 127, and the two length bytes that follow are `00 00`: the encoded
length is 0, not 65536, and no 8-byte length is written. -/
theorem textFrame_truncates_length :
    WebSocketClient.textFrame (List.replicate 65536 'a') =
        [0x81, 126, 0, 0] ++ List.replicate 65536 0x61 := by
  rw [(textFrame_eq _).2 (by rw [List.length_replicate]; decide), List.length_replicate,
    List.map_replicate]
  rfl

/-- Claim C24: transport `Disconnect` is idempotent.  After one call the state is
Disconnected, the stop signal is set, the reconnect flag is cleared and the
socket is marked not connected; a second call changes nothing and writes
nothing to the socket.  The first call writes the Close frame `88 00` exactly
when the socket was connected. -/
theorem Disconnect_idempotent (ws : WebSocketClient) :
    ws.Disconnect.Disconnect = ws.Disconnect
      ∧ ws.Disconnect.state_ = .Disconnected
      ∧ ws.Disconnect.should_stop_ = true
      ∧ ws.Disconnect.should_reconnect_ = false
      ∧ ws.Disconnect.impl_.connected = false
      ∧ ws.Disconnect.Disconnect.socket_writes = ws.Disconnect.socket_writes
      ∧ ws.Disconnect.socket_writes =
          (if ws.impl_.connected then ws.socket_writes ++ [[0x88, 0x00]] else ws.socket_writes) := by
  cases h : ws.impl_.connected <;>
    simp [WebSocketClient.Disconnect, WebSocketClient.SetState, h]

theorem land_small : ∀ n < 128, (n &&& 0x80) = 0 ∧ (n &&& 0x7F) = n := by
  decide

theorem map_ofNat_byte (p : Str) (hp : ∀ c ∈ p, c.toNat < 256) :
    (p.map (fun c => c.toNat % 256)).map Char.ofNat = p := by
  induction p with
  | nil => rfl
  | cons c t ih =>
    have hc : c.toNat % 256 = c.toNat := Nat.mod_eq_of_lt (hp c (List.mem_cons_self c t))
    simp only [List.map_cons, hc, Char.ofNat_toNat]
    rw [ih (fun d hd => hp d (List.mem_cons_of_mem c hd))]

/-- A text frame with a payload of 1 to 125 bytes that arrives in one read is parsed
to the text message with that payload. -/
theorem parse_textFrame_short (p : Str) (h1 : 1 ≤ p.length) (h2 : p.length ≤ 125)
    (hp : ∀ c ∈ p, c.toNat < 256) :
    WebSocketClient.MessageThreadProc.parse (WebSocketClient.textFrame p) = some ⟨.Text, p⟩ := by
  rw [(textFrame_eq p).1 h2]
  have hl := land_small p.length (by omega)
  unfold WebSocketClient.MessageThreadProc.parse
  simp only [List.length_cons, List.length_map, List.getD_cons_zero, List.getD_cons_succ, hl.1,
    hl.2]
  have hb : (129 &&& 128 ≠ 0 ∧ 129 &&& 15 = 1) := by decide
  have he : (if (0 : Nat) ≠ 0 then 2 + 4 else 2) = 2 := rfl
  simp only [he]
  rw [if_pos (by omega), if_pos hb, if_pos (by omega)]
  simp only [List.drop_succ_cons, List.drop_zero]
  rw [List.take_of_length_le (by simp), map_ofNat_byte p hp]

/-- A read that holds only a first part of such a frame is parsed to no message. -/
theorem parse_textFrame_take (p : Str) (h2 : p.length ≤ 125) (k : Nat)
    (hk : k < (WebSocketClient.textFrame p).length) :
    WebSocketClient.MessageThreadProc.parse ((WebSocketClient.textFrame p).take k) = none := by
  rw [(textFrame_eq p).1 h2] at hk ⊢
  simp only [List.length_cons, List.length_map] at hk
  have hl := land_small p.length (by omega)
  match k, hk with
  | 0, _ => rfl
  | 1, _ => rfl
  | k + 2, hk =>
    unfold WebSocketClient.MessageThreadProc.parse
    simp only [List.take_succ_cons, List.length_cons, List.length_take, List.length_map,
      List.getD_cons_zero, List.getD_cons_succ, hl.1, hl.2]
    have he : (if (0 : Nat) ≠ 0 then 2 + 4 else 2) = 2 := rfl
    simp only [he]
    rw [if_pos (by omega)]
    split
    · rw [if_neg (by omega)]
    · rfl

/-- A read that holds only a last part of the frame of a payload of 7-bit characters
is parsed to no message: its first byte has no FIN bit. -/
theorem parse_textFrame_drop (p : Str) (h2 : p.length ≤ 125) (hp : ∀ c ∈ p, c.toNat < 128)
    (k : Nat) (hk : 0 < k) :
    WebSocketClient.MessageThreadProc.parse ((WebSocketClient.textFrame p).drop k) = none := by
  rw [(textFrame_eq p).1 h2]
  obtain ⟨j, rfl⟩ : ∃ j, k = j + 1 := ⟨k - 1, by omega⟩
  rw [List.drop_succ_cons]
  have hall : ∀ b ∈ p.length :: p.map (fun c => c.toNat % 256), b < 128 := by
    intro b hb
    rcases List.mem_cons.mp hb with rfl | hb
    · omega
    · obtain ⟨c, hc, rfl⟩ := List.mem_map.mp hb
      have := hp c hc
      omega
  generalize p.length :: p.map (fun c => c.toNat % 256) = l at hall
  have hall2 : ∀ b ∈ l.drop j, b < 128 := fun b hb => hall b (List.mem_of_mem_drop hb)
  generalize l.drop j = m at hall2
  cases m with
  | nil => rfl
  | cons b t =>
    have hb := (land_small b (hall2 b (List.mem_cons_self b t))).1
    simp only [WebSocketClient.MessageThreadProc.parse, List.getD_cons_zero, hb]
    simp

/-- A text frame with a payload of 126 bytes or more is parsed by its seven-bit
length 126: the message is the two bytes of the extended length followed by the
first 124 bytes of the payload. -/
theorem parse_textFrame_long (p : Str) (h1 : 126 ≤ p.length) (hp : ∀ c ∈ p, c.toNat < 256) :
    WebSocketClient.MessageThreadProc.parse (WebSocketClient.textFrame p) =
      some ⟨.Text, Char.ofNat (p.length / 256 % 256) :: Char.ofNat (p.length % 256)
        :: p.take 124⟩ := by
  rw [(textFrame_eq p).2 h1]
  unfold WebSocketClient.MessageThreadProc.parse
  simp only [List.length_cons, List.length_map, List.getD_cons_zero, List.getD_cons_succ]
  have hb : (129 &&& 128 ≠ 0 ∧ 129 &&& 15 = 1) := by decide
  have he : (if (126 &&& 128) ≠ 0 then 2 + 4 else 2) = 2 := rfl
  have hl : 126 &&& 127 = 126 := rfl
  simp only [he, hl]
  rw [if_pos (by omega), if_pos hb, if_pos (by omega)]
  simp only [List.drop_succ_cons, List.drop_zero, List.take_succ_cons, List.map_cons]
  rw [← List.map_take, map_ofNat_byte _ (fun c hc => hp c (List.mem_of_mem_take hc))]

/-- The loop of `ProcessOutboundMessages` leaves the stop signal and the socket as they
are. -/
theorem ProcessOutboundMessages_loop_flags (send : List Nat → Int) (queue : List WSMessage)
    (ws : WebSocketClient) :
    (WebSocketClient.ProcessOutboundMessages.loop send queue ws).should_stop_ = ws.should_stop_
      ∧ (WebSocketClient.ProcessOutboundMessages.loop send queue ws).impl_ = ws.impl_ := by
  induction queue generalizing ws with
  | nil => exact ⟨rfl, rfl⟩
  | cons m rest ih =>
    unfold WebSocketClient.ProcessOutboundMessages.loop
    by_cases hc : ws.impl_.connected = true
    · rw [if_pos hc]
      by_cases ht : m.type = .Text
      · by_cases hsd : send (WebSocketClient.textFrame m.data) > 0
        · simp only [ht, if_true, hsd]
          exact ih _
        · simp only [ht, if_true, hsd, if_false]
          exact ih _
      · simp only [ht, if_false]
        exact ih _
    · rw [if_neg hc]
      exact ⟨rfl, rfl⟩

/-- One pass of the loop of `MessageThreadProc` on a non-empty read: the read is
parsed, the message found, if any, is handed to `HandleMessage`, the outbound
queue is drained, and the loop goes on with the next read. -/
theorem MessageThreadProc_cons (J : JsonWriter) (R : JsonReader) (send : List Nat → Int)
    (buffer : List Nat) (reads : List (List Nat)) (owner : ArchipelagoClient) (hb : buffer ≠ [])
    (hs : owner.ws_client_.should_stop_ = false) (hc : owner.ws_client_.impl_.connected = true) :
    (∀ message, WebSocketClient.MessageThreadProc.parse buffer = some message →
        WebSocketClient.MessageThreadProc J R send (buffer :: reads) owner =
          (WebSocketClient.HandleMessage J R owner message).bind
            (fun o : ArchipelagoClient => WebSocketClient.MessageThreadProc J R send reads
              { o with ws_client_ := o.ws_client_.ProcessOutboundMessages send }))
      ∧ (WebSocketClient.MessageThreadProc.parse buffer = none →
        WebSocketClient.MessageThreadProc J R send (buffer :: reads) owner =
          WebSocketClient.MessageThreadProc J R send reads
            { owner with ws_client_ := owner.ws_client_.ProcessOutboundMessages send }) := by
  have hl : ¬ buffer.length ≤ 0 := by
    cases buffer with
    | nil => exact absurd rfl hb
    | cons b t => simp
  refine ⟨fun message hp => ?_, fun hp => ?_⟩
  · simp only [WebSocketClient.MessageThreadProc, hs, hc, hl, hp]
    cases hm : WebSocketClient.HandleMessage J R owner message <;> simp [Except.bind]
  · simp only [WebSocketClient.MessageThreadProc, hs, hc, hl, hp]
    simp

/-- Claim C22, as the code has it: a text frame with a payload of 1 to 125 bytes that
arrives in one socket read is delivered as one Text message whose data is the
complete payload.  The read path keeps nothing between reads: a read that holds
only a first part of the frame delivers no message, and when the payload
consists of 7-bit characters the read that holds the rest delivers none either,
so the two reads of a split frame deliver nothing. -/
theorem frame_delivered_from_one_read_only (J : JsonWriter) (R : JsonReader)
    (send : List Nat → Int) (owner : ArchipelagoClient) (p : Str)
    (h1 : 1 ≤ p.length) (h2 : p.length ≤ 125) (hp : ∀ c ∈ p, c.toNat < 256)
    (hs : owner.ws_client_.should_stop_ = false) (hc : owner.ws_client_.impl_.connected = true) :
    WebSocketClient.MessageThreadProc.parse (WebSocketClient.textFrame p) = some ⟨.Text, p⟩
      ∧ WebSocketClient.MessageThreadProc J R send [WebSocketClient.textFrame p] owner =
          (WebSocketClient.HandleMessage J R owner ⟨.Text, p⟩).map
            (fun o : ArchipelagoClient =>
              { o with ws_client_ := o.ws_client_.ProcessOutboundMessages send })
      ∧ ∀ k, 0 < k → k < (WebSocketClient.textFrame p).length →
          WebSocketClient.MessageThreadProc.parse ((WebSocketClient.textFrame p).take k) = none
            ∧ WebSocketClient.MessageThreadProc J R send [(WebSocketClient.textFrame p).take k]
                owner =
              .ok { owner with ws_client_ := owner.ws_client_.ProcessOutboundMessages send }
            ∧ ((∀ c ∈ p, c.toNat < 128) →
              WebSocketClient.MessageThreadProc.parse ((WebSocketClient.textFrame p).drop k) =
                  none
                ∧ WebSocketClient.MessageThreadProc J R send
                    [(WebSocketClient.textFrame p).take k, (WebSocketClient.textFrame p).drop k]
                    owner =
                  .ok
                    { owner with
                      ws_client_ :=
                        WebSocketClient.ProcessOutboundMessages send
                          (WebSocketClient.ProcessOutboundMessages send owner.ws_client_) }) := by
  have hfull := parse_textFrame_short p h1 h2 hp
  have hne : WebSocketClient.textFrame p ≠ [] := by
    rw [(textFrame_eq p).1 h2]
    simp
  refine ⟨hfull, ?_, ?_⟩
  · rw [(MessageThreadProc_cons J R send _ [] owner hne hs hc).1 _ hfull]
    cases hm : WebSocketClient.HandleMessage J R owner ⟨.Text, p⟩ <;>
      simp [Except.bind, Except.map, WebSocketClient.MessageThreadProc]
  · intro k hk0 hk
    have htake := parse_textFrame_take p h2 k hk
    have htne : (WebSocketClient.textFrame p).take k ≠ [] := by
      intro h
      have := congrArg List.length h
      simp only [List.length_take, List.length_nil] at this
      omega
    refine ⟨htake, ?_, ?_⟩
    · rw [(MessageThreadProc_cons J R send _ [] owner htne hs hc).2 htake]
      rfl
    · intro h7
      have hdrop := parse_textFrame_drop p h2 h7 k hk0
      have hdne : (WebSocketClient.textFrame p).drop k ≠ [] := by
        intro h
        have := congrArg List.length h
        simp only [List.length_drop, List.length_nil] at this
        omega
      have hflags := ProcessOutboundMessages_loop_flags send owner.ws_client_.outbound_queue_
        owner.ws_client_
      refine ⟨hdrop, ?_⟩
      rw [(MessageThreadProc_cons J R send _ _ owner htne hs hc).2 htake,
        (MessageThreadProc_cons J R send _ [] _ hdne (hflags.1.trans hs)
          ((congrArg WebSocketImpl.connected hflags.2).trans hc)).2 hdrop]
      rfl

set_option maxRecDepth 100000 in
theorem frame_delivered_from_one_read_only_witness :
    WebSocketClient.MessageThreadProc.parse (WebSocketClient.textFrame "hello".toList) =
        some ⟨.Text, "hello".toList⟩
      ∧ WebSocketClient.MessageThreadProc.parse
          ((WebSocketClient.textFrame "hello".toList).take 4) = none :=
  ⟨(frame_delivered_from_one_read_only compactWriter sampleReader sendsAll establishedSession
      "hello".toList (by decide) (by decide) (by decide) (by decide) (by decide)).1,
    ((frame_delivered_from_one_read_only compactWriter sampleReader sendsAll establishedSession
      "hello".toList (by decide) (by decide) (by decide) (by decide) (by decide)).2.2 4
      (by decide) (by decide)).1⟩

set_option maxRecDepth 100000 in
/-- Claim C22 fails as stated: the frame `81 05 68 65 6c 6c 6f` of the text `hello`,
delivered as one message when it arrives in one read, delivers no message when
it arrives split in two reads, at any of the six split points; after the reads
`81 05 68 65` and `6c 6c 6f` no message was received.  And the frame
`81 03 81 01 78`, split after its header, delivers the one-byte message `x`,
which is a part of its payload. -/
theorem split_frame_delivers_no_message :
    WebSocketClient.textFrame "hello".toList = [0x81, 0x05, 0x68, 0x65, 0x6c, 0x6c, 0x6f]
      ∧ WebSocketClient.MessageThreadProc.parse [0x81, 0x05, 0x68, 0x65, 0x6c, 0x6c, 0x6f] =
          some ⟨.Text, "hello".toList⟩
      ∧ (∀ k ∈ [1, 2, 3, 4, 5, 6],
          WebSocketClient.MessageThreadProc.parse
              ([0x81, 0x05, 0x68, 0x65, 0x6c, 0x6c, 0x6f].take k) = none
            ∧ WebSocketClient.MessageThreadProc.parse
              ([0x81, 0x05, 0x68, 0x65, 0x6c, 0x6c, 0x6f].drop k) = none)
      ∧ (WebSocketClient.MessageThreadProc compactWriter sampleReader sendsAll
            [[0x81, 0x05, 0x68, 0x65, 0x6c, 0x6c, 0x6f]] establishedSession).map
          (fun s => (s.ws_client_.messages_received_, s.ws_client_.bytes_received_)) =
          .ok (1, 5)
      ∧ (WebSocketClient.MessageThreadProc compactWriter sampleReader sendsAll
            [[0x81, 0x05, 0x68, 0x65], [0x6c, 0x6c, 0x6f]] establishedSession).map
          (fun s => (s.ws_client_.messages_received_, s.ws_client_.bytes_received_)) =
          .ok (0, 0)
      ∧ WebSocketClient.textFrame [Char.ofNat 0x81, Char.ofNat 0x01, 'x'] =
          [0x81, 0x03, 0x81, 0x01, 0x78]
      ∧ WebSocketClient.MessageThreadProc.parse [0x81, 0x03] = none
      ∧ WebSocketClient.MessageThreadProc.parse [0x81, 0x01, 0x78] = some ⟨.Text, "x".toList⟩ := by
  decide

/-- Claim C27, as the code has it: for a text payload `p` of 1 to 125 bytes, the write
side emits the frame `textFrame p` for the queued message, and when these bytes
arrive in one socket read the read side hands exactly the Text message with the
data `p` to `HandleMessage`. -/
theorem short_frame_round_trip (J : JsonWriter) (R : JsonReader) (send : List Nat → Int)
    (ws : WebSocketClient) (owner : ArchipelagoClient) (p : Str)
    (h1 : 1 ≤ p.length) (h2 : p.length ≤ 125) (hp : ∀ c ∈ p, c.toNat < 256)
    (hq : ws.outbound_queue_ = [⟨.Text, p⟩]) (hw : ws.impl_.connected = true)
    (hs : owner.ws_client_.should_stop_ = false) (hc : owner.ws_client_.impl_.connected = true) :
    (ws.ProcessOutboundMessages send).socket_writes =
        ws.socket_writes ++ [WebSocketClient.textFrame p]
      ∧ (WebSocketClient.textFrame p).length ≤ 4096
      ∧ WebSocketClient.MessageThreadProc.parse (WebSocketClient.textFrame p) = some ⟨.Text, p⟩
      ∧ WebSocketClient.MessageThreadProc J R send [WebSocketClient.textFrame p] owner =
          (WebSocketClient.HandleMessage J R owner ⟨.Text, p⟩).map
            (fun o : ArchipelagoClient =>
              { o with ws_client_ := o.ws_client_.ProcessOutboundMessages send }) := by
  have hfull := parse_textFrame_short p h1 h2 hp
  have hne : WebSocketClient.textFrame p ≠ [] := by
    rw [(textFrame_eq p).1 h2]
    simp
  refine ⟨?_, ?_, hfull, ?_⟩
  · rw [(ProcessOutboundMessages_writes send ws hw).1, hq]
    simp
  · rw [(textFrame_eq p).1 h2]
    simp only [List.length_cons, List.length_map]
    omega
  · rw [(MessageThreadProc_cons J R send _ [] owner hne hs hc).1 _ hfull]
    cases hm : WebSocketClient.HandleMessage J R owner ⟨.Text, p⟩ <;>
      simp [Except.bind, Except.map, WebSocketClient.MessageThreadProc]

set_option maxRecDepth 100000 in
theorem short_frame_round_trip_witness :
    ((establishedTransport.SendText "hi".toList).2.ProcessOutboundMessages sendsAll).socket_writes
        = [[0x81, 0x02, 0x68, 0x69]]
      ∧ WebSocketClient.MessageThreadProc.parse [0x81, 0x02, 0x68, 0x69] =
        some ⟨.Text, "hi".toList⟩ :=
  ⟨(short_frame_round_trip compactWriter sampleReader sendsAll
      (establishedTransport.SendText "hi".toList).2 establishedSession "hi".toList
      (by decide) (by decide) (by decide) (by decide) (by decide) (by decide) (by decide)).1,
    (short_frame_round_trip compactWriter sampleReader sendsAll
      (establishedTransport.SendText "hi".toList).2 establishedSession "hi".toList
      (by decide) (by decide) (by decide) (by decide) (by decide) (by decide) (by decide)).2.2.1⟩

set_option maxRecDepth 1000000 in
/-- Claim C27 fails as stated: the frame written for a payload of 126 bytes `a` is
`81 7e 00 7e` followed by the payload; read back in one read it is delivered as
the 126-byte message that starts with the two length bytes `00 7e` and holds
only 124 of the payload bytes.  The frame `81 00` written for the empty payload
is delivered as no message at all. -/
theorem long_and_empty_frames_do_not_round_trip :
    WebSocketClient.textFrame (List.replicate 126 'a') =
        [0x81, 0x7e, 0x00, 0x7e] ++ List.replicate 126 0x61
      ∧ WebSocketClient.MessageThreadProc.parse
          (WebSocketClient.textFrame (List.replicate 126 'a')) =
        some ⟨.Text, Char.ofNat 0 :: '~' :: List.replicate 124 'a'⟩
      ∧ (WebSocketClient.MessageThreadProc compactWriter sampleReader sendsAll
            [WebSocketClient.textFrame (List.replicate 126 'a')] establishedSession).map
          (fun s => (s.ws_client_.messages_received_, s.ws_client_.bytes_received_)) =
          .ok (1, 126)
      ∧ WebSocketClient.textFrame [] = [0x81, 0x00]
      ∧ WebSocketClient.MessageThreadProc.parse (WebSocketClient.textFrame []) = none
      ∧ (WebSocketClient.MessageThreadProc compactWriter sampleReader sendsAll
            [WebSocketClient.textFrame []] establishedSession).map
          (fun s => (s.ws_client_.messages_received_, s.ws_client_.bytes_received_)) =
          .ok (0, 0) := by
  decide

theorem Connect_reconnect_fields (s : ArchipelagoClient) (address : Str) (port : Int)
    (slot_name password : Str) :
    (s.Connect address port slot_name password).1.should_reconnect_ = s.should_reconnect_
      ∧ (s.Connect address port slot_name password).1.reconnect_timers_started =
          s.reconnect_timers_started
      ∧ (s.Connect address port slot_name password).1.pending_items_ = s.pending_items_
      ∧ (s.Connect address port slot_name password).1.received_item_count_ =
          s.received_item_count_ := by
  unfold ArchipelagoClient.Connect
  split
  · exact ⟨rfl, rfl, rfl, rfl⟩
  · unfold WebSocketClient.Connect
    simp only [ArchipelagoClient.SetConnectionState]
    cases ParseWebSocketURL
        ("ws://".toList ++ address ++ ":".toList ++ to_string port ++ "/".toList) {} with
    | error e => exact ⟨rfl, rfl, rfl, rfl⟩
    | ok r =>
      obtain ⟨b, parsed⟩ := r
      cases b
      · simp only [WebSocketClient.HandleError, ArchipelagoClient.OnWebSocketError]
        cases s.on_error_ <;> exact ⟨rfl, rfl, rfl, rfl⟩
      · exact ⟨rfl, rfl, rfl, rfl⟩

theorem SendPacket_reconnect_fields (J : JsonWriter) (s : ArchipelagoClient) (packet : APPacket) :
    (s.SendPacket J packet).should_reconnect_ = s.should_reconnect_
      ∧ (s.SendPacket J packet).reconnect_timers_started = s.reconnect_timers_started
      ∧ (s.SendPacket J packet).pending_items_ = s.pending_items_
      ∧ (s.SendPacket J packet).received_item_count_ = s.received_item_count_ := by
  rw [SendPacket_eq]
  exact ⟨rfl, rfl, rfl, rfl⟩

theorem CheckLocations_reconnect_fields (J : JsonWriter) (s : ArchipelagoClient)
    (location_ids : LocationIds) :
    (s.CheckLocations J location_ids).should_reconnect_ = s.should_reconnect_
      ∧ (s.CheckLocations J location_ids).reconnect_timers_started =
          s.reconnect_timers_started
      ∧ (s.CheckLocations J location_ids).pending_items_ = s.pending_items_
      ∧ (s.CheckLocations J location_ids).received_item_count_ = s.received_item_count_ := by
  rw [CheckLocations_frame]
  exact ⟨rfl, rfl, rfl, rfl⟩

/-- The reconnect flag, once false, stays false under every operation and no reconnect
timer is started; and only `HandleReceivedItems`, `ClearPendingItems` and
`ResetState` touch the pending items and the received-item count. -/
theorem step_reconnect_fields (J : JsonWriter) (s : ArchipelagoClient) (op : Op) :
    (s.should_reconnect_ = false →
        (step J s op).should_reconnect_ = false
          ∧ (step J s op).reconnect_timers_started = s.reconnect_timers_started)
      ∧ ((∀ p, op ≠ .HandleReceivedItems p) → op ≠ .ClearPendingItems → op ≠ .ResetState →
        (step J s op).pending_items_ = s.pending_items_
          ∧ (step J s op).received_item_count_ = s.received_item_count_) := by
  have key : ∀ t : ArchipelagoClient,
      (t.should_reconnect_ = s.should_reconnect_
        ∧ t.reconnect_timers_started = s.reconnect_timers_started
        ∧ t.pending_items_ = s.pending_items_
        ∧ t.received_item_count_ = s.received_item_count_) →
      (s.should_reconnect_ = false →
        t.should_reconnect_ = false ∧ t.reconnect_timers_started = s.reconnect_timers_started)
      ∧ ((∀ p, op ≠ .HandleReceivedItems p) → op ≠ .ClearPendingItems → op ≠ .ResetState →
        t.pending_items_ = s.pending_items_
          ∧ t.received_item_count_ = s.received_item_count_) := by
    intro t ht
    exact ⟨fun h => ⟨ht.1.trans h, ht.2.1⟩, fun _ _ _ => ht.2.2⟩
  cases op with
  | Connect a p n pw => exact key _ (Connect_reconnect_fields s a p n pw)
  | CheckLocation id => exact key _ (CheckLocations_reconnect_fields J s (.vector [id]))
  | CheckLocations ids => exact key _ (CheckLocations_reconnect_fields J s ids)
  | HandleConnected p =>
    apply key
    simp only [step, ArchipelagoClient.HandleConnected, ArchipelagoClient.UpdateStatus,
      ArchipelagoClient.SetConnectionState]
    split
    · cases s.on_connected_ <;> exact ⟨rfl, rfl, rfl, rfl⟩
    · rw [SendPacket_eq]
      cases s.on_connected_ <;> exact ⟨rfl, rfl, rfl, rfl⟩
  | ResetState => exact ⟨fun h => ⟨h, rfl⟩, fun _ _ h => absurd rfl h⟩
  | Disconnect => exact key _ ⟨rfl, rfl, rfl, rfl⟩
  | Authenticate n pw =>
    apply key
    simp only [step, ArchipelagoClient.Authenticate]
    split
    · exact ⟨rfl, rfl, rfl, rfl⟩
    · exact SendPacket_reconnect_fields _ _ _
  | ClearPendingItems => exact ⟨fun h => ⟨h, rfl⟩, fun _ h _ => absurd rfl h⟩
  | UpdateStatus st =>
    apply key
    simp only [step, ArchipelagoClient.UpdateStatus]
    split
    · exact ⟨rfl, rfl, rfl, rfl⟩
    · exact SendPacket_reconnect_fields _ _ _
  | SendChatMessage m =>
    apply key
    simp only [step, ArchipelagoClient.SendChatMessage]
    split
    · exact ⟨rfl, rfl, rfl, rfl⟩
    · exact SendPacket_reconnect_fields _ _ _
  | RequestDataPackage g =>
    apply key
    simp only [step, ArchipelagoClient.RequestDataPackage]
    split
    · exact ⟨rfl, rfl, rfl, rfl⟩
    · exact SendPacket_reconnect_fields _ _ _
  | SyncData =>
    apply key
    simp only [step, ArchipelagoClient.SyncData]
    split
    · exact ⟨rfl, rfl, rfl, rfl⟩
    · exact SendPacket_reconnect_fields _ _ _
  | SetAutoReconnect b => exact key _ ⟨rfl, rfl, rfl, rfl⟩
  | SetReconnectDelay ms => exact key _ ⟨rfl, rfl, rfl, rfl⟩
  | SetConnectedCallback cb => exact key _ ⟨rfl, rfl, rfl, rfl⟩
  | SetDisconnectedCallback cb => exact key _ ⟨rfl, rfl, rfl, rfl⟩
  | SetItemReceivedCallback cb => exact key _ ⟨rfl, rfl, rfl, rfl⟩
  | SetLocationCheckedCallback cb => exact key _ ⟨rfl, rfl, rfl, rfl⟩
  | SetChatMessageCallback cb => exact key _ ⟨rfl, rfl, rfl, rfl⟩
  | SetErrorCallback cb => exact key _ ⟨rfl, rfl, rfl, rfl⟩
  | OnReconnectTimer =>
    apply key
    simp only [step, ArchipelagoClient.OnReconnectTimer]
    split
    · exact Connect_reconnect_fields _ _ _ _ _
    · exact ⟨rfl, rfl, rfl, rfl⟩
  | HandleRoomInfo p =>
    apply key
    simp only [step, ArchipelagoClient.HandleRoomInfo, ArchipelagoClient.Authenticate]
    split
    · split
      · exact ⟨rfl, rfl, rfl, rfl⟩
      · exact SendPacket_reconnect_fields _ _ _
    · exact ⟨rfl, rfl, rfl, rfl⟩
  | HandleConnectionRefused p =>
    apply key
    simp only [step, ArchipelagoClient.HandleConnectionRefused]
    split <;> exact ⟨rfl, rfl, rfl, rfl⟩
  | HandleReceivedItems p =>
    refine ⟨fun h => ?_, fun h _ _ => absurd rfl (h p)⟩
    simp only [step, ArchipelagoClient.HandleReceivedItems]
    split
    · exact ⟨h, rfl⟩
    · rw [HandleReceivedItems_foldl_visit]
      exact ⟨h, rfl⟩
  | HandlePrintJSON p =>
    apply key
    simp only [step, ArchipelagoClient.HandlePrintJSON]
    split <;> exact ⟨rfl, rfl, rfl, rfl⟩
  | TransportConnected => exact key _ ⟨rfl, rfl, rfl, rfl⟩
  | TransportDisconnected c r =>
    refine ⟨fun h => ?_, fun _ _ _ => ?_⟩
    · simp only [step, WebSocketClient.HandleDisconnected,
        ArchipelagoClient.OnWebSocketDisconnected, ArchipelagoClient.SetConnectionState,
        ArchipelagoClient.invoke, h]
      cases s.on_disconnected_ <;> cases s.auto_reconnect_ <;> simp <;> split <;> exact ⟨rfl, rfl⟩
    · simp only [step, WebSocketClient.HandleDisconnected,
        ArchipelagoClient.OnWebSocketDisconnected, ArchipelagoClient.SetConnectionState,
        ArchipelagoClient.invoke, ArchipelagoClient.StartReconnectTimer]
      split <;> split <;> first | exact ⟨rfl, rfl⟩ | (split <;> exact ⟨rfl, rfl⟩)
  | TransportError e =>
    apply key
    simp only [step, WebSocketClient.HandleError, ArchipelagoClient.OnWebSocketError]
    cases s.on_error_ <;> exact ⟨rfl, rfl, rfl, rfl⟩
  | TransportActivity ws => exact key _ ⟨rfl, rfl, rfl, rfl⟩

/-- In every reachable state the reconnect flag of the session is false and no reconnect
timer was started. -/
theorem Reachable_no_reconnect (J : JsonWriter) (s : ArchipelagoClient) (h : Reachable J s) :
    s.should_reconnect_ = false ∧ s.reconnect_timers_started = 0 := by
  induction h with
  | init uuid => exact ⟨rfl, rfl⟩
  | next s op _ ih =>
    have := (step_reconnect_fields J s op).1 ih.1
    exact ⟨this.1, this.2.trans ih.2⟩

/-- Claim C25, as the code has it: once the socket is connected and the handshake
request is sent, `ReceiveHandshakeResponse` accepts a response exactly when
`recv` stored at least one byte and the response text contains `HTTP/1.1 101`
and `Upgrade: websocket`; no `Sec-WebSocket-Accept` header is looked for.  When
the check rejects, the transport becomes Failed and the socket is not marked
connected; when it accepts, the transport becomes Connected. -/
theorem handshake_response_check (owner : ArchipelagoClient) (os : ConnectionCalls)
    (hsock : 0 ≤ os.socket) (hhost : os.gethostbyname = true) (hconn : 0 ≤ os.connect)
    (hsend : owner.ws_client_.impl_.SendHandshake os.send GenerateWebSocketKey = true) :
    (WebSocketImpl.ReceiveHandshakeResponse os.recv = true ↔
        os.recv ≠ []
          ∧ (findStr (c_str (os.recv.map Char.ofNat)) "HTTP/1.1 101".toList).isSome = true
          ∧ (findStr (c_str (os.recv.map Char.ofNat)) "Upgrade: websocket".toList).isSome = true)
      ∧ (WebSocketImpl.ReceiveHandshakeResponse os.recv = false →
        (WebSocketClient.ConnectionThreadProc owner os).ws_client_.state_ = .Failed
          ∧ (WebSocketClient.ConnectionThreadProc owner os).ws_client_.impl_.connected =
              owner.ws_client_.impl_.connected)
      ∧ (WebSocketImpl.ReceiveHandshakeResponse os.recv = true →
        (WebSocketClient.ConnectionThreadProc owner os).ws_client_.state_ = .Connected
          ∧ (WebSocketClient.ConnectionThreadProc owner os).ws_client_.impl_.connected = true) := by
  have h1 : ¬ os.socket < 0 := by omega
  have h3 : ¬ os.connect < 0 := by omega
  have hsend2 : WebSocketImpl.SendHandshake
      { owner.ws_client_.impl_ with socket_fd := os.socket } os.send GenerateWebSocketKey =
      true := hsend
  refine ⟨?_, ?_, ?_⟩
  · unfold WebSocketImpl.ReceiveHandshakeResponse
    cases hr : os.recv with
    | nil => simp
    | cons b t => simp
  · intro hr
    simp only [WebSocketClient.ConnectionThreadProc, h1, hhost, h3, hsend2, hr, if_false,
      Bool.not_true, Bool.not_false, if_true, Bool.false_eq_true]
    simp only [WebSocketClient.HandleError, ArchipelagoClient.OnWebSocketError,
      ArchipelagoClient.invoke, ArchipelagoClient.SetConnectionState, WebSocketClient.SetState]
    split <;> exact ⟨trivial, rfl⟩
  · intro hr
    simp only [WebSocketClient.ConnectionThreadProc, h1, hhost, h3, hsend2, hr, if_false,
      Bool.not_true, Bool.not_false, if_true, Bool.false_eq_true]
    exact ⟨rfl, rfl⟩

set_option maxRecDepth 100000 in
theorem handshake_response_check_witness :
    (WebSocketClient.ConnectionThreadProc
        (freshSession.Connect "localhost".toList 38281 "Player".toList []).1
        (serverAnswering "HTTP/1.1 404 Not Found\r\n\r\n".toList)).ws_client_.state_ = .Failed :=
  ((handshake_response_check (freshSession.Connect "localhost".toList 38281 "Player".toList []).1
    (serverAnswering "HTTP/1.1 404 Not Found\r\n\r\n".toList)
    (by decide) (by decide) (by decide) (by decide)).2.1 (by decide)).1

set_option maxRecDepth 100000 in
/-- Claim C25 fails as stated: a response with the status line and the `Upgrade`
header but without a `Sec-WebSocket-Accept` header is accepted, and so is one
whose `Sec-WebSocket-Accept` value is not the one of the key sent; in both runs
the transport becomes Connected. -/
theorem response_without_accept_header_is_accepted :
    findStr "HTTP/1.1 101 Switching Protocols\r\nUpgrade: websocket\r\n\r\n".toList
        "Sec-WebSocket-Accept".toList = none
      ∧ WebSocketImpl.ReceiveHandshakeResponse
          (serverAnswering
            "HTTP/1.1 101 Switching Protocols\r\nUpgrade: websocket\r\n\r\n".toList).recv = true
      ∧ (WebSocketClient.ConnectionThreadProc
          (freshSession.Connect "localhost".toList 38281 "Player".toList []).1
          (serverAnswering
            "HTTP/1.1 101 Switching Protocols\r\nUpgrade: websocket\r\n\r\n".toList)
          ).ws_client_.state_ = .Connected
      ∧ (WebSocketClient.ConnectionThreadProc
          (freshSession.Connect "localhost".toList 38281 "Player".toList []).1
          (serverAnswering ("HTTP/1.1 101 Switching Protocols\r\nUpgrade: websocket\r\n"
            ++ "Sec-WebSocket-Accept: AAAAAAAAAAAAAAAAAAAAAAAAAAA=\r\n\r\n").toList)
          ).ws_client_.state_ = .Connected := by
  decide

set_option maxRecDepth 100000 in
/-- Claim C23 on the code: the session is Connected with auto-reconnect enabled, the
read of the message thread fails and the transport reports the disconnection.
The session becomes Disconnected and the Disconnected callback runs, but the
reconnect flag stays false and no reconnect timer is started, in the session
and in the transport; the connection thread of the first `Connect` remains the
only one, also when `OnReconnectTimer` is run. -/
theorem transport_disconnect_schedules_no_reconnect :
    liveSession.connection_state_ = .Connected
      ∧ liveSession.auto_reconnect_ = true
      ∧ (WebSocketClient.MessageThreadProc compactWriter sampleReader sendsAll [[]]
            liveSession).map
          (fun s => (s.connection_state_, s.events.getLast?, s.should_reconnect_,
            s.reconnect_timers_started, s.ws_client_.reconnect_threads_started,
            s.ws_client_.connection_threads_started)) =
          .ok (.Disconnected, some .Disconnected, false, 0, 0, 1)
      ∧ (WebSocketClient.MessageThreadProc compactWriter sampleReader sendsAll [[]]
            liveSession).map
          (fun s => (s.OnReconnectTimer.connection_state_,
            s.OnReconnectTimer.ws_client_.connection_threads_started)) =
          .ok (.Disconnected, 1) := by
  decide


/-- An operation that counts without wrap-around keeps the number of pending items
within the received-item count. -/
theorem step_pending_within_count (J : JsonWriter) (s : ArchipelagoClient) (op : Op)
    (hw : CountsWithoutWrap s op)
    (ih : (s.pending_items_.length : Int) ≤ s.received_item_count_) :
    ((step J s op).pending_items_.length : Int) ≤ (step J s op).received_item_count_ := by
  have h0 : (0 : Int) ≤ s.pending_items_.length := Int.natCast_nonneg _
  by_cases h1 : ∃ p, op = .HandleReceivedItems p
  · obtain ⟨p, rfl⟩ := h1
    simp only [CountsWithoutWrap] at hw
    simp only [step, ArchipelagoClient.HandleReceivedItems]
    split
    · rename_i hi
      rw [if_pos hi] at hw
      simp only
      rw [toInt32_of_range _ (by omega) hw]
    · rename_i hi
      rw [if_neg hi] at hw
      rw [HandleReceivedItems_foldl_visit]
      simp only
      rw [foldl_count_of_range _ _ (by omega) hw, List.length_append]
      push_cast
      omega
  · by_cases h2 : op = .ClearPendingItems
    · subst h2
      simp only [step, ArchipelagoClient.ClearPendingItems, List.length_nil]
      push_cast
      omega
    · by_cases h3 : op = .ResetState
      · subst h3
        simp [step, ArchipelagoClient.ResetState]
      · have := (step_reconnect_fields J s op).2 (fun p h => h1 ⟨p, h⟩) h2 h3
        rw [this.1, this.2]
        exact ih

/-- Claim C29: in every state reached by operations that count without `int32`
wrap-around, the number of pending items is at most the received-item count.
The bound holds at construction and every such operation preserves it, among
them `HandleReceivedItems` in both branches, `ClearPendingItems` and
`ResetState`; and `ClearPendingItems` leaves the count unchanged. -/
theorem pending_within_received_count (J : JsonWriter) (s : ArchipelagoClient)
    (h : ReachableWithoutWrap J s) :
    (s.pending_items_.length : Int) ≤ s.received_item_count_
      ∧ (∀ op, CountsWithoutWrap s op →
          ((step J s op).pending_items_.length : Int) ≤ (step J s op).received_item_count_)
      ∧ s.ClearPendingItems.received_item_count_ = s.received_item_count_
      ∧ s.ClearPendingItems.pending_items_ = [] := by
  have main : (s.pending_items_.length : Int) ≤ s.received_item_count_ := by
    induction h with
    | init uuid => simp [ArchipelagoClient.new]
    | next s op _ hw ih => exact step_pending_within_count J s op hw ih
  exact ⟨main, fun op hw => step_pending_within_count J s op hw main, rfl, rfl⟩

theorem pending_within_received_count_witness :
    (((step compactWriter
          (step compactWriter (ArchipelagoClient.new [])
            (.HandleReceivedItems { index := 0, items := [{ item := 1 }, { item := 2 }] }))
          .ClearPendingItems).pending_items_.length : Nat) : Int) ≤
      (step compactWriter
          (step compactWriter (ArchipelagoClient.new [])
            (.HandleReceivedItems { index := 0, items := [{ item := 1 }, { item := 2 }] }))
          .ClearPendingItems).received_item_count_ :=
  (pending_within_received_count compactWriter _
    (.next _ .ClearPendingItems
      (.next _ (.HandleReceivedItems { index := 0, items := [{ item := 1 }, { item := 2 }] })
        (.init []) (by simp [CountsWithoutWrap]))
      trivial)).1

/-- Claim C30: when the text is a JSON array whose first element is a packet object,
`APPacketFromString` decodes that first element only: its result, and what
`ProcessIncomingPacket` does with it, are those for the first object sent
alone, whatever follows it in the array. -/
theorem APPacketFromString_decodes_first_only (J : JsonWriter) (R : JsonReader)
    (s : ArchipelagoClient) (text alone : Str) (first : JValue) (rest : List JValue)
    (hobj : first.IsObject = true)
    (hR : R (c_str text) = some (.arr (first :: rest)))
    (hA : R (c_str alone) = some first) :
    APPacketFromString R text = APPacketFromString R alone
      ∧ s.ProcessIncomingPacket J R text = s.ProcessIncomingPacket J R alone := by
  have h : APPacketFromString R text = APPacketFromString R alone := by
    unfold APPacketFromString
    rw [hR, hA]
    cases first with
    | obj members => rfl
    | _ => simp [JValue.IsObject] at hobj
  exact ⟨h, by unfold ArchipelagoClient.ProcessIncomingPacket; rw [h]⟩

set_option maxRecDepth 200000 in
theorem APPacketFromString_decodes_first_only_witness :
    (openedSession.ProcessIncomingPacket compactWriter batchReader
          (compactWriter roomInfoThenItems) =
        openedSession.ProcessIncomingPacket compactWriter batchReader
          (compactWriter (APPacket.RoomInfo { seed_name := "seed".toList }).ToJSON))
      ∧ APPacketFromString batchReader (compactWriter roomInfoThenItems) =
          .ok (some (.RoomInfo { seed_name := "seed".toList }))
      ∧ (openedSession.ProcessIncomingPacket compactWriter batchReader
          (compactWriter roomInfoThenItems)).map
            (fun s => (s.seed_name_, s.pending_items_, s.received_item_count_)) =
          .ok ("seed".toList, [], 0) :=
  ⟨(APPacketFromString_decodes_first_only compactWriter batchReader openedSession
      (compactWriter roomInfoThenItems)
      (compactWriter (APPacket.RoomInfo { seed_name := "seed".toList }).ToJSON)
      (APPacket.RoomInfo { seed_name := "seed".toList }).ToJSON
      [(APPacket.ReceivedItems { index := 0, items := [{ item := 100001 }] }).ToJSON]
      (by decide) (by rfl) (by rfl)).2, by decide, by decide⟩


theorem c_str_nil : c_str [] = [] := rfl

/-- Reading back the document written for a message part gives the part, each string
up to its first NUL. -/
theorem APJSONMessagePart_element_ToJSON (part : APJSONMessagePart)
    (h1 : -2147483648 ≤ part.flags ∧ part.flags ≤ 2147483647)
    (h2 : -2147483648 ≤ part.player ∧ part.player ≤ 2147483647) :
    APJSONMessagePart.element part.ToJSON =
      some { part with
        type := c_str part.type
        text := c_str part.text
        color := c_str part.color } := by
  obtain ⟨type, text, color, flags, player⟩ := part
  by_cases hc : color = [] <;> by_cases hf : flags = 0 <;> by_cases hp : player = 0 <;>
    simp_all [APJSONMessagePart.element, APJSONMessagePart.FromJSON, APJSONMessagePart.ToJSON,
      JValue.IsObject, JValue.readString, JValue.readInt, JValue.member?, List.find?,
      JValue.IsInt, c_str_idem, c_str_nil]

theorem filterMap_part_ToJSON (data : List APJSONMessagePart)
    (h : ∀ part ∈ data,
      (-2147483648 ≤ part.flags ∧ part.flags ≤ 2147483647)
        ∧ (-2147483648 ≤ part.player ∧ part.player ≤ 2147483647)) :
    (data.map APJSONMessagePart.ToJSON).filterMap APJSONMessagePart.element =
      data.map (fun part => { part with
        type := c_str part.type
        text := c_str part.text
        color := c_str part.color }) := by
  induction data with
  | nil => rfl
  | cons x xs ih =>
    have hx := h x (List.mem_cons_self x xs)
    rw [List.map_cons, List.filterMap_cons, APJSONMessagePart_element_ToJSON x hx.1 hx.2,
      ih (fun i hi => h i (List.mem_cons_of_mem x hi))]
    rfl

/-- Claim C28, as the code has it: when the JSON library reads the text written for a
PrintJSON packet back to the document written, `APPacketFromString` of
`APPacketToString(p)` is a PrintJSON packet with the type of `p` and the data
parts of `p` in the same order, `flags` and `player` reproduced (also when the
encoder left them out as 0, or the color as empty), and each string (the type
of the packet; type, text and color of each part) reproduced up to its first
NUL character: in full when it holds no NUL. -/
theorem PrintJSON_round_trip (J : JsonWriter) (R : JsonReader) (p : APPrintJSONPacket)
    (hR : R (APPacketToString J (.PrintJSON p)) = some (APPacket.PrintJSON p).ToJSON)
    (hparts : ∀ part ∈ p.data,
      (-2147483648 ≤ part.flags ∧ part.flags ≤ 2147483647)
        ∧ (-2147483648 ≤ part.player ∧ part.player ≤ 2147483647)) :
    APPacketFromString R (APPacketToString J (.PrintJSON p)) =
        .ok (some (.PrintJSON
          { type := c_str p.type
            data := p.data.map (fun part => { part with
              type := c_str part.type
              text := c_str part.text
              color := c_str part.color }) }))
      ∧ (c_str p.type = p.type →
          (∀ part ∈ p.data, c_str part.type = part.type ∧ c_str part.text = part.text
            ∧ c_str part.color = part.color) →
          APPacketFromString R (APPacketToString J (.PrintJSON p)) =
            .ok (some (.PrintJSON { type := p.type, data := p.data }))) := by
  have hc : c_str (APPacketToString J (.PrintJSON p)) = APPacketToString J (.PrintJSON p) :=
    c_str_idem _
  have hf := filterMap_part_ToJSON p.data hparts
  have main : APPacketFromString R (APPacketToString J (.PrintJSON p)) =
      .ok (some (.PrintJSON
        { type := c_str p.type
          data := p.data.map (fun part => { part with
            type := c_str part.type
            text := c_str part.text
            color := c_str part.color }) })) := by
    unfold APPacketFromString
    rw [hc, hR]
    have hcmd : c_str ['P', 'r', 'i', 'n', 't', 'J', 'S', 'O', 'N'] =
        ['P', 'r', 'i', 'n', 't', 'J', 'S', 'O', 'N'] := by decide
    simp [APPacket.ToJSON, APPacket.cmd, APPacket.FromJSON, APPrintJSONPacket.FromJSON,
      JValue.readString, JValue.readArray, JValue.IsObject, JValue.member?, List.find?,
      c_str_idem, hcmd, hf]
  refine ⟨main, fun ht hd => ?_⟩
  rw [main, ht]
  have : p.data.map (fun part => { part with
      type := c_str part.type
      text := c_str part.text
      color := c_str part.color }) = p.data := by
    conv_rhs => rw [← List.map_id p.data]
    apply List.map_congr_left
    intro part hpart
    obtain ⟨h1, h2, h3⟩ := hd part hpart
    rw [h1, h2, h3]
    rfl
  rw [this]

set_option maxRecDepth 100000 in
theorem PrintJSON_round_trip_witness :
    APPacketFromString
        (readerOf [(APPacket.PrintJSON
          { type := "ItemSend".toList,
            data := [{ type := "player_id".toList, text := "1".toList },
              { type := "text".toList, text := " found ".toList, color := "green".toList,
                flags := 1, player := 2 }] }).ToJSON])
        (APPacketToString compactWriter (.PrintJSON
          { type := "ItemSend".toList,
            data := [{ type := "player_id".toList, text := "1".toList },
              { type := "text".toList, text := " found ".toList, color := "green".toList,
                flags := 1, player := 2 }] })) =
      .ok (some (.PrintJSON
          { type := "ItemSend".toList,
            data := [{ type := "player_id".toList, text := "1".toList },
              { type := "text".toList, text := " found ".toList, color := "green".toList,
                flags := 1, player := 2 }] })) :=
  (PrintJSON_round_trip compactWriter _ _ (by rfl) (by decide)).2 (by decide) (by decide)

set_option maxRecDepth 100000 in
/-- Claim C28 fails as stated: a part whose text is `a`, a NUL character, `b` is
written as the text `a` (`text.c_str()` ends at the NUL); the reader gives back
the document written and the packet decoded has the text `a`, not the text of
the packet encoded. -/
theorem PrintJSON_text_cut_at_NUL :
    APPacketToString compactWriter (.PrintJSON
        { type := "Chat".toList,
          data := [{ type := "text".toList, text := ['a', Char.ofNat 0, 'b'] }] }) =
        ("\x7b\"cmd\":\"PrintJSON\",\"type\":\"Chat\",\"data\":"
          ++ "[\x7b\"type\":\"text\",\"text\":\"a\"\x7d]\x7d").toList
      ∧ (readerOf [(APPacket.PrintJSON
            { type := "Chat".toList,
              data := [{ type := "text".toList, text := ['a', Char.ofNat 0, 'b'] }] }).ToJSON]
          (APPacketToString compactWriter (.PrintJSON
            { type := "Chat".toList,
              data := [{ type := "text".toList, text := ['a', Char.ofNat 0, 'b'] }] }))).isSome = true
      ∧ APPacketFromString
          (readerOf [(APPacket.PrintJSON
            { type := "Chat".toList,
              data := [{ type := "text".toList, text := ['a', Char.ofNat 0, 'b'] }] }).ToJSON])
          (APPacketToString compactWriter (.PrintJSON
            { type := "Chat".toList,
              data := [{ type := "text".toList, text := ['a', Char.ofNat 0, 'b'] }] })) =
        .ok (some (.PrintJSON
          { type := "Chat".toList, data := [{ type := "text".toList, text := ['a'] }] })) := by
  decide


theorem findChar_after (pre body : Str) (c : Char) (start : Nat) (hs : start = pre.length) :
    findChar (pre ++ body) c start =
      if body.indexOf c < body.length then some (start + body.indexOf c) else none := by
  subst hs
  simp only [findChar, List.drop_left]

theorem substr_after (pre body : Str) (k len : Nat) (start : Nat) (hs : start = pre.length) :
    substr (pre ++ body) (start + k) len = (body.drop k).take len := by
  subst hs
  simp only [substr, List.drop_append]

theorem drop_after (pre body : Str) (k : Nat) (start : Nat) (hs : start = pre.length) :
    (pre ++ body).drop (start + k) = body.drop k := by
  subst hs
  simp only [List.drop_append]

theorem findStrFrom_ge (pat s : Str) (i k : Nat) (h : findStrFrom pat s i = some k) : i ≤ k := by
  induction s generalizing i with
  | nil =>
    unfold findStrFrom at h
    split at h
    · exact Nat.le_of_eq (Option.some.inj h)
    · exact absurd h (by simp)
  | cons c t ih =>
    unfold findStrFrom at h
    split at h
    · exact Nat.le_of_eq (Option.some.inj h)
    · exact Nat.le_of_succ_le (ih (i + 1) h)

/-- The search `s.find(pat) == 0` tests whether `s` begins with `pat`. -/
theorem findStr_zero_iff (s pat : Str) : findStr s pat = some 0 ↔ startsWith pat s = true := by
  unfold findStr
  cases s with
  | nil =>
    cases pat with
    | nil => simp [findStrFrom, startsWith]
    | cons p ps => simp [findStrFrom, startsWith]
  | cons c t =>
    unfold findStrFrom
    by_cases h : startsWith pat (c :: t) = true
    · simp [h]
    · simp only [h, if_false, Bool.false_eq_true, iff_false]
      intro hk
      exact absurd (findStrFrom_ge pat t 1 0 hk) (by decide)

/-- What `ParseWebSocketURL` makes of the text `body` that follows the scheme `ws://`
(`secure` false) or `wss://` (`secure` true): the path starts at the first `/`
of `body`, and a `:` before it separates the host from the port. -/
theorem ParseWebSocketURL_body (secure : Bool) (body : Str) (result : ParsedURL) :
    ParseWebSocketURL ((if secure then "wss://".toList else "ws://".toList) ++ body) result =
      (if body.indexOf ':' < body.length ∧ body.indexOf ':' < body.indexOf '/' then
        match stoi ((body.drop (body.indexOf ':' + 1)).take
            (body.indexOf '/' - body.indexOf ':' - 1)) with
        | .error e => .error e
        | .ok port => .ok (true,
            { scheme := if secure then "wss".toList else "ws".toList
              host := body.take (body.indexOf ':')
              port := port
              path := if body.indexOf '/' < body.length then body.drop (body.indexOf '/')
                else "/".toList
              is_secure := secure })
      else .ok (true,
        { scheme := if secure then "wss".toList else "ws".toList
          host := body.take (body.indexOf '/')
          port := if secure then 443 else 80
          path := if body.indexOf '/' < body.length then body.drop (body.indexOf '/')
            else "/".toList
          is_secure := secure })) := by
  cases secure with
  | false =>
    have e : (if false = true then "wss://".toList else "ws://".toList) ++ body =
        ['w', 's', ':', '/', '/'] ++ body := rfl
    have hs1 : findStr ((['w', 's', ':', '/', '/'] ++ body).map Char.toLower) "ws://".toList =
        some 0 := by
      simp [findStr, findStrFrom, startsWith]
    have hs2 : findStr (['w', 's', ':', '/', '/'] ++ body) "://".toList = some 2 := by
      simp [findStr, findStrFrom, startsWith]
    have hp := findChar_after ['w', 's', ':', '/', '/'] body '/' (2 + 3) rfl
    have hc := findChar_after ['w', 's', ':', '/', '/'] body ':' (2 + 3) rfl
    have hsub0 : ∀ len, substr (['w', 's', ':', '/', '/'] ++ body) (2 + 3) len = body.take len :=
      fun len => substr_after ['w', 's', ':', '/', '/'] body 0 len (2 + 3) rfl
    have hsub1 : ∀ k len, substr (['w', 's', ':', '/', '/'] ++ body) (2 + 3 + k + 1) len =
        (body.drop (k + 1)).take len :=
      fun k len => substr_after ['w', 's', ':', '/', '/'] body (k + 1) len (2 + 3) rfl
    have hdrop : ∀ k, (['w', 's', ':', '/', '/'] ++ body).drop (2 + 3 + k) = body.drop k :=
      fun k => drop_after ['w', 's', ':', '/', '/'] body k (2 + 3) rfl
    have hlen : (['w', 's', ':', '/', '/'] ++ body).length = 2 + 3 + body.length := by
      simp only [List.length_append, List.length_cons, List.length_nil]
    rw [e]
    unfold ParseWebSocketURL
    simp only [hs1, hs2, if_true, hp, hc, reduceCtorEq, if_false]
    by_cases hP : body.indexOf '/' < body.length <;> by_cases hC : body.indexOf ':' < body.length
    · simp only [hP, hC, if_true, true_and, hsub0, hsub1, hdrop, Nat.add_sub_add_left,
        Nat.add_sub_cancel_left, Nat.add_lt_add_iff_left]
    · simp only [hP, hC, if_true, false_and, if_false, hsub0, hdrop, Nat.add_sub_cancel_left]
    · have hPeq : body.indexOf '/' = body.length :=
        Nat.le_antisymm List.indexOf_le_length (Nat.le_of_not_lt hP)
      simp only [hP, hC, if_true, true_and, if_false, hsub0, hsub1, hlen,
        Nat.add_sub_add_left, Nat.add_sub_cancel_left, Nat.add_lt_add_iff_left]
      simp only [hPeq, hC, if_true]
    · have hPeq : body.indexOf '/' = body.length :=
        Nat.le_antisymm List.indexOf_le_length (Nat.le_of_not_lt hP)
      simp only [hP, hC, false_and, if_false, hsub0, hlen, Nat.add_sub_cancel_left]
      simp only [hPeq]
  | true =>
    have e : (if true = true then "wss://".toList else "ws://".toList) ++ body =
        ['w', 's', 's', ':', '/', '/'] ++ body := rfl
    have hs1 : findStr ((['w', 's', 's', ':', '/', '/'] ++ body).map Char.toLower)
          "ws://".toList ≠ some 0
        ∧ findStr ((['w', 's', 's', ':', '/', '/'] ++ body).map Char.toLower)
          "wss://".toList = some 0 := by
      constructor
      · intro h
        have := (findStr_zero_iff _ _).mp h
        revert this
        simp [startsWith]
      · simp [findStr, findStrFrom, startsWith]
    have hs2 : findStr (['w', 's', 's', ':', '/', '/'] ++ body) "://".toList = some 3 := by
      simp [findStr, findStrFrom, startsWith]
    have hp := findChar_after ['w', 's', 's', ':', '/', '/'] body '/' (3 + 3) rfl
    have hc := findChar_after ['w', 's', 's', ':', '/', '/'] body ':' (3 + 3) rfl
    have hsub0 : ∀ len, substr (['w', 's', 's', ':', '/', '/'] ++ body) (3 + 3) len = body.take len :=
      fun len => substr_after ['w', 's', 's', ':', '/', '/'] body 0 len (3 + 3) rfl
    have hsub1 : ∀ k len, substr (['w', 's', 's', ':', '/', '/'] ++ body) (3 + 3 + k + 1) len =
        (body.drop (k + 1)).take len :=
      fun k len => substr_after ['w', 's', 's', ':', '/', '/'] body (k + 1) len (3 + 3) rfl
    have hdrop : ∀ k, (['w', 's', 's', ':', '/', '/'] ++ body).drop (3 + 3 + k) = body.drop k :=
      fun k => drop_after ['w', 's', 's', ':', '/', '/'] body k (3 + 3) rfl
    have hlen : (['w', 's', 's', ':', '/', '/'] ++ body).length = 3 + 3 + body.length := by
      simp only [List.length_append, List.length_cons, List.length_nil]
    rw [e]
    unfold ParseWebSocketURL
    simp only [hs1.1, hs1.2, hs2, if_true, hp, hc, reduceCtorEq, if_false]
    by_cases hP : body.indexOf '/' < body.length <;> by_cases hC : body.indexOf ':' < body.length
    · simp only [hP, hC, if_true, true_and, hsub0, hsub1, hdrop, Nat.add_sub_add_left,
        Nat.add_sub_cancel_left, Nat.add_lt_add_iff_left]
    · simp only [hP, hC, if_true, false_and, if_false, hsub0, hdrop, Nat.add_sub_cancel_left]
    · have hPeq : body.indexOf '/' = body.length :=
        Nat.le_antisymm List.indexOf_le_length (Nat.le_of_not_lt hP)
      simp only [hP, hC, if_true, true_and, if_false, hsub0, hsub1, hlen,
        Nat.add_sub_add_left, Nat.add_sub_cancel_left, Nat.add_lt_add_iff_left]
      simp only [hPeq, hC, if_true]
    · have hPeq : body.indexOf '/' = body.length :=
        Nat.le_antisymm List.indexOf_le_length (Nat.le_of_not_lt hP)
      simp only [hP, hC, false_and, if_false, hsub0, hlen, Nat.add_sub_cancel_left]
      simp only [hPeq]

theorem startsWith_iff_begins (pat s : Str) : startsWith pat s = true ↔ pat <+: s := by
  induction pat generalizing s with
  | nil => simp [startsWith]
  | cons p ps ih =>
    cases s with
    | nil => simp [startsWith]
    | cons c cs => simp [startsWith, List.cons_prefix_cons, ih]

/-- The four shapes of the text after the scheme, for a host without `:` and `/`, a
port text `D` of digits and a path `/rest`: what `ParseWebSocketURL` returns. -/
theorem ParseWebSocketURL_forms (secure : Bool) (host rest : Str) (port : Int)
    (result : ParsedURL) (h1 : ':' ∉ host) (h2 : '/' ∉ host)
    (hlo : -2147483648 ≤ port) (hhi : port ≤ 2147483647) :
    ParseWebSocketURL ((if secure then "wss://".toList else "ws://".toList)
          ++ (host ++ ':' :: (to_string port ++ '/' :: rest))) result =
        .ok (true, { scheme := if secure then "wss".toList else "ws".toList, host := host,
                     port := port, path := '/' :: rest, is_secure := secure })
      ∧ ParseWebSocketURL ((if secure then "wss://".toList else "ws://".toList)
          ++ (host ++ '/' :: rest)) result =
        .ok (true, { scheme := if secure then "wss".toList else "ws".toList, host := host,
                     port := if secure then 443 else 80, path := '/' :: rest,
                     is_secure := secure })
      ∧ ParseWebSocketURL ((if secure then "wss://".toList else "ws://".toList)
          ++ (host ++ ':' :: to_string port)) result =
        .ok (true, { scheme := if secure then "wss".toList else "ws".toList, host := host,
                     port := port, path := "/".toList, is_secure := secure })
      ∧ ParseWebSocketURL ((if secure then "wss://".toList else "ws://".toList) ++ host)
          result =
        .ok (true, { scheme := if secure then "wss".toList else "ws".toList, host := host,
                     port := if secure then 443 else 80, path := "/".toList,
                     is_secure := secure }) := by
  have hD := to_string_no_sep port
  have hst := stoi_to_string port hlo hhi
  refine ⟨?_, ?_, ?_, ?_⟩
  · have hc : List.indexOf ':' (host ++ ':' :: (to_string port ++ '/' :: rest)) = host.length := by
      rw [List.indexOf_append_of_not_mem h1]
      simp
    have hp : List.indexOf '/' (host ++ ':' :: (to_string port ++ '/' :: rest)) =
        host.length + 1 + (to_string port).length := by
      rw [List.indexOf_append_of_not_mem h2, List.indexOf_cons_ne _ (by decide),
        List.indexOf_append_of_not_mem hD.1]
      simp
      omega
    have hlen : (host ++ ':' :: (to_string port ++ '/' :: rest)).length =
        host.length + 1 + (to_string port).length + 1 + rest.length := by
      simp
      omega
    have hcond : List.indexOf ':' (host ++ ':' :: (to_string port ++ '/' :: rest)) <
          (host ++ ':' :: (to_string port ++ '/' :: rest)).length
        ∧ List.indexOf ':' (host ++ ':' :: (to_string port ++ '/' :: rest)) <
          List.indexOf '/' (host ++ ':' :: (to_string port ++ '/' :: rest)) := by
      rw [hc, hp, hlen]
      omega
    have hpath : List.indexOf '/' (host ++ ':' :: (to_string port ++ '/' :: rest)) <
        (host ++ ':' :: (to_string port ++ '/' :: rest)).length := by
      rw [hp, hlen]
      omega
    have e1 : (List.drop (host.length + 1) (host ++ ':' :: (to_string port ++ '/' :: rest))).take
        (host.length + 1 + (to_string port).length - host.length - 1) = to_string port := by
      have : host ++ ':' :: (to_string port ++ '/' :: rest) =
          (host ++ [':']) ++ (to_string port ++ '/' :: rest) := by simp
      rw [this, List.drop_left' (by simp)]
      have : host.length + 1 + (to_string port).length - host.length - 1 =
          (to_string port).length := by omega
      rw [this, List.take_left]
    have e2 : List.drop (host.length + 1 + (to_string port).length)
        (host ++ ':' :: (to_string port ++ '/' :: rest)) = '/' :: rest := by
      have : host ++ ':' :: (to_string port ++ '/' :: rest) =
          (host ++ [':'] ++ to_string port) ++ '/' :: rest := by simp
      rw [this, List.drop_left' (by simp; omega)]
    rw [ParseWebSocketURL_body, if_pos hcond, if_pos hpath, hp, hc, e1, hst, e2, List.take_left]
  · have hp : List.indexOf '/' (host ++ '/' :: rest) = host.length := by
      rw [List.indexOf_append_of_not_mem h2]
      simp
    have hc : host.length ≤ List.indexOf ':' (host ++ '/' :: rest) := by
      rw [List.indexOf_append_of_not_mem h1]
      omega
    have hcond : ¬(List.indexOf ':' (host ++ '/' :: rest) < (host ++ '/' :: rest).length
        ∧ List.indexOf ':' (host ++ '/' :: rest) < List.indexOf '/' (host ++ '/' :: rest)) := by
      rw [hp]
      omega
    have hpath : List.indexOf '/' (host ++ '/' :: rest) < (host ++ '/' :: rest).length := by
      rw [hp]
      simp
    rw [ParseWebSocketURL_body, if_neg hcond, if_pos hpath, hp, List.take_left, List.drop_left]
  · have hc : List.indexOf ':' (host ++ ':' :: to_string port) = host.length := by
      rw [List.indexOf_append_of_not_mem h1]
      simp
    have hp : List.indexOf '/' (host ++ ':' :: to_string port) =
        (host ++ ':' :: to_string port).length := by
      apply List.indexOf_eq_length.mpr
      simp [h2, hD.1]
    have hlen : (host ++ ':' :: to_string port).length =
        host.length + 1 + (to_string port).length := by
      simp
      omega
    have hcond : List.indexOf ':' (host ++ ':' :: to_string port) <
          (host ++ ':' :: to_string port).length
        ∧ List.indexOf ':' (host ++ ':' :: to_string port) <
          List.indexOf '/' (host ++ ':' :: to_string port) := by
      rw [hp, hc, hlen]
      omega
    have hpath : ¬ List.indexOf '/' (host ++ ':' :: to_string port) <
        (host ++ ':' :: to_string port).length := by
      rw [hp]
      omega
    have e1 : (List.drop (host.length + 1) (host ++ ':' :: to_string port)).take
        ((host ++ ':' :: to_string port).length - host.length - 1) = to_string port := by
      have : host ++ ':' :: to_string port = (host ++ [':']) ++ to_string port := by simp
      rw [this, List.drop_left' (by simp)]
      apply List.take_of_length_le
      simp
    rw [ParseWebSocketURL_body, if_pos hcond, if_neg hpath, hp, hc, e1, hst, List.take_left]
  · have hc : List.indexOf ':' host = host.length := List.indexOf_eq_length.mpr h1
    have hp : List.indexOf '/' host = host.length := List.indexOf_eq_length.mpr h2
    have hcond : ¬(List.indexOf ':' host < host.length
        ∧ List.indexOf ':' host < List.indexOf '/' host) := by
      rw [hc]
      omega
    have hpath : ¬ List.indexOf '/' host < host.length := by
      rw [hp]
      omega
    rw [ParseWebSocketURL_body, if_neg hcond, if_neg hpath, hp, List.take_length]

/-- Claim C26: `ParseWebSocketURL` inverts the format `ws://host[:port]/path`.  For a
host without `:` and `/`, a port in 0..65535 and a path that begins with `/`,
the URL with scheme `ws`, host, port and path parses to exactly these, not
secure; without the port part the port is 80, and 443 with `is_secure` true for
`wss`; without the path the path is `/`.  A URL whose lower-case form begins
with neither `ws://` nor `wss://` is rejected with false, the result record
untouched. -/
theorem ParseWebSocketURL_inverts_format (host path : Str) (port : Int) (result : ParsedURL)
    (h1 : ':' ∉ host) (h2 : '/' ∉ host) (hlo : 0 ≤ port) (hhi : port ≤ 65535)
    (hpath : path.head? = some '/') :
    ParseWebSocketURL ("ws://".toList ++ host ++ ":".toList ++ to_string port ++ path) result =
        .ok (true, { scheme := "ws".toList, host := host, port := port, path := path,
                     is_secure := false })
      ∧ ParseWebSocketURL ("ws://".toList ++ host ++ path) result =
        .ok (true, { scheme := "ws".toList, host := host, port := 80, path := path,
                     is_secure := false })
      ∧ ParseWebSocketURL ("wss://".toList ++ host ++ path) result =
        .ok (true, { scheme := "wss".toList, host := host, port := 443, path := path,
                     is_secure := true })
      ∧ ParseWebSocketURL ("wss://".toList ++ host ++ ":".toList ++ to_string port ++ path)
          result =
        .ok (true, { scheme := "wss".toList, host := host, port := port, path := path,
                     is_secure := true })
      ∧ ParseWebSocketURL ("ws://".toList ++ host ++ ":".toList ++ to_string port) result =
        .ok (true, { scheme := "ws".toList, host := host, port := port, path := "/".toList,
                     is_secure := false })
      ∧ ParseWebSocketURL ("ws://".toList ++ host) result =
        .ok (true, { scheme := "ws".toList, host := host, port := 80, path := "/".toList,
                     is_secure := false })
      ∧ ∀ url : Str, ¬ "ws://".toList <+: url.map Char.toLower →
          ¬ "wss://".toList <+: url.map Char.toLower →
          ParseWebSocketURL url result = .ok (false, result) := by
  obtain ⟨rest, rfl⟩ : ∃ rest, path = '/' :: rest := by
    cases path with
    | nil => simp at hpath
    | cons c t =>
      simp only [List.head?_cons, Option.some.injEq] at hpath
      exact ⟨t, by rw [hpath]⟩
  have hw := ParseWebSocketURL_forms false host rest port result h1 h2 (by omega) (by omega)
  have hs := ParseWebSocketURL_forms true host rest port result h1 h2 (by omega) (by omega)
  refine ⟨?_, ?_, ?_, ?_, ?_, ?_, ?_⟩
  · have e : "ws://".toList ++ host ++ ":".toList ++ to_string port ++ '/' :: rest =
        (if false = true then "wss://".toList else "ws://".toList)
          ++ (host ++ ':' :: (to_string port ++ '/' :: rest)) := by simp
    rw [e, hw.1]
    rfl
  · have e : "ws://".toList ++ host ++ '/' :: rest =
        (if false = true then "wss://".toList else "ws://".toList) ++ (host ++ '/' :: rest) := by
      simp
    rw [e, hw.2.1]
    rfl
  · have e : "wss://".toList ++ host ++ '/' :: rest =
        (if true = true then "wss://".toList else "ws://".toList) ++ (host ++ '/' :: rest) := by
      simp
    rw [e, hs.2.1]
    rfl
  · have e : "wss://".toList ++ host ++ ":".toList ++ to_string port ++ '/' :: rest =
        (if true = true then "wss://".toList else "ws://".toList)
          ++ (host ++ ':' :: (to_string port ++ '/' :: rest)) := by simp
    rw [e, hs.1]
    rfl
  · have e : "ws://".toList ++ host ++ ":".toList ++ to_string port =
        (if false = true then "wss://".toList else "ws://".toList)
          ++ (host ++ ':' :: to_string port) := by simp
    rw [e, hw.2.2.1]
    rfl
  · exact hw.2.2.2
  · intro url hn1 hn2
    have f1 : findStr (url.map Char.toLower) "ws://".toList ≠ some 0 :=
      fun h => hn1 ((startsWith_iff_begins _ _).mp ((findStr_zero_iff _ _).mp h))
    have f2 : findStr (url.map Char.toLower) "wss://".toList ≠ some 0 :=
      fun h => hn2 ((startsWith_iff_begins _ _).mp ((findStr_zero_iff _ _).mp h))
    unfold ParseWebSocketURL
    simp only [f1, f2, if_false]

set_option maxRecDepth 100000 in
theorem ParseWebSocketURL_inverts_format_witness :
    ParseWebSocketURL "ws://archipelago.gg:38281/socket".toList {} =
        .ok (true, { scheme := "ws".toList, host := "archipelago.gg".toList, port := 38281,
                     path := "/socket".toList, is_secure := false })
      ∧ ParseWebSocketURL "wss://archipelago.gg/socket".toList {} =
        .ok (true, { scheme := "wss".toList, host := "archipelago.gg".toList, port := 443,
                     path := "/socket".toList, is_secure := true })
      ∧ ParseWebSocketURL "http://archipelago.gg/".toList {} = .ok (false, {}) :=
  ⟨(ParseWebSocketURL_inverts_format "archipelago.gg".toList "/socket".toList 38281 {}
      (by decide) (by decide) (by decide) (by decide) (by decide)).1,
    (ParseWebSocketURL_inverts_format "archipelago.gg".toList "/socket".toList 38281 {}
      (by decide) (by decide) (by decide) (by decide) (by decide)).2.2.1,
    (ParseWebSocketURL_inverts_format "archipelago.gg".toList "/socket".toList 38281 {}
      (by decide) (by decide) (by decide) (by decide) (by decide)).2.2.2.2.2.2
      "http://archipelago.gg/".toList (by decide) (by decide)⟩


end GZSelaco
